import Mathlib

/-!
# Frame-graph passes of the mana engine

A shallow embedding of `DeferredLightingPass` (setup and execute) and of
`CompositePass` (setup) together with the frame-graph builder they talk to.

* Member functions become state-passing functions on a `World`: the pass's
  member fields, the builder, the ordered list of builder calls issued by the
  running `setup`, the ordered list of calls received by backend objects, and
  the list of upload producers that have been invoked.
* A C++ exception is an `Except.error`; the fields mutated before the throw
  keep their new values, as they do in C++.
* `size_t` products are taken modulo `2 ^ 64`.
* Floating-point values are symbolic expressions: no rounding is modelled.
-/

namespace Mana

/-! ## Values -/

/-- Number of values of `size_t` (64-bit targets). -/
def SIZE_T_RANGE : Nat := 2 ^ 64

/-- Product of two `size_t` values. -/
def mulSizeT (a b : Nat) : Nat := (a * b) % SIZE_T_RANGE

/-- Symbolic `float`: a stored value (its bit pattern), an integer literal, or
an operation of the source applied to floats. -/
inductive FloatExpr where
  | bits (b : Nat)
  | lit (n : Int)
  | mul (a b : FloatExpr)
  | div (a b : FloatExpr)
  | cosDegrees (a : FloatExpr)
  deriving DecidableEq, Repr

/-- `Vec2i`. -/
structure Vec2i where
  x : Int
  y : Int
  deriving DecidableEq, Repr

/-- `Vec3f`. -/
structure Vec3f where
  x : FloatExpr
  y : FloatExpr
  z : FloatExpr
  deriving DecidableEq, Repr

/-- `Vec4f`; `getMemory()` yields the four components in order, so the
`std::array<float, 4>` members of the packed records are modelled by `Vec4f`
itself. -/
structure Vec4f where
  x : FloatExpr
  y : FloatExpr
  z : FloatExpr
  w : FloatExpr
  deriving DecidableEq, Repr

/-- `ColorRGBA`: four 8-bit channels. -/
structure ColorRGBA where
  r : Nat
  g : Nat
  b : Nat
  a : Nat
  deriving DecidableEq, Repr

/-- Modelled from the spec: `ColorRGBA::divide` is declared outside src/ (math
library, an external collaborator); it scales every channel to a float by
dividing by 255. -/
def ColorRGBA.divide (c : ColorRGBA) : Vec4f :=
  { x := .div (.lit c.r) (.lit 255), y := .div (.lit c.g) (.lit 255),
    z := .div (.lit c.b) (.lit 255), w := .div (.lit c.a) (.lit 255) }

/-! ## Scene -/

/-- `Transform`; only its position is read by the passes. -/
structure Transform where
  position : Vec3f
  deriving DecidableEq, Repr

def Transform.getPosition (t : Transform) : Vec3f := t.position

/-- `PointLight`. -/
structure PointLight where
  color : ColorRGBA
  power : FloatExpr
  shadowFarPlane : FloatExpr
  castShadows : Bool
  deriving DecidableEq, Repr

/-- `DirectionalLight`. -/
structure DirectionalLight where
  direction : Vec3f
  color : ColorRGBA
  power : FloatExpr
  shadowFarPlane : FloatExpr
  castShadows : Bool
  deriving DecidableEq, Repr

/-- `SpotLight`. -/
structure SpotLight where
  direction : Vec3f
  quadratic : FloatExpr
  color : ColorRGBA
  power : FloatExpr
  shadowFarPlane : FloatExpr
  cutOff : FloatExpr
  outerCutOff : FloatExpr
  constant : FloatExpr
  linear : FloatExpr
  castShadows : Bool
  deriving DecidableEq, Repr

/-- Modelled from the spec: the nodes of the scene graph are declared outside
src/ (an external collaborator). A node with the properties the passes ask
for: its `TransformProperty`, whether it carries a `CameraProperty`, and the
light it carries, if any. The passes ask the camera node and the light nodes
for their transform without a check, and neither the source nor the spec names
a failure of that lookup, so every node has its transform. -/
structure Node where
  transform : Transform
  camera : Bool
  pointLight : Option PointLight
  directionalLight : Option DirectionalLight
  spotLight : Option SpotLight
  deriving DecidableEq, Repr

/-- Modelled from the spec: the scene graph is declared outside src/ (an
external collaborator). A scene is the list of its nodes in the order in which
`rootNode.findAll` and `rootNode.find` visit them. -/
structure Scene where
  nodes : List Node
  deriving DecidableEq, Repr

/-- `scene.rootNode.findAll({typeid(PointLightProperty)})`. -/
def Scene.findAllPointLight (s : Scene) : List Node :=
  s.nodes.filter (fun n => n.pointLight.isSome)

/-- `scene.rootNode.findAll({typeid(DirectionalLightProperty)})`. -/
def Scene.findAllDirectionalLight (s : Scene) : List Node :=
  s.nodes.filter (fun n => n.directionalLight.isSome)

/-- `scene.rootNode.findAll({typeid(SpotLightProperty)})`. -/
def Scene.findAllSpotLight (s : Scene) : List Node :=
  s.nodes.filter (fun n => n.spotLight.isSome)

/-! ## Geometry -/

/-- Modelled from the spec: `VertexLayout` is declared outside src/; a layout
is the list of the byte sizes of its attributes and `getSize()` is their sum. -/
structure VertexLayout where
  attributes : List Nat
  deriving DecidableEq, Repr

def VertexLayout.getSize (l : VertexLayout) : Nat := l.attributes.sum

/-- Modelled from the spec: `Vertex` is declared outside src/; a vertex is the
bytes of its attribute data. -/
structure Vertex where
  buffer : List Nat
  deriving DecidableEq, Repr

/-- `Mesh`: the members the passes read. -/
structure Mesh where
  vertices : List Vertex
  vertexLayout : VertexLayout
  deriving DecidableEq, Repr

/-- Modelled from the spec: `VertexStream` is declared outside src/
(`xng/render/geometry/vertexstream.hpp`); `VertexStream().addVertices(vs)
.getVertexBuffer()` is the concatenation of the bytes of the vertices, in
order. -/
def VertexStream.getVertexBuffer (vs : List Vertex) : List Nat :=
  (vs.map (fun v => v.buffer)).flatten

/-! ## Handles and descriptors -/

/-- `FrameGraphResource`: the handle a pass holds for a graph resource. It
carries the `assigned` flag and, next to its index, the generation (frame
epoch) in which it was created. The default handle `{}` is unassigned. -/
structure FrameGraphResource where
  index : Nat := 0
  generation : Nat := 0
  assigned : Bool := false
  deriving DecidableEq, Repr

/-- `FrameGraphSlot`: the slot identifiers the two passes use. -/
inductive FrameGraphSlot where
  | SLOT_SCREEN_COLOR
  | SLOT_SCREEN_DEPTH
  | SLOT_DEFERRED_COLOR
  | SLOT_DEFERRED_DEPTH
  | SLOT_FORWARD_COLOR
  | SLOT_FORWARD_DEPTH
  | SLOT_BACKGROUND_COLOR
  | SLOT_GBUFFER_POSITION
  | SLOT_GBUFFER_NORMAL
  | SLOT_GBUFFER_TANGENT
  | SLOT_GBUFFER_ROUGHNESS_METALLIC_AO
  | SLOT_GBUFFER_ALBEDO
  | SLOT_GBUFFER_OBJECT_SHADOWS
  | SLOT_GBUFFER_DEPTH
  | SLOT_SHADOW_MAP_POINT
  deriving DecidableEq, Repr

export FrameGraphSlot (SLOT_SCREEN_COLOR SLOT_SCREEN_DEPTH SLOT_DEFERRED_COLOR
  SLOT_DEFERRED_DEPTH SLOT_FORWARD_COLOR SLOT_FORWARD_DEPTH SLOT_BACKGROUND_COLOR
  SLOT_GBUFFER_POSITION SLOT_GBUFFER_NORMAL SLOT_GBUFFER_TANGENT
  SLOT_GBUFFER_ROUGHNESS_METALLIC_AO SLOT_GBUFFER_ALBEDO SLOT_GBUFFER_OBJECT_SHADOWS
  SLOT_GBUFFER_DEPTH SLOT_SHADOW_MAP_POINT)

/-- Shader stages named in the sources. -/
inductive ShaderStage where
  | VERTEX
  | FRAGMENT
  deriving DecidableEq, Repr

/-- The generated shader constants the two passes refer to. -/
inductive Shader where
  | deferredlightingpass_vs
  | deferredlightingpass_fs
  | compositepass_vs
  | compositepass_fs
  deriving DecidableEq, Repr

/-- Binding kinds of a pipeline descriptor. -/
inductive ShaderBinding where
  | BIND_TEXTURE_BUFFER
  | BIND_TEXTURE_ARRAY_BUFFER
  | BIND_SHADER_STORAGE_BUFFER
  deriving DecidableEq, Repr

export ShaderBinding (BIND_TEXTURE_BUFFER BIND_TEXTURE_ARRAY_BUFFER BIND_SHADER_STORAGE_BUFFER)

inductive Primitive where
  | TRIANGLES
  deriving DecidableEq, Repr

inductive BlendMode where
  | SRC_ALPHA
  | ONE_MINUS_SRC_ALPHA
  | ONE
  deriving DecidableEq, Repr

inductive TextureFiltering where
  | NEAREST
  deriving DecidableEq, Repr

inductive AccessMode where
  | READ
  deriving DecidableEq, Repr

structure VertexBufferDesc where
  size : Nat
  deriving DecidableEq, Repr

structure VertexArrayObjectDesc where
  vertexLayout : VertexLayout
  deriving DecidableEq, Repr

/-- `RenderPipelineDesc`. A member the source leaves at the default of the
declaration (which is outside src/) is `none`. -/
structure RenderPipelineDesc where
  shaders : List (ShaderStage × Shader)
  bindings : List ShaderBinding
  primitive : Primitive
  vertexLayout : VertexLayout
  enableBlending : Option Bool := none
  enableDepthTest : Option Bool := none
  depthTestWrite : Option Bool := none
  colorBlendSourceMode : Option BlendMode := none
  colorBlendDestinationMode : Option BlendMode := none
  alphaBlendSourceMode : Option BlendMode := none
  alphaBlendDestinationMode : Option BlendMode := none
  deriving DecidableEq, Repr

/-- The value of `Vec2i * float` (an operator of the math library, outside
src/), kept symbolic: the integer vector and the factor it is scaled by. -/
structure Vec2iScaled where
  base : Vec2i
  factor : FloatExpr
  deriving DecidableEq, Repr

structure RenderTargetDesc where
  size : Vec2iScaled
  numberOfColorAttachments : Nat
  hasDepthStencilAttachment : Bool
  deriving DecidableEq, Repr

structure RenderPassDesc where
  numberOfColorAttachments : Nat
  hasDepthStencilAttachment : Bool
  deriving DecidableEq, Repr

structure ShaderStorageBufferDesc where
  size : Nat
  deriving DecidableEq, Repr

/-- `TextureArrayBufferDesc`; the pass only passes the default `{}`. -/
structure TextureArrayBufferDesc where
  deriving DecidableEq, Repr

/-- `DrawCall(offset, count)`. -/
structure DrawCall where
  offset : Nat
  count : Nat
  deriving DecidableEq, Repr

/-- `FrameGraphCommand::ShaderData`: a resource and the access each stage has. -/
structure ShaderData where
  resource : FrameGraphResource
  access : List (ShaderStage × AccessMode)
  deriving DecidableEq, Repr

/-- `FrameGraphAttachment`; the pass only builds `texture(handle)`. -/
inductive FrameGraphAttachment where
  | texture (h : FrameGraphResource)
  deriving DecidableEq, Repr

/-- The deferred data producers handed to `builder.upload`; one constructor per
lambda of the sources. The lambda of `CompositePass::setup` captures `this`. -/
inductive UploadProducer where
  | compositePassVertexData
  deriving DecidableEq, Repr

/-- A call of a builder method, with its arguments and, for a call that returns
a handle or a flag, what it returned. -/
inductive Call where
  | createVertexBuffer (desc : VertexBufferDesc) (ret : FrameGraphResource)
  | createVertexArrayObject (desc : VertexArrayObjectDesc) (ret : FrameGraphResource)
  | createPipeline (desc : RenderPipelineDesc) (ret : FrameGraphResource)
  | createRenderPipeline (desc : RenderPipelineDesc) (ret : FrameGraphResource)
  | createRenderTarget (desc : RenderTargetDesc) (ret : FrameGraphResource)
  | createRenderPass (desc : RenderPassDesc) (ret : FrameGraphResource)
  | createShaderStorageBuffer (desc : ShaderStorageBufferDesc) (ret : FrameGraphResource)
  | createTextureArrayBuffer (desc : TextureArrayBufferDesc) (ret : FrameGraphResource)
  | createCommandBuffer (ret : FrameGraphResource)
  | getSlot (slot : FrameGraphSlot) (ret : FrameGraphResource)
  | checkSlot (slot : FrameGraphSlot) (ret : Bool)
  | read (h : FrameGraphResource)
  | write (h : FrameGraphResource)
  | persist (h : FrameGraphResource)
  | upload (h : FrameGraphResource) (producer : UploadProducer)
  | blitColor (source target : FrameGraphResource) (sourceOffset targetOffset : Vec2i)
      (sourceRect targetRect : Vec2i) (filter : TextureFiltering)
      (sourceIndex targetIndex : Nat)
  | beginPass (colorAttachments : List FrameGraphAttachment)
      (depthAttachment : FrameGraphAttachment)
  | bindPipeline (h : FrameGraphResource)
  | bindVertexBuffers (vertexBuffer indexBuffer instanceBuffer : FrameGraphResource)
      (vertexLayout instanceArrayLayout : VertexLayout)
  | bindShaderResources (resources : List ShaderData)
  | drawArray (drawCall : DrawCall)
  | finishPass
  deriving DecidableEq, Repr

/-! ## Errors and the builder -/

/-- The exceptions of the model. `graphError` is the `GraphError` of the builder
(a resource-consuming method called on an unassigned handle), `accessViolation`
is the error of fetching an undeclared resource during execute, `outOfRange` is
`std::out_of_range` of `std::vector::at`, `missingProperty` is the failure of
asking the scene for a node with a property that no node carries. -/
inductive Error where
  | graphError
  | accessViolation
  | outOfRange
  | missingProperty
  deriving DecidableEq, Repr

/-- Modelled from the spec: `FrameGraphSettings` is declared outside src/, "a
configuration surface with recognized options including render-scale (float)"
(spec 6). The one setting the passes read, held as the float it is. -/
structure FrameGraphSettings where
  SETTING_RENDER_SCALE : FloatExpr
  deriving DecidableEq, Repr

/-- Modelled from the spec: `FrameGraphBuilder` is declared outside src/. Its
state, as far as the two passes can observe it: the scene, the settings, the
back buffer size and the render resolution of the frame, the slot table, the
generation (epoch) of the frame, and the index the next created handle gets.
A slot is bound exactly when the handle it holds is assigned, so `getSlot` on
an unbound slot returns an unassigned handle and `checkSlot` returns false for
it (spec 4.1, 4.4). -/
structure FrameGraphBuilder where
  scene : Scene
  settings : FrameGraphSettings
  backBufferSize : Vec2i
  renderResolution : Vec2i
  slots : FrameGraphSlot → FrameGraphResource
  generation : Nat
  counter : Nat

/-! ## Backend objects -/

inductive ResourceKind where
  | RenderTarget
  | RenderPipeline
  | RenderPass
  | VertexBuffer
  | VertexArrayObject
  | ShaderStorageBuffer
  | TextureBuffer
  | TextureArrayBuffer
  | CommandBuffer
  deriving DecidableEq, Repr

/-- A backend object as `resources.get<T>(handle)` hands it out: the object
resolved for `handle`, seen at type `T`. -/
structure Object where
  kind : ResourceKind
  handle : FrameGraphResource
  deriving DecidableEq, Repr

/-- `CommandQueue`, identified by a number. -/
structure CommandQueue where
  id : Nat
  deriving DecidableEq, Repr

/-- `RenderTargetAttachment`; the pass only builds `texture(object)`. -/
inductive RenderTargetAttachment where
  | texture (t : Object)
  deriving DecidableEq, Repr

/-- `Command` values as the backend objects of `execute` build them. -/
inductive Command where
  | beginPass (pass target : Object)
  | setViewport (pass : Object) (offset : Vec2i) (size : Vec2iScaled)
  | bindPipeline (pipeline : Object)
  | bindVertexArrayObject (vao : Object)
  | bindShaderResources (resources : List (Object × List (ShaderStage × AccessMode)))
  | drawArray (pass : Object) (drawCall : DrawCall)
  | endPass (pass : Object)
  deriving DecidableEq, Repr

/-- The packed records uploaded to the light buffers. -/
structure PointLightData where
  position : Vec4f
  color : Vec4f
  farPlane : Vec4f
  deriving DecidableEq, Repr

structure DirectionalLightData where
  direction : Vec4f
  color : Vec4f
  farPlane : Vec4f
  deriving DecidableEq, Repr

structure SpotLightData where
  position : Vec4f
  direction_quadratic : Vec4f
  color : Vec4f
  farPlane : Vec4f
  cutOff_outerCutOff_constant_linear : Vec4f
  deriving DecidableEq, Repr

/-- `ShaderStorageData`; both members are value-initialised. -/
structure ShaderStorageData where
  viewPosition : Vec4f := { x := .lit 0, y := .lit 0, z := .lit 0, w := .lit 0 }
  enableShadows : List Int := [0, 0, 0, 0]
  deriving DecidableEq, Repr

/-- Sizes of the packed (`#pragma pack(push, 1)`) records: 4-byte floats and
ints in arrays of four. -/
def sizeofPointLightData : Nat := 48
def sizeofDirectionalLightData : Nat := 48
def sizeofSpotLightData : Nat := 80
def sizeofShaderStorageData : Nat := 32

/-- What a buffer upload carries. -/
inductive UploadData where
  | pointLights (data : List PointLightData)
  | directionalLights (data : List DirectionalLightData)
  | spotLights (data : List SpotLightData)
  | shaderStorageData (data : ShaderStorageData)
  | bytes (data : List Nat)
  deriving DecidableEq, Repr

/-- A call received, during `execute`, by the resources view or by a backend
object (buffer, vertex array object, render target, command buffer, queue). -/
inductive BackendCall where
  | get (kind : ResourceKind) (h : FrameGraphResource)
  | upload (buffer : Object) (data : UploadData) (size : Nat)
  | uploadAt (buffer : Object) (offset : Nat) (data : List Nat) (size : Nat)
  | setBuffers (vao vertexBuffer : Object)
  | setAttachments (target : Object) (color : List RenderTargetAttachment)
      (depthStencil : RenderTargetAttachment)
  | clearAttachments (target : Object)
  | commandBufferBegin (cb : Object)
  | commandBufferAdd (cb : Object) (commands : List Command)
  | commandBufferEnd (cb : Object)
  | submit (queue : CommandQueue) (cb : Object)
  deriving DecidableEq, Repr

/-- Modelled from the spec: `FrameGraphPassResources` is declared outside
src/. The view the engine hands to `execute`: the handles the pass declared
(spec 4.3) and, for a render target, the size in the descriptor it was created
from. -/
structure FrameGraphPassResources where
  declared : List FrameGraphResource
  renderTargetSize : FrameGraphResource → Vec2iScaled

/-! ## The state-and-exception monad of the member functions -/

/-- Everything a member function of a pass of type `P` can read or change. -/
structure World (P : Type) where
  pass : P
  builder : FrameGraphBuilder
  calls : List Call
  backend : List BackendCall
  invoked : List UploadProducer

/-- A member function returning `α`: it ends normally or throws, and either
way leaves a world behind. -/
def Run (P α : Type) : Type := World P → Except Error α × World P

namespace Run

def pure {P α : Type} (a : α) : Run P α := fun w => (.ok a, w)

def bind {P α β : Type} (m : Run P α) (f : α → Run P β) : Run P β := fun w =>
  match m w with
  | (.ok a, w1) => f a w1
  | (.error e, w1) => (.error e, w1)

instance {P : Type} : Monad (Run P) where
  pure := Run.pure
  bind := Run.bind

/-- A `throw`. -/
def fail {P α : Type} (e : Error) : Run P α := fun w => (.error e, w)

/-- A pure computation that may throw. -/
def lift {P α : Type} (r : Except Error α) : Run P α := fun w => (r, w)

/-- Read the member fields. -/
def getPass {P : Type} : Run P P := fun w => (.ok w.pass, w)

/-- Assign to member fields. -/
def modifyPass {P : Type} (f : P → P) : Run P Unit := fun w => (.ok (), { w with pass := f w.pass })

/-- Record a call of a builder method. -/
def call {P : Type} (c : Call) : Run P Unit := fun w => (.ok (), { w with calls := w.calls ++ [c] })

/-- Record a call on the resources view or on a backend object. -/
def backendCall {P : Type} (c : BackendCall) : Run P Unit :=
  fun w => (.ok (), { w with backend := w.backend ++ [c] })

end Run

/-! ## Builder methods -/

namespace FrameGraphBuilder

open Run

def getScene {P : Type} : Run P Scene := fun w => (.ok w.builder.scene, w)

def getRenderResolution {P : Type} : Run P Vec2i := fun w => (.ok w.builder.renderResolution, w)

/-- `getBackBufferDescription().size`. -/
def getBackBufferSize {P : Type} : Run P Vec2i := fun w => (.ok w.builder.backBufferSize, w)

/-- `getSettings().get<float>(FrameGraphSettings::SETTING_RENDER_SCALE)`. -/
def getRenderScale {P : Type} : Run P FloatExpr := fun w =>
  (.ok w.builder.settings.SETTING_RENDER_SCALE, w)

/-- Modelled from the spec: every `create*` call returns a fresh handle with
`assigned = true` (spec 4.1); handles created in one frame differ by index,
handles of different frames by generation. -/
def freshHandle {P : Type} : Run P FrameGraphResource := fun w =>
  (.ok { index := w.builder.counter, generation := w.builder.generation, assigned := true },
   { w with builder := { w.builder with counter := w.builder.counter + 1 } })

def createVertexBuffer {P : Type} (desc : VertexBufferDesc) : Run P FrameGraphResource := do
  let h ← freshHandle
  call (.createVertexBuffer desc h)
  return h

def createVertexArrayObject {P : Type} (desc : VertexArrayObjectDesc) :
    Run P FrameGraphResource := do
  let h ← freshHandle
  call (.createVertexArrayObject desc h)
  return h

def createPipeline {P : Type} (desc : RenderPipelineDesc) : Run P FrameGraphResource := do
  let h ← freshHandle
  call (.createPipeline desc h)
  return h

def createRenderPipeline {P : Type} (desc : RenderPipelineDesc) : Run P FrameGraphResource := do
  let h ← freshHandle
  call (.createRenderPipeline desc h)
  return h

def createRenderTarget {P : Type} (desc : RenderTargetDesc) : Run P FrameGraphResource := do
  let h ← freshHandle
  call (.createRenderTarget desc h)
  return h

def createRenderPass {P : Type} (desc : RenderPassDesc) : Run P FrameGraphResource := do
  let h ← freshHandle
  call (.createRenderPass desc h)
  return h

def createShaderStorageBuffer {P : Type} (desc : ShaderStorageBufferDesc) :
    Run P FrameGraphResource := do
  let h ← freshHandle
  call (.createShaderStorageBuffer desc h)
  return h

def createTextureArrayBuffer {P : Type} (desc : TextureArrayBufferDesc) :
    Run P FrameGraphResource := do
  let h ← freshHandle
  call (.createTextureArrayBuffer desc h)
  return h

def createCommandBuffer {P : Type} : Run P FrameGraphResource := do
  let h ← freshHandle
  call (.createCommandBuffer h)
  return h

/-- Modelled from the spec: `getSlot` returns the handle bound to the slot, an
unassigned handle if the slot is unbound (spec 4.1). -/
def getSlot {P : Type} (slot : FrameGraphSlot) : Run P FrameGraphResource := fun w =>
  (.ok (w.builder.slots slot), { w with calls := w.calls ++ [.getSlot slot (w.builder.slots slot)] })

/-- Modelled from the spec: `checkSlot` is a non-failing query (spec 4.4). -/
def checkSlot {P : Type} (slot : FrameGraphSlot) : Run P Bool := fun w =>
  (.ok (w.builder.slots slot).assigned,
   { w with calls := w.calls ++ [.checkSlot slot (w.builder.slots slot).assigned] })

/-- Modelled from the spec: a resource-consuming method called on an
unassigned handle fails with a `GraphError` (spec 4.1). -/
def requireAssigned {P : Type} (h : FrameGraphResource) : Run P Unit :=
  if h.assigned then Run.pure () else fail .graphError

def read {P : Type} (h : FrameGraphResource) : Run P Unit := do
  call (.read h)
  requireAssigned h

def write {P : Type} (h : FrameGraphResource) : Run P Unit := do
  call (.write h)
  requireAssigned h

def persist {P : Type} (h : FrameGraphResource) : Run P Unit := do
  call (.persist h)
  requireAssigned h

/-- Modelled from the spec: `upload` registers the producer; it does not invoke
it (spec 4.1). -/
def upload {P : Type} (h : FrameGraphResource) (producer : UploadProducer) : Run P Unit := do
  call (.upload h producer)
  requireAssigned h

def blitColor {P : Type} (source target : FrameGraphResource) (sourceOffset targetOffset : Vec2i)
    (sourceRect targetRect : Vec2i) (filter : TextureFiltering)
    (sourceIndex targetIndex : Nat) : Run P Unit :=
  call (.blitColor source target sourceOffset targetOffset sourceRect targetRect filter
    sourceIndex targetIndex)

def beginPass {P : Type} (colorAttachments : List FrameGraphAttachment)
    (depthAttachment : FrameGraphAttachment) : Run P Unit :=
  call (.beginPass colorAttachments depthAttachment)

def bindPipeline {P : Type} (h : FrameGraphResource) : Run P Unit := call (.bindPipeline h)

def bindVertexBuffers {P : Type} (vertexBuffer indexBuffer instanceBuffer : FrameGraphResource)
    (vertexLayout instanceArrayLayout : VertexLayout) : Run P Unit :=
  call (.bindVertexBuffers vertexBuffer indexBuffer instanceBuffer vertexLayout instanceArrayLayout)

def bindShaderResources {P : Type} (resources : List ShaderData) : Run P Unit :=
  call (.bindShaderResources resources)

def drawArray {P : Type} (drawCall : DrawCall) : Run P Unit := call (.drawArray drawCall)

def finishPass {P : Type} : Run P Unit := call .finishPass

end FrameGraphBuilder

/-! ## Scene queries -/

/-- Modelled from the spec: `node.getProperty<TransformProperty>().transform`;
`getProperty` is declared outside src/. The lookup returns the transform of
the node. -/
def Node.getTransform (n : Node) : Except Error Transform := .ok n.transform

/-- Modelled from the spec: `node.getProperty<PointLightProperty>().light`;
the passes ask it only of the nodes `findAll` returned for that property. -/
def Node.getPointLight (n : Node) : Except Error PointLight :=
  match n.pointLight with
  | some l => .ok l
  | none => .error .missingProperty

/-- Modelled from the spec: `node.getProperty<DirectionalLightProperty>().light`;
the passes ask it only of the nodes `findAll` returned for that property. -/
def Node.getDirectionalLight (n : Node) : Except Error DirectionalLight :=
  match n.directionalLight with
  | some l => .ok l
  | none => .error .missingProperty

/-- Modelled from the spec: `node.getProperty<SpotLightProperty>().light`; the
passes ask it only of the nodes `findAll` returned for that property. -/
def Node.getSpotLight (n : Node) : Except Error SpotLight :=
  match n.spotLight with
  | some l => .ok l
  | none => .error .missingProperty

/-- Modelled from the spec: `scene.rootNode.find<CameraProperty>()`, declared
outside src/: the first node that carries a camera; it throws when there is
none. -/
def Scene.findCamera (s : Scene) : Except Error Node :=
  match s.nodes.find? (fun n => n.camera) with
  | some n => .ok n
  | none => .error .missingProperty

/-- `l.getProperty<PointLightProperty>().light.castShadows`. -/
def Node.pointLightCastShadows (l : Node) : Except Error Bool :=
  match l.getPointLight with
  | .ok light => .ok light.castShadows
  | .error e => .error e

/-- `l.getProperty<DirectionalLightProperty>().light.castShadows`. -/
def Node.directionalLightCastShadows (l : Node) : Except Error Bool :=
  match l.getDirectionalLight with
  | .ok light => .ok light.castShadows
  | .error e => .error e

/-- `l.getProperty<SpotLightProperty>().light.castShadows`. -/
def Node.spotLightCastShadows (l : Node) : Except Error Bool :=
  match l.getSpotLight with
  | .ok light => .ok light.castShadows
  | .error e => .error e

/-- The counting loops of `DeferredLightingPass::setup` (lines 221-226, 233-238
and 245-250): `(plain, shadow)` counters over the nodes, `castShadows` reading
the flag of the node's light. -/
def countLights (nodes : List Node) (castShadows : Node → Except Error Bool) :
    Except Error (Nat × Nat) :=
  nodes.foldlM (fun (acc : Nat × Nat) l => do
    if (← castShadows l) then
      return (acc.1, acc.2 + 1)
    else
      return (acc.1 + 1, acc.2)) (0, 0)

/-! ## DeferredLightingPass -/

/-- The member fields of `DeferredLightingPass` (the class is declared outside
src/; these are the members the two functions use). -/
structure DeferredLightingPass where
  mesh : Mesh
  scene : Scene := { nodes := [] }
  quadAllocated : Bool := false
  renderSize : Vec2iScaled := { base := { x := 0, y := 0 }, factor := .lit 0 }
  cameraTransform : Transform :=
    { position := { x := .lit 0, y := .lit 0, z := .lit 0 } }
  vertexBufferRes : FrameGraphResource := {}
  vertexArrayObjectRes : FrameGraphResource := {}
  pipelineRes : FrameGraphResource := {}
  targetRes : FrameGraphResource := {}
  colorTextureRes : FrameGraphResource := {}
  depthTextureRes : FrameGraphResource := {}
  passRes : FrameGraphResource := {}
  shaderDataBufferRes : FrameGraphResource := {}
  pointLightBufferRes : FrameGraphResource := {}
  shadowPointLightBufferRes : FrameGraphResource := {}
  dirLightBufferRes : FrameGraphResource := {}
  shadowDirLightBufferRes : FrameGraphResource := {}
  spotLightBufferRes : FrameGraphResource := {}
  shadowSpotLightBufferRes : FrameGraphResource := {}
  gBufferPosition : FrameGraphResource := {}
  gBufferNormal : FrameGraphResource := {}
  gBufferTangent : FrameGraphResource := {}
  gBufferRoughnessMetallicAO : FrameGraphResource := {}
  gBufferAlbedo : FrameGraphResource := {}
  gBufferModelObject : FrameGraphResource := {}
  gBufferDepth : FrameGraphResource := {}
  commandBuffer : FrameGraphResource := {}
  pointLightShadowMapRes : FrameGraphResource := {}
  pointLightShadowMapDefaultRes : FrameGraphResource := {}
  deriving DecidableEq, Repr

namespace DeferredLightingPass

open Run FrameGraphBuilder

/-- `getPointLights` (lines 60-81). -/
def getPointLights (scene : Scene) :
    Except Error (List PointLightData × List PointLightData) :=
  scene.findAllPointLight.foldlM (fun (acc : List PointLightData × List PointLightData) node => do
    let l ← node.getPointLight
    let t ← node.getTransform
    let v := l.color.divide
    let tmp : PointLightData := {
      position := { x := t.getPosition.x, y := t.getPosition.y, z := t.getPosition.z, w := .lit 0 }
      color := { x := .mul v.x l.power, y := .mul v.y l.power, z := .mul v.z l.power, w := .lit 1 }
      farPlane := { x := l.shadowFarPlane, y := .lit 0, z := .lit 0, w := .lit 0 } }
    if l.castShadows then
      return (acc.1, acc.2 ++ [tmp])
    else
      return (acc.1 ++ [tmp], acc.2)) ([], [])

/-- `getDirLights` (lines 83-104). -/
def getDirLights (scene : Scene) :
    Except Error (List DirectionalLightData × List DirectionalLightData) :=
  scene.findAllDirectionalLight.foldlM
    (fun (acc : List DirectionalLightData × List DirectionalLightData) node => do
    let l ← node.getDirectionalLight
    let v := l.color.divide
    let tmp : DirectionalLightData := {
      direction := { x := l.direction.x, y := l.direction.y, z := l.direction.z, w := .lit 0 }
      color := { x := .mul v.x l.power, y := .mul v.y l.power, z := .mul v.z l.power, w := .lit 1 }
      farPlane := { x := l.shadowFarPlane, y := .lit 0, z := .lit 0, w := .lit 0 } }
    if l.castShadows then
      return (acc.1, acc.2 ++ [tmp])
    else
      return (acc.1 ++ [tmp], acc.2)) ([], [])

/-- `getCutOff` (lines 106-108). -/
def getCutOff (angleDegrees : FloatExpr) : FloatExpr := .cosDegrees angleDegrees

/-- `getSpotLights` (lines 110-139). -/
def getSpotLights (scene : Scene) :
    Except Error (List SpotLightData × List SpotLightData) :=
  scene.findAllSpotLight.foldlM (fun (acc : List SpotLightData × List SpotLightData) node => do
    let l ← node.getSpotLight
    let t ← node.getTransform
    let v := l.color.divide
    let tmp : SpotLightData := {
      position := { x := t.getPosition.x, y := t.getPosition.y, z := t.getPosition.z, w := .lit 0 }
      direction_quadratic :=
        { x := l.direction.x, y := l.direction.y, z := l.direction.z, w := l.quadratic }
      color := { x := .mul v.x l.power, y := .mul v.y l.power, z := .mul v.z l.power, w := .lit 1 }
      farPlane := { x := l.shadowFarPlane, y := .lit 0, z := .lit 0, w := .lit 0 }
      cutOff_outerCutOff_constant_linear :=
        { x := getCutOff l.cutOff, y := getCutOff l.outerCutOff, z := l.constant, w := l.linear } }
    if l.castShadows then
      return (acc.1, acc.2 ++ [tmp])
    else
      return (acc.1 ++ [tmp], acc.2)) ([], [])

/-- The pipeline descriptor of lines 164-188. -/
def pipelineDesc (mesh : Mesh) : RenderPipelineDesc :=
  { shaders := [(.VERTEX, .deferredlightingpass_vs), (.FRAGMENT, .deferredlightingpass_fs)]
    bindings := [BIND_SHADER_STORAGE_BUFFER,
                 BIND_TEXTURE_BUFFER,
                 BIND_TEXTURE_BUFFER,
                 BIND_TEXTURE_BUFFER,
                 BIND_TEXTURE_BUFFER,
                 BIND_TEXTURE_BUFFER,
                 BIND_TEXTURE_BUFFER,
                 BIND_TEXTURE_ARRAY_BUFFER,
                 BIND_SHADER_STORAGE_BUFFER,
                 BIND_SHADER_STORAGE_BUFFER,
                 BIND_SHADER_STORAGE_BUFFER,
                 BIND_SHADER_STORAGE_BUFFER,
                 BIND_SHADER_STORAGE_BUFFER,
                 BIND_SHADER_STORAGE_BUFFER]
    primitive := .TRIANGLES
    vertexLayout := mesh.vertexLayout
    enableDepthTest := some true
    depthTestWrite := some true }

/-- `DeferredLightingPass::setup` (lines 143-331). -/
def setup : Run DeferredLightingPass Unit := do
  let scene ← getScene
  modifyPass fun p => { p with scene := scene }

  if !(← getPass).vertexBufferRes.assigned then
    let mesh := (← getPass).mesh
    let desc : VertexBufferDesc := { size := mulSizeT mesh.vertices.length mesh.vertexLayout.getSize }
    let vertexBufferRes ← createVertexBuffer desc
    modifyPass fun p => { p with vertexBufferRes := vertexBufferRes }

    let oDesc : VertexArrayObjectDesc := { vertexLayout := mesh.vertexLayout }
    let vertexArrayObjectRes ← createVertexArrayObject oDesc
    modifyPass fun p => { p with vertexArrayObjectRes := vertexArrayObjectRes }

    write (← getPass).vertexBufferRes

  persist (← getPass).vertexBufferRes
  persist (← getPass).vertexArrayObjectRes
  read (← getPass).vertexBufferRes
  read (← getPass).vertexArrayObjectRes

  if !(← getPass).pipelineRes.assigned then
    let pipelineRes ← createPipeline (pipelineDesc (← getPass).mesh)
    modifyPass fun p => { p with pipelineRes := pipelineRes }

  persist (← getPass).pipelineRes
  read (← getPass).pipelineRes

  let backBufferSize ← getBackBufferSize
  let renderScale ← getRenderScale
  let renderSize : Vec2iScaled := { base := backBufferSize, factor := renderScale }
  modifyPass fun p => { p with renderSize := renderSize }

  let targetRes ← createRenderTarget
    { size := renderSize, numberOfColorAttachments := 1, hasDepthStencilAttachment := true }
  modifyPass fun p => { p with targetRes := targetRes }
  read targetRes

  let colorTextureRes ← getSlot SLOT_DEFERRED_COLOR
  modifyPass fun p => { p with colorTextureRes := colorTextureRes }
  write colorTextureRes

  let depthTextureRes ← getSlot SLOT_DEFERRED_DEPTH
  modifyPass fun p => { p with depthTextureRes := depthTextureRes }
  write depthTextureRes

  let passRes ← createRenderPass { numberOfColorAttachments := 1, hasDepthStencilAttachment := true }
  modifyPass fun p => { p with passRes := passRes }

  read passRes

  let pointLightNodes := (← getPass).scene.findAllPointLight
  let (pointLights, shadowPointLights) ← Run.lift
    (countLights pointLightNodes Node.pointLightCastShadows)

  let dirLightNodes := (← getPass).scene.findAllDirectionalLight
  let (dirLights, shadowDirLights) ← Run.lift
    (countLights dirLightNodes Node.directionalLightCastShadows)

  let spotLightNodes := (← getPass).scene.findAllSpotLight
  let (spotLights, shadowSpotLights) ← Run.lift
    (countLights spotLightNodes Node.spotLightCastShadows)

  let shaderDataBufferRes ← createShaderStorageBuffer { size := sizeofShaderStorageData }
  modifyPass fun p => { p with shaderDataBufferRes := shaderDataBufferRes }
  read shaderDataBufferRes
  write shaderDataBufferRes

  let pointLightBufferRes ← createShaderStorageBuffer
    { size := mulSizeT sizeofPointLightData pointLights }
  modifyPass fun p => { p with pointLightBufferRes := pointLightBufferRes }
  read pointLightBufferRes
  write pointLightBufferRes

  let shadowPointLightBufferRes ← createShaderStorageBuffer
    { size := mulSizeT sizeofPointLightData shadowPointLights }
  modifyPass fun p => { p with shadowPointLightBufferRes := shadowPointLightBufferRes }
  read shadowPointLightBufferRes
  write shadowPointLightBufferRes

  let dirLightBufferRes ← createShaderStorageBuffer
    { size := mulSizeT sizeofDirectionalLightData dirLights }
  modifyPass fun p => { p with dirLightBufferRes := dirLightBufferRes }
  read dirLightBufferRes
  write dirLightBufferRes

  let shadowDirLightBufferRes ← createShaderStorageBuffer
    { size := mulSizeT sizeofDirectionalLightData shadowDirLights }
  modifyPass fun p => { p with shadowDirLightBufferRes := shadowDirLightBufferRes }
  read shadowDirLightBufferRes
  write shadowDirLightBufferRes

  let spotLightBufferRes ← createShaderStorageBuffer
    { size := mulSizeT sizeofSpotLightData spotLights }
  modifyPass fun p => { p with spotLightBufferRes := spotLightBufferRes }
  read spotLightBufferRes
  write spotLightBufferRes

  let shadowSpotLightBufferRes ← createShaderStorageBuffer
    { size := mulSizeT sizeofSpotLightData shadowSpotLights }
  modifyPass fun p => { p with shadowSpotLightBufferRes := shadowSpotLightBufferRes }
  read shadowSpotLightBufferRes
  write shadowSpotLightBufferRes

  let gBufferPosition ← getSlot SLOT_GBUFFER_POSITION
  modifyPass fun p => { p with gBufferPosition := gBufferPosition }
  read gBufferPosition

  let gBufferNormal ← getSlot SLOT_GBUFFER_NORMAL
  modifyPass fun p => { p with gBufferNormal := gBufferNormal }
  read gBufferNormal

  let gBufferTangent ← getSlot SLOT_GBUFFER_TANGENT
  modifyPass fun p => { p with gBufferTangent := gBufferTangent }
  read gBufferTangent

  let gBufferRoughnessMetallicAO ← getSlot SLOT_GBUFFER_ROUGHNESS_METALLIC_AO
  modifyPass fun p => { p with gBufferRoughnessMetallicAO := gBufferRoughnessMetallicAO }
  read gBufferRoughnessMetallicAO

  let gBufferAlbedo ← getSlot SLOT_GBUFFER_ALBEDO
  modifyPass fun p => { p with gBufferAlbedo := gBufferAlbedo }
  read gBufferAlbedo

  let gBufferModelObject ← getSlot SLOT_GBUFFER_OBJECT_SHADOWS
  modifyPass fun p => { p with gBufferModelObject := gBufferModelObject }
  read gBufferModelObject

  let gBufferDepth ← getSlot SLOT_GBUFFER_DEPTH
  modifyPass fun p => { p with gBufferDepth := gBufferDepth }
  read gBufferDepth

  let cameraNode ← Run.lift (← getScene).findCamera
  let cameraTransform ← Run.lift cameraNode.getTransform
  modifyPass fun p => { p with cameraTransform := cameraTransform }

  let commandBuffer ← createCommandBuffer
  modifyPass fun p => { p with commandBuffer := commandBuffer }
  write commandBuffer

  let scene ← getScene
  modifyPass fun p => { p with scene := scene }

  if (← checkSlot SLOT_SHADOW_MAP_POINT) then
    let pointLightShadowMapRes ← getSlot SLOT_SHADOW_MAP_POINT
    modifyPass fun p => { p with pointLightShadowMapRes := pointLightShadowMapRes }
    read pointLightShadowMapRes
  else
    modifyPass fun p => { p with pointLightShadowMapRes := {} }

  let pointLightShadowMapDefaultRes ← createTextureArrayBuffer {}
  modifyPass fun p => { p with pointLightShadowMapDefaultRes := pointLightShadowMapDefaultRes }
  read pointLightShadowMapDefaultRes

end DeferredLightingPass

/-! ## The resources view and the queues of `execute` -/

/-- Modelled from the spec: `resources.get<T>(handle)` hands out the object
resolved for a handle the pass declared and fails with the access-violation
error for any other handle (spec 4.3). The attempt is recorded before the
check. -/
def FrameGraphPassResources.get {P : Type} (resources : FrameGraphPassResources)
    (kind : ResourceKind) (h : FrameGraphResource) : Run P Object := do
  Run.backendCall (.get kind h)
  if h ∈ resources.declared then
    return { kind := kind, handle := h }
  else
    Run.fail .accessViolation

/-- `queues.at(i)` of a `std::vector`: it throws `std::out_of_range` when there
is no element `i`. -/
def vectorAt {α : Type} (v : List α) (i : Nat) : Except Error α :=
  match v.get? i with
  | some a => .ok a
  | none => .error .outOfRange

namespace DeferredLightingPass

open Run

/-- `DeferredLightingPass::execute` (lines 333-444). -/
def execute (resources : FrameGraphPassResources)
    (renderQueues _computeQueues _transferQueues : List CommandQueue) :
    Run DeferredLightingPass Unit := do
  let target ← resources.get .RenderTarget (← getPass).targetRes

  let pipeline ← resources.get .RenderPipeline (← getPass).pipelineRes
  let pass ← resources.get .RenderPass (← getPass).passRes

  let vertexBuffer ← resources.get .VertexBuffer (← getPass).vertexBufferRes
  let vertexArrayObject ← resources.get .VertexArrayObject (← getPass).vertexArrayObjectRes

  let uniformBuffer ← resources.get .ShaderStorageBuffer (← getPass).shaderDataBufferRes

  let pointLightBuffer ← resources.get .ShaderStorageBuffer (← getPass).pointLightBufferRes
  let shadowPointLightBuffer ←
    resources.get .ShaderStorageBuffer (← getPass).shadowPointLightBufferRes

  let dirLightBuffer ← resources.get .ShaderStorageBuffer (← getPass).dirLightBufferRes
  let shadowDirLightBuffer ← resources.get .ShaderStorageBuffer (← getPass).shadowDirLightBufferRes

  let spotLightBuffer ← resources.get .ShaderStorageBuffer (← getPass).spotLightBufferRes
  let shadowSpotLightBuffer ←
    resources.get .ShaderStorageBuffer (← getPass).shadowSpotLightBufferRes

  let colorTex ← resources.get .TextureBuffer (← getPass).colorTextureRes
  let depthTex ← resources.get .TextureBuffer (← getPass).depthTextureRes

  let cBuffer ← resources.get .CommandBuffer (← getPass).commandBuffer

  let pointLightShadowMap ←
    if (← getPass).pointLightShadowMapRes.assigned then
      resources.get .TextureArrayBuffer (← getPass).pointLightShadowMapRes
    else
      resources.get .TextureArrayBuffer (← getPass).pointLightShadowMapDefaultRes

  let pointLights ← Run.lift (getPointLights (← getPass).scene)
  let dirLights ← Run.lift (getDirLights (← getPass).scene)
  let spotLights ← Run.lift (getSpotLights (← getPass).scene)

  backendCall (.upload pointLightBuffer (.pointLights pointLights.1)
    (mulSizeT pointLights.1.length sizeofPointLightData))
  backendCall (.upload shadowPointLightBuffer (.pointLights pointLights.2)
    (mulSizeT pointLights.2.length sizeofPointLightData))

  backendCall (.upload dirLightBuffer (.directionalLights dirLights.1)
    (mulSizeT dirLights.1.length sizeofDirectionalLightData))
  backendCall (.upload shadowDirLightBuffer (.directionalLights dirLights.2)
    (mulSizeT dirLights.2.length sizeofDirectionalLightData))

  backendCall (.upload spotLightBuffer (.spotLights spotLights.1)
    (mulSizeT spotLights.1.length sizeofSpotLightData))
  backendCall (.upload shadowSpotLightBuffer (.spotLights spotLights.2)
    (mulSizeT spotLights.2.length sizeofSpotLightData))

  if !(← getPass).quadAllocated then
    modifyPass fun p => { p with quadAllocated := true }
    let verts := VertexStream.getVertexBuffer (← getPass).mesh.vertices
    backendCall (.uploadAt vertexBuffer 0 verts verts.length)
    backendCall (.setBuffers vertexArrayObject vertexBuffer)

  let buf : ShaderStorageData := {}
  let cameraTransform := (← getPass).cameraTransform
  let buf := { buf with viewPosition :=
    { x := cameraTransform.getPosition.x, y := cameraTransform.getPosition.y,
      z := cameraTransform.getPosition.z, w := .lit 0 } }
  let buf := { buf with enableShadows :=
    buf.enableShadows.set 0 (if (← getPass).pointLightShadowMapRes.assigned then 1 else 0) }
  backendCall (.upload uniformBuffer (.shaderStorageData buf) sizeofShaderStorageData)

  let gBufPos ← resources.get .TextureBuffer (← getPass).gBufferPosition
  let gBufNorm ← resources.get .TextureBuffer (← getPass).gBufferNormal
  let _gBufTan ← resources.get .TextureBuffer (← getPass).gBufferTangent
  let gBufRoughnessMetallicAO ← resources.get .TextureBuffer (← getPass).gBufferRoughnessMetallicAO
  let gBufAlbedo ← resources.get .TextureBuffer (← getPass).gBufferAlbedo
  let gBufModelObject ← resources.get .TextureBuffer (← getPass).gBufferModelObject
  let gBufDepth ← resources.get .TextureBuffer (← getPass).gBufferDepth

  backendCall (.setAttachments target [.texture colorTex] (.texture depthTex))

  let commands : List Command := [
    .beginPass pass target,
    .setViewport pass { x := 0, y := 0 } (resources.renderTargetSize target.handle),

    .bindPipeline pipeline,
    .bindVertexArrayObject vertexArrayObject,
    .bindShaderResources [
      (uniformBuffer, [(.FRAGMENT, .READ)]),
      (gBufPos, [(.FRAGMENT, .READ)]),
      (gBufNorm, [(.FRAGMENT, .READ)]),
      (gBufRoughnessMetallicAO, [(.FRAGMENT, .READ)]),
      (gBufAlbedo, [(.FRAGMENT, .READ)]),
      (gBufModelObject, [(.FRAGMENT, .READ)]),
      (gBufDepth, [(.FRAGMENT, .READ)]),
      (pointLightShadowMap, [(.FRAGMENT, .READ)]),
      (pointLightBuffer, [(.FRAGMENT, .READ)]),
      (shadowPointLightBuffer, [(.FRAGMENT, .READ)]),
      (dirLightBuffer, [(.FRAGMENT, .READ)]),
      (shadowDirLightBuffer, [(.FRAGMENT, .READ)]),
      (spotLightBuffer, [(.FRAGMENT, .READ)]),
      (shadowSpotLightBuffer, [(.FRAGMENT, .READ)])],
    .drawArray pass { offset := 0, count := (← getPass).mesh.vertices.length },
    .endPass pass]

  backendCall (.commandBufferBegin cBuffer)
  backendCall (.commandBufferAdd cBuffer commands)
  backendCall (.commandBufferEnd cBuffer)

  let queue ← Run.lift (vectorAt renderQueues 0)
  backendCall (.submit queue cBuffer)

  backendCall (.clearAttachments target)

end DeferredLightingPass

/-! ## CompositePass -/

/-- The member fields of `CompositePass` (the class is declared outside src/;
these are the members `setup` uses). -/
structure CompositePass where
  mesh : Mesh
  pipeline : FrameGraphResource := {}
  vertexBuffer : FrameGraphResource := {}
  deriving DecidableEq, Repr

namespace CompositePass

open Run FrameGraphBuilder

/-- The pipeline descriptor of lines 34-52. -/
def pipelineDesc (mesh : Mesh) : RenderPipelineDesc :=
  { shaders := [(.VERTEX, .compositepass_vs), (.FRAGMENT, .compositepass_fs)]
    bindings := [BIND_TEXTURE_BUFFER, BIND_TEXTURE_BUFFER]
    primitive := .TRIANGLES
    vertexLayout := mesh.vertexLayout
    enableBlending := some true
    enableDepthTest := some true
    depthTestWrite := some true
    colorBlendSourceMode := some .SRC_ALPHA
    colorBlendDestinationMode := some .ONE_MINUS_SRC_ALPHA
    alphaBlendSourceMode := some .ONE
    alphaBlendDestinationMode := some .ONE_MINUS_SRC_ALPHA }

/-- `CompositePass::setup` (lines 30-105). The lambda handed to
`builder.upload` is the value `UploadProducer.compositePassVertexData`; its
body is `UploadProducer.produce`. -/
def setup : Run CompositePass Unit := do
  let resolution ← getRenderResolution

  if !(← getPass).pipeline.assigned then
    let pdesc := pipelineDesc (← getPass).mesh
    let pipeline ← createRenderPipeline pdesc
    modifyPass fun p => { p with pipeline := pipeline }

  persist (← getPass).pipeline

  let screenColor ← getSlot SLOT_SCREEN_COLOR
  let screenDepth ← getSlot SLOT_SCREEN_DEPTH

  let deferredColor ← getSlot SLOT_DEFERRED_COLOR
  let deferredDepth ← getSlot SLOT_DEFERRED_DEPTH

  let forwardColor ← getSlot SLOT_FORWARD_COLOR
  let forwardDepth ← getSlot SLOT_FORWARD_DEPTH

  let backgroundColor ← getSlot SLOT_BACKGROUND_COLOR

  if !(← getPass).vertexBuffer.assigned then
    let mesh := (← getPass).mesh
    let desc : VertexBufferDesc := { size := mulSizeT mesh.vertices.length mesh.vertexLayout.getSize }
    let vertexBuffer ← createVertexBuffer desc
    modifyPass fun p => { p with vertexBuffer := vertexBuffer }

    upload (← getPass).vertexBuffer .compositePassVertexData

  persist (← getPass).vertexBuffer

  blitColor backgroundColor screenColor { x := 0, y := 0 } { x := 0, y := 0 } resolution resolution
    .NEAREST 0 0

  beginPass [.texture screenColor] (.texture screenDepth)

  bindPipeline (← getPass).pipeline
  bindVertexBuffers (← getPass).vertexBuffer {} {} (← getPass).mesh.vertexLayout
    { attributes := [] }

  bindShaderResources [
    { resource := deferredColor, access := [(.FRAGMENT, .READ)] },
    { resource := deferredDepth, access := [(.FRAGMENT, .READ)] }]
  drawArray { offset := 0, count := (← getPass).mesh.vertices.length }

  bindShaderResources [
    { resource := forwardColor, access := [(.FRAGMENT, .READ)] },
    { resource := forwardDepth, access := [(.FRAGMENT, .READ)] }]
  drawArray { offset := 0, count := (← getPass).mesh.vertices.length }

  finishPass

end CompositePass

/-- The body of a producer, run against the pass that registered it: the
lambda of `CompositePass::setup` (lines 75-79) captures `this` and returns
`VertexStream().addVertices(mesh.vertices).getVertexBuffer()`. -/
def UploadProducer.produce : UploadProducer → CompositePass → List Nat
  | .compositePassVertexData, pass => VertexStream.getVertexBuffer pass.mesh.vertices

/-! ## The engine around the passes -/

/-- Modelled from the spec: the engine realizes an uploaded resource by
invoking the registered producer (spec 4.1); the invocation is recorded. -/
def Engine.invokeProducer (producer : UploadProducer) : Run CompositePass (List Nat) := fun w =>
  (.ok (producer.produce w.pass), { w with invoked := w.invoked ++ [producer] })

/-- The world in which a member function starts when nothing has been recorded
yet. -/
def World.start {P : Type} (b : FrameGraphBuilder) (p : P) : World P :=
  { pass := p, builder := b, calls := [], backend := [], invoked := [] }

/-- The handle arguments of a builder call. -/
def FrameGraphAttachment.handle : FrameGraphAttachment → FrameGraphResource
  | .texture h => h

def Call.handles : Call → List FrameGraphResource
  | .read h => [h]
  | .write h => [h]
  | .persist h => [h]
  | .upload h _ => [h]
  | .blitColor source target _ _ _ _ _ _ _ => [source, target]
  | .beginPass colorAttachments depthAttachment =>
      colorAttachments.map FrameGraphAttachment.handle ++ [depthAttachment.handle]
  | .bindPipeline h => [h]
  | .bindVertexBuffers vertexBuffer indexBuffer instanceBuffer _ _ =>
      [vertexBuffer, indexBuffer, instanceBuffer]
  | .bindShaderResources resources => resources.map ShaderData.resource
  | _ => []

/-- The handle a `create*` call returned. -/
def Call.created : Call → Option FrameGraphResource
  | .createVertexBuffer _ ret => some ret
  | .createVertexArrayObject _ ret => some ret
  | .createPipeline _ ret => some ret
  | .createRenderPipeline _ ret => some ret
  | .createRenderTarget _ ret => some ret
  | .createRenderPass _ ret => some ret
  | .createShaderStorageBuffer _ ret => some ret
  | .createTextureArrayBuffer _ ret => some ret
  | .createCommandBuffer ret => some ret
  | _ => none

/-- The handle a `create*` or `getSlot` call returned. -/
def Call.returned : Call → Option FrameGraphResource
  | .getSlot _ ret => some ret
  | c => c.created

/-- The handle a `read`, `write` or `persist` call declares. -/
def Call.declares : Call → Option FrameGraphResource
  | .read h => some h
  | .write h => some h
  | .persist h => some h
  | _ => none

/-- The handles a pass declared with `read`, `write` or `persist`. -/
def declaredHandles (calls : List Call) : List FrameGraphResource :=
  calls.filterMap Call.declares

/-- The size in the descriptor of the `createRenderTarget` call that returned
`h`; the size of a default descriptor when there is none. -/
def renderTargetSizeOf (calls : List Call) (h : FrameGraphResource) : Vec2iScaled :=
  match calls.findSome? (fun c =>
      match c with
      | .createRenderTarget desc ret => if ret = h then some desc.size else none
      | _ => none) with
  | some size => size
  | none => { base := { x := 0, y := 0 }, factor := .lit 0 }

/-- Modelled from the spec: the view the engine binds for a pass holds exactly
the handles the pass declared in its setup (spec 4.3). -/
def FrameGraphPassResources.ofCalls (calls : List Call) : FrameGraphPassResources :=
  { declared := declaredHandles calls
    renderTargetSize := renderTargetSizeOf calls }

/-- The handles passed to `resources.get` in a log of execute. -/
def fetchedHandles (log : List BackendCall) : List FrameGraphResource :=
  log.filterMap (fun c =>
    match c with
    | .get _ h => some h
    | _ => none)

/-- What the frame brings to a pass's setup: the state of the builder when the
pass's `setup` is entered, with the handles the slots are bound to, and the
render queues handed to `execute`. -/
structure FrameInput where
  scene : Scene
  settings : FrameGraphSettings
  backBufferSize : Vec2i
  renderResolution : Vec2i
  slots : FrameGraphSlot → FrameGraphResource
  counter : Nat
  renderQueues : List CommandQueue
  computeQueues : List CommandQueue
  transferQueues : List CommandQueue

/-- Modelled from the spec: the builder is reset at the start of every frame
(spec 4.1); the frame's generation is stamped on the handles created in it:
those the builder hands out and those the slots are bound to, a slot being
"resolved to a concrete FrameGraphResource each frame" and "written by exactly
one producing pass before being read in the same frame" (spec 3), in a mapping
"reset each frame alongside the builder" (spec 4.4). -/
def FrameInput.builder (i : FrameInput) (generation : Nat) : FrameGraphBuilder :=
  { scene := i.scene, settings := i.settings, backBufferSize := i.backBufferSize,
    renderResolution := i.renderResolution
    slots := fun s =>
      if (i.slots s).assigned then { i.slots s with generation := generation } else i.slots s
    generation := generation
    counter := i.counter }

/-- What one frame of a pass leaves in the records: the builder calls of its
setup and the calls its execute made on the resources view and on backend
objects. -/
structure FrameRecord where
  calls : List Call
  backend : List BackendCall
  deriving DecidableEq, Repr

/-- Consecutive setups of one pass instance, one per builder; `none` as soon
as a setup throws. The result lists the calls of every setup and ends with
the pass. -/
def runSetups {P : Type} (setup : Run P Unit) :
    List FrameGraphBuilder → P → Option (List (List Call) × P)
  | [], p => some ([], p)
  | b :: bs, p =>
    match setup (World.start b p) with
    | (.ok _, w) =>
      match runSetups setup bs w.pass with
      | some (rest, q) => some (w.calls :: rest, q)
      | none => none
    | (.error _, _) => none

/-- Consecutive frames of one pass instance, frame `k` of the list in
generation `generation + k`: a setup that succeeds, then an execute against
the view of what the setup declared. `none` as soon as a setup throws; an
execute that throws ends its frame and keeps the fields it had assigned. -/
def runFrames {P : Type} (setup : Run P Unit)
    (execute : FrameGraphPassResources → FrameInput → Run P Unit) :
    Nat → List FrameInput → P → Option (List FrameRecord × P)
  | _, [], p => some ([], p)
  | generation, i :: is, p =>
    match setup (World.start (i.builder generation) p) with
    | (.ok _, w) =>
      let x := (execute (.ofCalls w.calls) i (World.start w.builder w.pass)).2
      match runFrames setup execute (generation + 1) is x.pass with
      | some (rest, q) => some ({ calls := w.calls, backend := x.backend } :: rest, q)
      | none => none
    | (.error _, _) => none

/-- The builders of consecutive frames, frame `k` of the list in generation
`generation + k`. -/
def frameBuilders : Nat → List FrameInput → List FrameGraphBuilder
  | _, [] => []
  | generation, i :: is => i.builder generation :: frameBuilders (generation + 1) is

/-- `DeferredLightingPass::execute` on the queues of a frame. -/
def DeferredLightingPass.executeFrame (resources : FrameGraphPassResources) (i : FrameInput) :
    Run DeferredLightingPass Unit :=
  DeferredLightingPass.execute resources i.renderQueues i.computeQueues i.transferQueues

/-! ## What the claims speak of: closed forms, observers and concrete frames -/

/-- Number of nodes of the scene carrying a point light whose `castShadows`
flag has the given value. -/
def Scene.countPointLights (s : Scene) (castShadows : Bool) : Nat :=
  (s.nodes.filter (fun n =>
    match n.pointLight with
    | some l => l.castShadows == castShadows
    | none => false)).length

def Scene.countDirectionalLights (s : Scene) (castShadows : Bool) : Nat :=
  (s.nodes.filter (fun n =>
    match n.directionalLight with
    | some l => l.castShadows == castShadows
    | none => false)).length

def Scene.countSpotLights (s : Scene) (castShadows : Bool) : Nat :=
  (s.nodes.filter (fun n =>
    match n.spotLight with
    | some l => l.castShadows == castShadows
    | none => false)).length

instance {P : Type} : LawfulMonad (Run P) := LawfulMonad.mk' (Run P)
  (by
    intro α x; funext w
    show Run.bind x (fun a => Run.pure (id a)) w = x w
    unfold Run.bind
    rcases x w with ⟨_ | _, _⟩ <;> rfl)
  (by intro α β x f; rfl)
  (by
    intro α β γ x f g; funext w
    show Run.bind (Run.bind x f) g w = Run.bind x (fun a => Run.bind (f a) g) w
    unfold Run.bind
    rcases x w with ⟨_ | _, _⟩ <;> rfl)

/-- The handle a builder in state `b` hands out at its `k`-th next creation. -/
def FrameGraphBuilder.nthHandle (b : FrameGraphBuilder) (k : Nat) : FrameGraphResource :=
  { index := b.counter + k, generation := b.generation, assigned := true }

namespace DeferredLightingPass

/-- The slots `DeferredLightingPass::setup` reads or writes unconditionally, in
the order of the source. -/
def requiredSlots : List FrameGraphSlot :=
  [SLOT_DEFERRED_COLOR, SLOT_DEFERRED_DEPTH, SLOT_GBUFFER_POSITION, SLOT_GBUFFER_NORMAL,
   SLOT_GBUFFER_TANGENT, SLOT_GBUFFER_ROUGHNESS_METALLIC_AO, SLOT_GBUFFER_ALBEDO,
   SLOT_GBUFFER_OBJECT_SHADOWS, SLOT_GBUFFER_DEPTH]

/-- The vertex array object handle is assigned whenever the vertex buffer
handle is: `setup` assigns the two together. -/
def Consistent (p : DeferredLightingPass) : Prop :=
  p.vertexBufferRes.assigned = true → p.vertexArrayObjectRes.assigned = true

/-- How `setup` ends, written out: the first check that fails decides. -/
def setupOutcome (b : FrameGraphBuilder) (p : DeferredLightingPass) : Except Error Unit :=
  if p.vertexBufferRes.assigned && !p.vertexArrayObjectRes.assigned then .error .graphError
  else if requiredSlots.all (fun s => (b.slots s).assigned) then
    match b.scene.findCamera with
    | .error e => .error e
    | .ok _ => .ok ()
  else .error .graphError

/-- Number of handles the first block of `setup` (lines 146-156) creates. -/
def quadCreated (p : DeferredLightingPass) : Nat := if p.vertexBufferRes.assigned then 0 else 2

/-- Number of handles `setup` creates before the render target. -/
def persistedCreated (p : DeferredLightingPass) : Nat :=
  quadCreated p + if p.pipelineRes.assigned then 0 else 1

/-- The member fields after a setup that succeeds, written out. -/
def setupPass (b : FrameGraphBuilder) (p : DeferredLightingPass) (renderScale : FloatExpr)
    (cameraTransform : Transform) : DeferredLightingPass :=
  { mesh := p.mesh
    scene := b.scene
    quadAllocated := p.quadAllocated
    renderSize := { base := b.backBufferSize, factor := renderScale }
    cameraTransform := cameraTransform
    vertexBufferRes := if p.vertexBufferRes.assigned then p.vertexBufferRes else b.nthHandle 0
    vertexArrayObjectRes :=
      if p.vertexBufferRes.assigned then p.vertexArrayObjectRes else b.nthHandle 1
    pipelineRes := if p.pipelineRes.assigned then p.pipelineRes else b.nthHandle (quadCreated p)
    targetRes := b.nthHandle (persistedCreated p)
    colorTextureRes := b.slots SLOT_DEFERRED_COLOR
    depthTextureRes := b.slots SLOT_DEFERRED_DEPTH
    passRes := b.nthHandle (persistedCreated p + 1)
    shaderDataBufferRes := b.nthHandle (persistedCreated p + 2)
    pointLightBufferRes := b.nthHandle (persistedCreated p + 3)
    shadowPointLightBufferRes := b.nthHandle (persistedCreated p + 4)
    dirLightBufferRes := b.nthHandle (persistedCreated p + 5)
    shadowDirLightBufferRes := b.nthHandle (persistedCreated p + 6)
    spotLightBufferRes := b.nthHandle (persistedCreated p + 7)
    shadowSpotLightBufferRes := b.nthHandle (persistedCreated p + 8)
    gBufferPosition := b.slots SLOT_GBUFFER_POSITION
    gBufferNormal := b.slots SLOT_GBUFFER_NORMAL
    gBufferTangent := b.slots SLOT_GBUFFER_TANGENT
    gBufferRoughnessMetallicAO := b.slots SLOT_GBUFFER_ROUGHNESS_METALLIC_AO
    gBufferAlbedo := b.slots SLOT_GBUFFER_ALBEDO
    gBufferModelObject := b.slots SLOT_GBUFFER_OBJECT_SHADOWS
    gBufferDepth := b.slots SLOT_GBUFFER_DEPTH
    commandBuffer := b.nthHandle (persistedCreated p + 9)
    pointLightShadowMapRes :=
      if (b.slots SLOT_SHADOW_MAP_POINT).assigned then b.slots SLOT_SHADOW_MAP_POINT else {}
    pointLightShadowMapDefaultRes := b.nthHandle (persistedCreated p + 10) }

/-- The builder calls of a setup that succeeds, written out; `q` is the pass
the setup leaves (`setupPass`). -/
def setupCalls (b : FrameGraphBuilder) (p q : DeferredLightingPass) : List Call :=
  (if p.vertexBufferRes.assigned then []
   else
    [.createVertexBuffer
        { size := mulSizeT p.mesh.vertices.length p.mesh.vertexLayout.getSize } q.vertexBufferRes,
     .createVertexArrayObject { vertexLayout := p.mesh.vertexLayout } q.vertexArrayObjectRes,
     .write q.vertexBufferRes]) ++
  [.persist q.vertexBufferRes,
   .persist q.vertexArrayObjectRes,
   .read q.vertexBufferRes,
   .read q.vertexArrayObjectRes] ++
  (if p.pipelineRes.assigned then [] else [.createPipeline (pipelineDesc p.mesh) q.pipelineRes]) ++
  [.persist q.pipelineRes,
   .read q.pipelineRes,
   .createRenderTarget
      { size := q.renderSize, numberOfColorAttachments := 1, hasDepthStencilAttachment := true }
      q.targetRes,
   .read q.targetRes,
   .getSlot SLOT_DEFERRED_COLOR q.colorTextureRes,
   .write q.colorTextureRes,
   .getSlot SLOT_DEFERRED_DEPTH q.depthTextureRes,
   .write q.depthTextureRes,
   .createRenderPass { numberOfColorAttachments := 1, hasDepthStencilAttachment := true } q.passRes,
   .read q.passRes,
   .createShaderStorageBuffer { size := sizeofShaderStorageData } q.shaderDataBufferRes,
   .read q.shaderDataBufferRes,
   .write q.shaderDataBufferRes,
   .createShaderStorageBuffer
      { size := mulSizeT sizeofPointLightData (b.scene.countPointLights false) }
      q.pointLightBufferRes,
   .read q.pointLightBufferRes,
   .write q.pointLightBufferRes,
   .createShaderStorageBuffer
      { size := mulSizeT sizeofPointLightData (b.scene.countPointLights true) }
      q.shadowPointLightBufferRes,
   .read q.shadowPointLightBufferRes,
   .write q.shadowPointLightBufferRes,
   .createShaderStorageBuffer
      { size := mulSizeT sizeofDirectionalLightData (b.scene.countDirectionalLights false) }
      q.dirLightBufferRes,
   .read q.dirLightBufferRes,
   .write q.dirLightBufferRes,
   .createShaderStorageBuffer
      { size := mulSizeT sizeofDirectionalLightData (b.scene.countDirectionalLights true) }
      q.shadowDirLightBufferRes,
   .read q.shadowDirLightBufferRes,
   .write q.shadowDirLightBufferRes,
   .createShaderStorageBuffer
      { size := mulSizeT sizeofSpotLightData (b.scene.countSpotLights false) }
      q.spotLightBufferRes,
   .read q.spotLightBufferRes,
   .write q.spotLightBufferRes,
   .createShaderStorageBuffer
      { size := mulSizeT sizeofSpotLightData (b.scene.countSpotLights true) }
      q.shadowSpotLightBufferRes,
   .read q.shadowSpotLightBufferRes,
   .write q.shadowSpotLightBufferRes,
   .getSlot SLOT_GBUFFER_POSITION q.gBufferPosition,
   .read q.gBufferPosition,
   .getSlot SLOT_GBUFFER_NORMAL q.gBufferNormal,
   .read q.gBufferNormal,
   .getSlot SLOT_GBUFFER_TANGENT q.gBufferTangent,
   .read q.gBufferTangent,
   .getSlot SLOT_GBUFFER_ROUGHNESS_METALLIC_AO q.gBufferRoughnessMetallicAO,
   .read q.gBufferRoughnessMetallicAO,
   .getSlot SLOT_GBUFFER_ALBEDO q.gBufferAlbedo,
   .read q.gBufferAlbedo,
   .getSlot SLOT_GBUFFER_OBJECT_SHADOWS q.gBufferModelObject,
   .read q.gBufferModelObject,
   .getSlot SLOT_GBUFFER_DEPTH q.gBufferDepth,
   .read q.gBufferDepth,
   .createCommandBuffer q.commandBuffer,
   .write q.commandBuffer,
   .checkSlot SLOT_SHADOW_MAP_POINT (b.slots SLOT_SHADOW_MAP_POINT).assigned] ++
  (if (b.slots SLOT_SHADOW_MAP_POINT).assigned then
    [.getSlot SLOT_SHADOW_MAP_POINT q.pointLightShadowMapRes, .read q.pointLightShadowMapRes]
   else []) ++
  [.createTextureArrayBuffer {} q.pointLightShadowMapDefaultRes,
   .read q.pointLightShadowMapDefaultRes]

/-- The world a setup that succeeds leaves, written out. -/
def setupWorld (b : FrameGraphBuilder) (p : DeferredLightingPass) (renderScale : FloatExpr)
    (cameraTransform : Transform) : World DeferredLightingPass :=
  { pass := setupPass b p renderScale cameraTransform
    builder := { b with counter := b.counter + (persistedCreated p + 11) }
    calls := setupCalls b p (setupPass b p renderScale cameraTransform)
    backend := []
    invoked := [] }

/-- The `createRenderTarget` calls of a list of builder calls: descriptor and
returned handle, in order. -/
def createdRenderTargets (calls : List Call) : List (RenderTargetDesc × FrameGraphResource) :=
  calls.filterMap fun c =>
    match c with
    | .createRenderTarget desc ret => some (desc, ret)
    | _ => none

/-- What a run of `setup` on builder `b` that gets past its first two blocks
(lines 146-189) leaves of the render target: one `createRenderTarget` call,
with the back buffer size and the render-scale setting of `b` as the size, one
colour attachment and a depth-stencil attachment, which returned a handle
created in this frame that the pass keeps in `targetRes`. -/
def RenderTargetCreated (b : FrameGraphBuilder) (w : World DeferredLightingPass) : Prop :=
  createdRenderTargets w.calls =
    [({ size := { base := b.backBufferSize, factor := b.settings.SETTING_RENDER_SCALE },
        numberOfColorAttachments := 1, hasDepthStencilAttachment := true }, w.pass.targetRes)] ∧
  w.pass.renderSize = { base := b.backBufferSize, factor := b.settings.SETTING_RENDER_SCALE } ∧
  w.pass.targetRes.assigned = true ∧ w.pass.targetRes.generation = b.generation ∧
  b.counter ≤ w.pass.targetRes.index

end DeferredLightingPass

namespace CompositePass

/-- The member fields after `CompositePass::setup`, written out. -/
def setupPass (b : FrameGraphBuilder) (p : CompositePass) : CompositePass :=
  { mesh := p.mesh
    pipeline := if p.pipeline.assigned then p.pipeline else b.nthHandle 0
    vertexBuffer :=
      if p.vertexBuffer.assigned then p.vertexBuffer
      else b.nthHandle (if p.pipeline.assigned then 0 else 1) }

/-- The builder calls of `CompositePass::setup`, written out; `q` is the pass
the setup leaves (`setupPass`). -/
def setupCalls (b : FrameGraphBuilder) (p q : CompositePass) : List Call :=
  (if p.pipeline.assigned then [] else [.createRenderPipeline (pipelineDesc p.mesh) q.pipeline]) ++
  [.persist q.pipeline,
   .getSlot SLOT_SCREEN_COLOR (b.slots SLOT_SCREEN_COLOR),
   .getSlot SLOT_SCREEN_DEPTH (b.slots SLOT_SCREEN_DEPTH),
   .getSlot SLOT_DEFERRED_COLOR (b.slots SLOT_DEFERRED_COLOR),
   .getSlot SLOT_DEFERRED_DEPTH (b.slots SLOT_DEFERRED_DEPTH),
   .getSlot SLOT_FORWARD_COLOR (b.slots SLOT_FORWARD_COLOR),
   .getSlot SLOT_FORWARD_DEPTH (b.slots SLOT_FORWARD_DEPTH),
   .getSlot SLOT_BACKGROUND_COLOR (b.slots SLOT_BACKGROUND_COLOR)] ++
  (if p.vertexBuffer.assigned then []
   else
    [.createVertexBuffer
        { size := mulSizeT p.mesh.vertices.length p.mesh.vertexLayout.getSize } q.vertexBuffer,
     .upload q.vertexBuffer .compositePassVertexData]) ++
  [.persist q.vertexBuffer,
   .blitColor (b.slots SLOT_BACKGROUND_COLOR) (b.slots SLOT_SCREEN_COLOR) { x := 0, y := 0 }
      { x := 0, y := 0 } b.renderResolution b.renderResolution .NEAREST 0 0,
   .beginPass [.texture (b.slots SLOT_SCREEN_COLOR)] (.texture (b.slots SLOT_SCREEN_DEPTH)),
   .bindPipeline q.pipeline,
   .bindVertexBuffers q.vertexBuffer {} {} p.mesh.vertexLayout { attributes := [] },
   .bindShaderResources [
      { resource := b.slots SLOT_DEFERRED_COLOR, access := [(.FRAGMENT, .READ)] },
      { resource := b.slots SLOT_DEFERRED_DEPTH, access := [(.FRAGMENT, .READ)] }],
   .drawArray { offset := 0, count := p.mesh.vertices.length },
   .bindShaderResources [
      { resource := b.slots SLOT_FORWARD_COLOR, access := [(.FRAGMENT, .READ)] },
      { resource := b.slots SLOT_FORWARD_DEPTH, access := [(.FRAGMENT, .READ)] }],
   .drawArray { offset := 0, count := p.mesh.vertices.length },
   .finishPass]

/-- The world `CompositePass::setup` leaves, written out. -/
def setupWorld (b : FrameGraphBuilder) (p : CompositePass) : World CompositePass :=
  { pass := setupPass b p
    builder := { b with counter := b.counter +
      ((if p.pipeline.assigned then 0 else 1) + (if p.vertexBuffer.assigned then 0 else 1)) }
    calls := setupCalls b p (setupPass b p)
    backend := []
    invoked := [] }

end CompositePass

namespace DeferredLightingPass

/-- The texture array `execute` fetches for the point-light shadow map. -/
def shadowMapHandle (p : DeferredLightingPass) : FrameGraphResource :=
  if p.pointLightShadowMapRes.assigned then p.pointLightShadowMapRes
  else p.pointLightShadowMapDefaultRes

/-- The fetches `execute` starts with (lines 337-362), written out. -/
def executeFetchesFirst (p : DeferredLightingPass) : List (ResourceKind × FrameGraphResource) :=
  [(.RenderTarget, p.targetRes),
   (.RenderPipeline, p.pipelineRes),
   (.RenderPass, p.passRes),
   (.VertexBuffer, p.vertexBufferRes),
   (.VertexArrayObject, p.vertexArrayObjectRes),
   (.ShaderStorageBuffer, p.shaderDataBufferRes),
   (.ShaderStorageBuffer, p.pointLightBufferRes),
   (.ShaderStorageBuffer, p.shadowPointLightBufferRes),
   (.ShaderStorageBuffer, p.dirLightBufferRes),
   (.ShaderStorageBuffer, p.shadowDirLightBufferRes),
   (.ShaderStorageBuffer, p.spotLightBufferRes),
   (.ShaderStorageBuffer, p.shadowSpotLightBufferRes),
   (.TextureBuffer, p.colorTextureRes),
   (.TextureBuffer, p.depthTextureRes),
   (.CommandBuffer, p.commandBuffer),
   (.TextureArrayBuffer, shadowMapHandle p)]

/-- The fetches of the G-buffer textures (lines 401-407), written out. -/
def executeFetchesSecond (p : DeferredLightingPass) : List (ResourceKind × FrameGraphResource) :=
  [(.TextureBuffer, p.gBufferPosition),
   (.TextureBuffer, p.gBufferNormal),
   (.TextureBuffer, p.gBufferTangent),
   (.TextureBuffer, p.gBufferRoughnessMetallicAO),
   (.TextureBuffer, p.gBufferAlbedo),
   (.TextureBuffer, p.gBufferModelObject),
   (.TextureBuffer, p.gBufferDepth)]

/-- Every handle `execute` passes to `resources.get`, in order. -/
def executeFetches (p : DeferredLightingPass) : List FrameGraphResource :=
  (executeFetchesFirst p ++ executeFetchesSecond p).map Prod.snd

/-- The calls of a list of fetches. -/
def fetchCalls (fetches : List (ResourceKind × FrameGraphResource)) : List BackendCall :=
  fetches.map (fun f => .get f.1 f.2)

/-- The uploads of the six light buffers (lines 368-381), written out. -/
def executeLightUploads (p : DeferredLightingPass)
    (pointLights : List PointLightData × List PointLightData)
    (dirLights : List DirectionalLightData × List DirectionalLightData)
    (spotLights : List SpotLightData × List SpotLightData) : List BackendCall :=
  [.upload { kind := .ShaderStorageBuffer, handle := p.pointLightBufferRes }
      (.pointLights pointLights.1) (mulSizeT pointLights.1.length sizeofPointLightData),
   .upload { kind := .ShaderStorageBuffer, handle := p.shadowPointLightBufferRes }
      (.pointLights pointLights.2) (mulSizeT pointLights.2.length sizeofPointLightData),
   .upload { kind := .ShaderStorageBuffer, handle := p.dirLightBufferRes }
      (.directionalLights dirLights.1) (mulSizeT dirLights.1.length sizeofDirectionalLightData),
   .upload { kind := .ShaderStorageBuffer, handle := p.shadowDirLightBufferRes }
      (.directionalLights dirLights.2) (mulSizeT dirLights.2.length sizeofDirectionalLightData),
   .upload { kind := .ShaderStorageBuffer, handle := p.spotLightBufferRes }
      (.spotLights spotLights.1) (mulSizeT spotLights.1.length sizeofSpotLightData),
   .upload { kind := .ShaderStorageBuffer, handle := p.shadowSpotLightBufferRes }
      (.spotLights spotLights.2) (mulSizeT spotLights.2.length sizeofSpotLightData)]

/-- The one-time upload of the quad (lines 383-390), written out. -/
def executeQuadUpload (p : DeferredLightingPass) : List BackendCall :=
  if p.quadAllocated then []
  else
    [.uploadAt { kind := .VertexBuffer, handle := p.vertexBufferRes } 0
        (VertexStream.getVertexBuffer p.mesh.vertices)
        (VertexStream.getVertexBuffer p.mesh.vertices).length,
     .setBuffers { kind := .VertexArrayObject, handle := p.vertexArrayObjectRes }
        { kind := .VertexBuffer, handle := p.vertexBufferRes }]

/-- The `ShaderStorageData` record `execute` uploads (lines 392-397), written
out. -/
def executeShaderData (p : DeferredLightingPass) : ShaderStorageData :=
  { viewPosition :=
      { x := p.cameraTransform.position.x, y := p.cameraTransform.position.y,
        z := p.cameraTransform.position.z, w := .lit 0 }
    enableShadows := [if p.pointLightShadowMapRes.assigned then 1 else 0, 0, 0, 0] }

/-- The resources bound by the `bindShaderResources` command (lines 418-433),
written out. -/
def executeBoundResources (p : DeferredLightingPass) :
    List (Object × List (ShaderStage × AccessMode)) :=
  [({ kind := .ShaderStorageBuffer, handle := p.shaderDataBufferRes }, [(.FRAGMENT, .READ)]),
   ({ kind := .TextureBuffer, handle := p.gBufferPosition }, [(.FRAGMENT, .READ)]),
   ({ kind := .TextureBuffer, handle := p.gBufferNormal }, [(.FRAGMENT, .READ)]),
   ({ kind := .TextureBuffer, handle := p.gBufferRoughnessMetallicAO }, [(.FRAGMENT, .READ)]),
   ({ kind := .TextureBuffer, handle := p.gBufferAlbedo }, [(.FRAGMENT, .READ)]),
   ({ kind := .TextureBuffer, handle := p.gBufferModelObject }, [(.FRAGMENT, .READ)]),
   ({ kind := .TextureBuffer, handle := p.gBufferDepth }, [(.FRAGMENT, .READ)]),
   ({ kind := .TextureArrayBuffer, handle := shadowMapHandle p }, [(.FRAGMENT, .READ)]),
   ({ kind := .ShaderStorageBuffer, handle := p.pointLightBufferRes }, [(.FRAGMENT, .READ)]),
   ({ kind := .ShaderStorageBuffer, handle := p.shadowPointLightBufferRes }, [(.FRAGMENT, .READ)]),
   ({ kind := .ShaderStorageBuffer, handle := p.dirLightBufferRes }, [(.FRAGMENT, .READ)]),
   ({ kind := .ShaderStorageBuffer, handle := p.shadowDirLightBufferRes }, [(.FRAGMENT, .READ)]),
   ({ kind := .ShaderStorageBuffer, handle := p.spotLightBufferRes }, [(.FRAGMENT, .READ)]),
   ({ kind := .ShaderStorageBuffer, handle := p.shadowSpotLightBufferRes }, [(.FRAGMENT, .READ)])]

/-- The batch of commands `execute` records (lines 411-435), written out. -/
def executeCommands (resources : FrameGraphPassResources) (p : DeferredLightingPass) :
    List Command :=
  [.beginPass { kind := .RenderPass, handle := p.passRes }
      { kind := .RenderTarget, handle := p.targetRes },
   .setViewport { kind := .RenderPass, handle := p.passRes } { x := 0, y := 0 }
      (resources.renderTargetSize p.targetRes),
   .bindPipeline { kind := .RenderPipeline, handle := p.pipelineRes },
   .bindVertexArrayObject { kind := .VertexArrayObject, handle := p.vertexArrayObjectRes },
   .bindShaderResources (executeBoundResources p),
   .drawArray { kind := .RenderPass, handle := p.passRes }
      { offset := 0, count := p.mesh.vertices.length },
   .endPass { kind := .RenderPass, handle := p.passRes }]

/-- The log of `execute` up to the end of the command buffer, written out, for
the light records `getPointLights`, `getDirLights` and `getSpotLights` return. -/
def executeRecorded (resources : FrameGraphPassResources) (p : DeferredLightingPass)
    (pointLights : List PointLightData × List PointLightData)
    (dirLights : List DirectionalLightData × List DirectionalLightData)
    (spotLights : List SpotLightData × List SpotLightData) : List BackendCall :=
  fetchCalls (executeFetchesFirst p) ++
  executeLightUploads p pointLights dirLights spotLights ++
  executeQuadUpload p ++
  [.upload { kind := .ShaderStorageBuffer, handle := p.shaderDataBufferRes }
      (.shaderStorageData (executeShaderData p)) sizeofShaderStorageData] ++
  fetchCalls (executeFetchesSecond p) ++
  [.setAttachments { kind := .RenderTarget, handle := p.targetRes }
      [.texture { kind := .TextureBuffer, handle := p.colorTextureRes }]
      (.texture { kind := .TextureBuffer, handle := p.depthTextureRes }),
   .commandBufferBegin { kind := .CommandBuffer, handle := p.commandBuffer },
   .commandBufferAdd { kind := .CommandBuffer, handle := p.commandBuffer }
      (executeCommands resources p),
   .commandBufferEnd { kind := .CommandBuffer, handle := p.commandBuffer }]

/-- What `execute` returns and leaves when every fetch is of a declared handle,
written out. -/
def executeResult (resources : FrameGraphPassResources) (renderQueues : List CommandQueue)
    (b : FrameGraphBuilder) (p : DeferredLightingPass) :
    Except Error Unit × World DeferredLightingPass :=
  let stopped (e : Error) : Except Error Unit × World DeferredLightingPass :=
    (.error e, { pass := p, builder := b, calls := [],
                 backend := fetchCalls (executeFetchesFirst p), invoked := [] })
  match getPointLights p.scene with
  | .error e => stopped e
  | .ok pointLights =>
    match getDirLights p.scene with
    | .error e => stopped e
    | .ok dirLights =>
      match getSpotLights p.scene with
      | .error e => stopped e
      | .ok spotLights =>
        match vectorAt renderQueues 0 with
        | .error e =>
          (.error e, { pass := { p with quadAllocated := true }, builder := b, calls := [],
                       backend := executeRecorded resources p pointLights dirLights spotLights,
                       invoked := [] })
        | .ok queue =>
          (.ok (), { pass := { p with quadAllocated := true }, builder := b, calls := [],
                     backend := executeRecorded resources p pointLights dirLights spotLights ++
                       [.submit queue { kind := .CommandBuffer, handle := p.commandBuffer },
                        .clearAttachments { kind := .RenderTarget, handle := p.targetRes }],
                     invoked := [] })

/-- What the closed forms say of a run `r` of `setup` from `World.start b p`. -/
def SetupSpec (b : FrameGraphBuilder) (p : DeferredLightingPass)
    (r : Except Error Unit × World DeferredLightingPass) : Prop :=
  r.1 = setupOutcome b p ∧
  (∀ node, b.scene.findCamera = .ok node → setupOutcome b p = .ok () →
    r.2 = setupWorld b p b.settings.SETTING_RENDER_SCALE node.transform) ∧
  (Consistent p → Consistent r.2.pass) ∧
  (Consistent p → RenderTargetCreated b r.2)

end DeferredLightingPass

/-- A member function keeps the relation `R` between the world it starts in
and the world it leaves, whether it returns or throws. -/
def Run.Keeps {P α : Type} (R : World P → World P → Prop) (m : Run P α) : Prop :=
  ∀ w, R w (m w).2

/-- What a builder-only member function leaves untouched: the calls received by
backend objects, the producers invoked, and everything in the builder but the
counter of created handles. -/
def World.GraphLocal {P : Type} (w w' : World P) : Prop :=
  w'.backend = w.backend ∧ w'.invoked = w.invoked ∧
  w'.builder.scene = w.builder.scene ∧ w'.builder.settings = w.builder.settings ∧
  w'.builder.backBufferSize = w.builder.backBufferSize ∧
  w'.builder.renderResolution = w.builder.renderResolution ∧
  w'.builder.slots = w.builder.slots ∧ w'.builder.generation = w.builder.generation

/-- What `DeferredLightingPass::execute` leaves untouched: the builder, the
builder calls, the producers invoked, and every member field but
`quadAllocated`. -/
def World.MembersKept (w w' : World DeferredLightingPass) : Prop :=
  w'.pass = { w.pass with quadAllocated := w'.pass.quadAllocated } ∧
  w'.calls = w.calls ∧ w'.invoked = w.invoked ∧ w'.builder.counter = w.builder.counter

namespace DeferredLightingPass

/-- The states a pass instance can be in: freshly constructed, or left by a
`setup` or an `execute` (that returned or threw) run on a state it could be
in. -/
inductive Reachable : DeferredLightingPass → Prop
  | fresh (mesh : Mesh) : Reachable { mesh := mesh }
  | setup (b : FrameGraphBuilder) (p : DeferredLightingPass) :
      Reachable p → Reachable (DeferredLightingPass.setup (World.start b p)).2.pass
  | execute (resources : FrameGraphPassResources)
      (renderQueues computeQueues transferQueues : List CommandQueue) (b : FrameGraphBuilder)
      (p : DeferredLightingPass) :
      Reachable p →
      Reachable (DeferredLightingPass.execute resources renderQueues computeQueues transferQueues
        (World.start b p)).2.pass

end DeferredLightingPass

/-- Recognisers of the `create*` calls of the persisted resources. -/
def Call.isCreateVertexBuffer : Call → Bool
  | .createVertexBuffer _ _ => true
  | _ => false

def Call.isCreateVertexArrayObject : Call → Bool
  | .createVertexArrayObject _ _ => true
  | _ => false

def Call.isCreatePipeline : Call → Bool
  | .createPipeline _ _ => true
  | _ => false

def Call.isCreateRenderPipeline : Call → Bool
  | .createRenderPipeline _ _ => true
  | _ => false

/-- Number of `create*` calls, in a list of builder calls, for the resources
`DeferredLightingPass` persists: vertex buffer, vertex array object, pipeline. -/
def DeferredLightingPass.persistedCreations (calls : List Call) : Nat × Nat × Nat :=
  (calls.countP Call.isCreateVertexBuffer, calls.countP Call.isCreateVertexArrayObject,
   calls.countP Call.isCreatePipeline)

/-- Number of `create*` calls, in a list of builder calls, for the resources
`CompositePass` persists: render pipeline, vertex buffer. -/
def CompositePass.persistedCreations (calls : List Call) : Nat × Nat :=
  (calls.countP Call.isCreateRenderPipeline, calls.countP Call.isCreateVertexBuffer)

/-- The kind of a command, without its arguments. -/
inductive CommandKind where
  | beginPass
  | setViewport
  | bindPipeline
  | bindVertexArrayObject
  | bindShaderResources
  | drawArray
  | endPass
  deriving DecidableEq, Repr

def Command.kind : Command → CommandKind
  | .beginPass _ _ => .beginPass
  | .setViewport _ _ _ => .setViewport
  | .bindPipeline _ => .bindPipeline
  | .bindVertexArrayObject _ => .bindVertexArrayObject
  | .bindShaderResources _ => .bindShaderResources
  | .drawArray _ _ => .drawArray
  | .endPass _ => .endPass

/-- A triangle with eight bytes per vertex. -/
def exampleMesh : Mesh :=
  { vertices := [{ buffer := [0, 0, 0, 0, 0, 0, 0, 0] }, { buffer := [1, 0, 0, 0, 0, 0, 0, 0] },
                 { buffer := [0, 0, 0, 0, 1, 0, 0, 0] }]
    vertexLayout := { attributes := [4, 4] } }

/-- A camera and a shadow-casting point light. -/
def exampleScene : Scene :=
  { nodes :=
      [{ transform := { position := { x := .lit 0, y := .lit 1, z := .lit 5 } }
         camera := true, pointLight := none, directionalLight := none, spotLight := none },
       { transform := { position := { x := .lit 2, y := .lit 3, z := .lit 0 } }
         camera := false
         pointLight := some { color := { r := 255, g := 255, b := 255, a := 255 },
                              power := .lit 1, shadowFarPlane := .lit 100, castShadows := true }
         directionalLight := none, spotLight := none }] }

/-- Every slot bound to a handle of generation 0, but for the point-light
shadow map, which is unbound. -/
def exampleSlots : FrameGraphSlot → FrameGraphResource
  | SLOT_SCREEN_COLOR => { index := 0, generation := 0, assigned := true }
  | SLOT_SCREEN_DEPTH => { index := 1, generation := 0, assigned := true }
  | SLOT_DEFERRED_COLOR => { index := 2, generation := 0, assigned := true }
  | SLOT_DEFERRED_DEPTH => { index := 3, generation := 0, assigned := true }
  | SLOT_FORWARD_COLOR => { index := 4, generation := 0, assigned := true }
  | SLOT_FORWARD_DEPTH => { index := 5, generation := 0, assigned := true }
  | SLOT_BACKGROUND_COLOR => { index := 6, generation := 0, assigned := true }
  | SLOT_GBUFFER_POSITION => { index := 7, generation := 0, assigned := true }
  | SLOT_GBUFFER_NORMAL => { index := 8, generation := 0, assigned := true }
  | SLOT_GBUFFER_TANGENT => { index := 9, generation := 0, assigned := true }
  | SLOT_GBUFFER_ROUGHNESS_METALLIC_AO => { index := 10, generation := 0, assigned := true }
  | SLOT_GBUFFER_ALBEDO => { index := 11, generation := 0, assigned := true }
  | SLOT_GBUFFER_OBJECT_SHADOWS => { index := 12, generation := 0, assigned := true }
  | SLOT_GBUFFER_DEPTH => { index := 13, generation := 0, assigned := true }
  | SLOT_SHADOW_MAP_POINT => {}

/-- A frame with one render queue. -/
def exampleInput : FrameInput :=
  { scene := exampleScene
    settings := { SETTING_RENDER_SCALE := .lit 1 }
    backBufferSize := { x := 640, y := 480 }
    renderResolution := { x := 640, y := 480 }
    slots := exampleSlots
    counter := 14
    renderQueues := [{ id := 0 }]
    computeQueues := []
    transferQueues := [] }

def exampleBuilder : FrameGraphBuilder := exampleInput.builder 0

/-- A freshly constructed `DeferredLightingPass`. -/
def examplePass : DeferredLightingPass := { mesh := exampleMesh }

/-- The world the setup of the fresh pass leaves in the concrete frame. -/
def exampleSetup : World DeferredLightingPass :=
  (DeferredLightingPass.setup (World.start exampleBuilder examplePass)).2

/-- The producers registered by `builder.upload` in a list of builder calls,
each with the handle it was registered for, in order. -/
def registeredProducers (calls : List Call) : List (FrameGraphResource × UploadProducer) :=
  calls.filterMap fun c =>
    match c with
    | .upload h producer => some (h, producer)
    | _ => none

/-- A freshly constructed `CompositePass`. -/
def exampleCompositePass : CompositePass := { mesh := exampleMesh }

/-- The concrete mesh with a fourth vertex and a wider layout. -/
def exampleChangedMesh : Mesh :=
  { vertices := exampleMesh.vertices ++ [{ buffer := [1, 0, 0, 0, 1, 0, 0, 0, 0, 0, 0, 0] }]
    vertexLayout := { attributes := [4, 4, 4] } }

/-- The `CompositePass` of the concrete frame after its first setup, its mesh
then replaced by the changed mesh. -/
def exampleChangedCompositePass : CompositePass :=
  { (CompositePass.setup (World.start exampleBuilder exampleCompositePass)).2.pass with
    mesh := exampleChangedMesh }

/-- The handles passed to builder methods in a list of builder calls. -/
def passedHandles (calls : List Call) : List FrameGraphResource :=
  (calls.map Call.handles).flatten

/-- The handles the `create*` and `getSlot` calls of a list of builder calls
returned. -/
def returnedHandles (calls : List Call) : List FrameGraphResource :=
  calls.filterMap Call.returned

/-- The handles the `create*` calls of a list of builder calls returned. -/
def createdHandles (calls : List Call) : List FrameGraphResource :=
  calls.filterMap Call.created

namespace DeferredLightingPass

/-- The persisted handles a pass brings into a setup: those of its vertex
buffer, vertex array object and pipeline that are assigned. -/
def carriedHandles (p : DeferredLightingPass) : List FrameGraphResource :=
  (if p.vertexBufferRes.assigned then [p.vertexBufferRes, p.vertexArrayObjectRes] else []) ++
  (if p.pipelineRes.assigned then [p.pipelineRes] else [])

end DeferredLightingPass

namespace CompositePass

/-- The persisted handles a pass brings into a setup: those of its pipeline
and vertex buffer that are assigned. -/
def carriedHandles (p : CompositePass) : List FrameGraphResource :=
  (if p.pipeline.assigned then [p.pipeline] else []) ++
  (if p.vertexBuffer.assigned then [p.vertexBuffer] else [])

end CompositePass

/-- The builders of two consecutive frames. -/
def exampleBuilders : List FrameGraphBuilder := [exampleInput.builder 0, exampleInput.builder 1]

/-- The builder of the concrete frame with `SLOT_GBUFFER_DEPTH` unbound. -/
def exampleUnboundBuilder : FrameGraphBuilder :=
  { exampleBuilder with
    slots := fun s => if s = SLOT_GBUFFER_DEPTH then {} else exampleSlots s }

/-- Modelled from the spec: the number a stored `float` stands for: an integer
literal, or the finite value of an IEEE 754 single-precision bit pattern (sign,
eight exponent bits, 23 fraction bits). An operation of the source applied to
floats has no value here. -/
def FloatExpr.value? : FloatExpr → Option ℚ
  | .lit n => some n
  | .bits b =>
    let sign : Int := if b / 2 ^ 31 % 2 = 0 then 1 else -1
    let exponent : Nat := b / 2 ^ 23 % 256
    let fraction : Nat := b % 2 ^ 23
    if 2 ^ 32 ≤ b ∨ exponent = 255 then none
    else if exponent = 0 then some ((sign * fraction : Int) / 2 ^ 149)
    else some ((sign * (2 ^ 23 + fraction) : Int) * 2 ^ exponent / 2 ^ 150)
  | _ => none

/-- Modelled from the spec: `Vec2i * float` is an operator of the math library,
outside src/. The render-scale setting "scales internal render-target
resolution relative to back buffer" (spec 6): each component of the integer
vector is multiplied by the factor, and the product becomes an `int` again by
dropping its fractional part. The rounding of the float product is not
modelled. -/
def Vec2iScaled.toVec2i? (s : Vec2iScaled) : Option Vec2i :=
  s.factor.value?.map fun r =>
    { x := Int.tdiv ((s.base.x : ℚ) * r).num ((s.base.x : ℚ) * r).den
      y := Int.tdiv ((s.base.y : ℚ) * r).num ((s.base.y : ℚ) * r).den }

/-- The concrete frame at half the render scale, held as the bit pattern of
`0.5f`. -/
def exampleHalfScaleBuilder : FrameGraphBuilder :=
  { exampleBuilder with settings := { SETTING_RENDER_SCALE := .bits 0x3F000000 } }

/-- The binding kind a pipeline declares for a resource of the given kind. -/
def ResourceKind.binding : ResourceKind → Option ShaderBinding
  | .ShaderStorageBuffer => some BIND_SHADER_STORAGE_BUFFER
  | .TextureBuffer => some BIND_TEXTURE_BUFFER
  | .TextureArrayBuffer => some BIND_TEXTURE_ARRAY_BUFFER
  | _ => none

/-- The resource lists of the `bindShaderResources` commands recorded into
command buffers in a backend log, in order. -/
def boundShaderResources (log : List BackendCall) :
    List (List (Object × List (ShaderStage × AccessMode))) :=
  (log.filterMap fun c =>
    match c with
    | .commandBufferAdd _ commands =>
      some (commands.filterMap fun command =>
        match command with
        | .bindShaderResources resources => some resources
        | _ => none)
    | _ => none).flatten

/-- Whether a builder call records a command of the pass (a blit, the beginning
or the end of a pass, a bind or a draw), as opposed to declaring a resource. -/
def Call.isCommand : Call → Bool
  | .blitColor _ _ _ _ _ _ _ _ _ => true
  | .beginPass _ _ => true
  | .bindPipeline _ => true
  | .bindVertexBuffers _ _ _ _ _ => true
  | .bindShaderResources _ => true
  | .drawArray _ => true
  | .finishPass => true
  | _ => false

/-- The commands recorded in a list of builder calls, in order. -/
def recordedCommands (calls : List Call) : List Call :=
  calls.filter Call.isCommand

namespace DeferredLightingPass

end DeferredLightingPass

namespace Deferred

/-- Modelled from the spec: `TextureBuffer` is declared outside src/; a texture
is identified by a number. -/
structure TextureBuffer where
  id : Nat
  deriving DecidableEq, Repr

/-- Modelled from the spec: the `RenderTarget` of the deferred renderer is
declared outside src/ (platform/graphics), and the spec has no words on its
methods, so they are read by their names. A target holds one optional texture
per colour attachment and an optional depth-stencil texture. -/
structure RenderTarget where
  colorAttachments : List (Option TextureBuffer)
  depthStencil : Option TextureBuffer
  deriving DecidableEq, Repr

namespace RenderTarget

/-- Modelled from the spec: the texture attached as colour attachment `index`,
if any. -/
def colorAttachment (t : RenderTarget) (index : Nat) : Option TextureBuffer :=
  (t.colorAttachments.get? index).join

/-- Modelled from the spec: `setNumberOfColorAttachments(n)`, the target has
`n` colour attachments afterwards; those it had below `n` stay. -/
def setNumberOfColorAttachments (t : RenderTarget) (n : Nat) : RenderTarget :=
  { t with colorAttachments := (t.colorAttachments ++ List.replicate n none).take n }

/-- Modelled from the spec: `attachColor(index, texture)` puts the texture in
the place of colour attachment `index`. -/
def attachColor (t : RenderTarget) (index : Nat) (texture : TextureBuffer) : RenderTarget :=
  { t with colorAttachments := t.colorAttachments.set index (some texture) }

/-- Modelled from the spec: `attachDepthStencil(texture)`. -/
def attachDepthStencil (t : RenderTarget) (texture : TextureBuffer) : RenderTarget :=
  { t with depthStencil := some texture }

/-- Modelled from the spec: `detachColor(index)` empties the place of colour
attachment `index`. -/
def detachColor (t : RenderTarget) (index : Nat) : RenderTarget :=
  { t with colorAttachments := t.colorAttachments.set index none }

/-- Modelled from the spec: `detachDepthStencil()`. -/
def detachDepthStencil (t : RenderTarget) : RenderTarget :=
  { t with depthStencil := none }

end RenderTarget

/-- The calls `ForwardPass::render` makes, on the pass target and on the
pipeline; `pipelineRender` carries the target as the pipeline receives it. -/
inductive RenderCall where
  | setNumberOfColorAttachments (n : Nat)
  | attachColor (index : Nat) (texture : TextureBuffer)
  | attachDepthStencil (texture : TextureBuffer)
  | pipelineRender (target : RenderTarget) (scene : Scene)
  | detachColor (index : Nat)
  | detachDepthStencil
  deriving DecidableEq, Repr

/-- Modelled from the spec: `GBuffer` is declared outside src/; of it only the
pass target, `getPassTarget()`, is kept. -/
structure GBuffer where
  passTarget : RenderTarget
  deriving DecidableEq, Repr

/-- The pass target while `render` runs, with the calls made so far. -/
structure RenderState where
  target : RenderTarget
  calls : List RenderCall

namespace RenderState

def setNumberOfColorAttachments (s : RenderState) (n : Nat) : RenderState :=
  { target := s.target.setNumberOfColorAttachments n
    calls := s.calls ++ [.setNumberOfColorAttachments n] }

def attachColor (s : RenderState) (index : Nat) (texture : TextureBuffer) : RenderState :=
  { target := s.target.attachColor index texture
    calls := s.calls ++ [.attachColor index texture] }

def attachDepthStencil (s : RenderState) (texture : TextureBuffer) : RenderState :=
  { target := s.target.attachDepthStencil texture
    calls := s.calls ++ [.attachDepthStencil texture] }

def detachColor (s : RenderState) (index : Nat) : RenderState :=
  { target := s.target.detachColor index
    calls := s.calls ++ [.detachColor index] }

def detachDepthStencil (s : RenderState) : RenderState :=
  { target := s.target.detachDepthStencil
    calls := s.calls ++ [.detachDepthStencil] }

/-- Modelled from the spec: `pipeline.render(target, scene)`; the forward
pipeline is declared outside src/, so what it does to the target it is handed
is the parameter `pipeline`. -/
def pipelineRender (s : RenderState) (pipeline : RenderTarget → Scene → RenderTarget)
    (scene : Scene) : RenderState :=
  { target := pipeline s.target scene
    calls := s.calls ++ [.pipelineRender s.target scene] }

end RenderState

/-- The members of `ForwardPass` that `render` uses: `*output.color` and
`*output.depth` of the `RenderPass` base class (declared outside src/). -/
structure ForwardPass where
  outputColor : TextureBuffer
  outputDepth : TextureBuffer
  deriving DecidableEq, Repr

/-- `ForwardPass::render` (forwardpass.cpp, lines 28-39): the G-buffer it
leaves and the calls it made. -/
def ForwardPass.render (pass : ForwardPass) (pipeline : RenderTarget → Scene → RenderTarget)
    (gBuffer : GBuffer) (scene : Scene) : GBuffer × List RenderCall :=
  let target : RenderState := { target := gBuffer.passTarget, calls := [] }

  let target := target.setNumberOfColorAttachments 1
  let target := target.attachColor 0 pass.outputColor
  let target := target.attachDepthStencil pass.outputDepth

  let target := target.pipelineRender pipeline scene

  let target := target.detachColor 0
  let target := target.detachDepthStencil
  ({ passTarget := target.target }, target.calls)

end Deferred

namespace Resolver

/-- Modelled from the spec: the resolver is not under src/. A pass as the
resolver sees it: the resources its setup declared with `read` and with
`write` (spec 3, "Dependency Edge"). A graph is the list of the passes in
registration order; a pass is named by its position in that list. -/
structure PassNode where
  reads : List FrameGraphResource
  writes : List FrameGraphResource
  deriving DecidableEq, Repr

/-- Modelled from the spec: "a write followed by a read on the same resource
within a frame creates an ordering constraint (producer pass executes before
consumer pass)" (spec 3): pass `i` writes a resource that another pass `j`
reads. -/
def produces (graph : List PassNode) (i j : Nat) : Bool :=
  i != j &&
    match graph[i]?, graph[j]? with
    | some producer, some consumer => producer.writes.any fun x => consumer.reads.contains x
    | _, _ => false

/-- Modelled from the spec: "multiple unordered writers to the same resource"
(spec 5): two passes write one resource "with no ordering edge between them"
(spec 8). -/
def unorderedWriters (graph : List PassNode) (i j : Nat) : Bool :=
  i != j && !produces graph i j && !produces graph j i &&
    match graph[i]?, graph[j]? with
    | some a, some b => a.writes.any fun x => b.writes.contains x
    | _, _ => false

/-- Modelled from the spec: some two passes of the graph are unordered writers
of one resource. -/
def hasUnorderedWriters (graph : List PassNode) : Bool :=
  (List.range graph.length).any fun i =>
    (List.range graph.length).any fun j => unorderedWriters graph i j

/-- Modelled from the spec: a pass that is not placed yet and all of whose
producers are placed may execute next. -/
def ready (graph : List PassNode) (placed : List Nat) (j : Nat) : Bool :=
  !placed.contains j &&
    (List.range graph.length).all fun i => !produces graph i j || placed.contains i

/-- Modelled from the spec: the order is built pass by pass; "when no
dependency forces an order, pass registration order is preserved" (spec 4.2):
the next pass is the earliest registered one that is ready. When passes remain
and none is ready there is a dependency cycle, "a fatal `GraphError`"
(spec 4.2), and no order is returned. -/
def resolveFrom (graph : List PassNode) : Nat → List Nat → Except Error (List Nat)
  | 0, placed => .ok placed
  | remaining + 1, placed =>
    match (List.range graph.length).find? (ready graph placed) with
    | some j => resolveFrom graph remaining (placed ++ [j])
    | none => .error .graphError

/-- Modelled from the spec: `resolve`, as far as the pass order goes (spec 4.2
(a)); a graph with multiple unordered writers is rejected with a `GraphError`
(spec 5, 7, 8). The lifetime intervals and the aliasing of spec 4.2 (b) are
not modelled. -/
def resolve (graph : List PassNode) : Except Error (List Nat) :=
  if hasUnorderedWriters graph then .error .graphError
  else resolveFrom graph graph.length []

/-- A dependency cycle: a pass that, through a chain of one or more
write-before-read edges, must execute before itself. An edge joins two
different passes, so a cycle runs through two passes or more. -/
def HasCycle (graph : List PassNode) : Prop :=
  ∃ i, Relation.TransGen (fun a b => produces graph a b = true) i i

/-- Pass `i` comes before pass `j` in an order. -/
def Precedes (order : List Nat) (i j : Nat) : Prop :=
  ∃ s t : Nat, s < t ∧ order[s]? = some i ∧ order[t]? = some j

/-- The tie-break of an order: whenever a pass `j` is placed, every pass
registered before `j` that is not placed yet still waits for a producer that is
not placed yet. -/
def TieBreak (graph : List PassNode) (order : List Nat) : Prop :=
  ∀ (t j : Nat), order[t]? = some j → ∀ i, i < j → i ∉ order.take t →
    ∃ k, produces graph k i = true ∧ k ∉ order.take t

/-- What the resolver keeps true of the passes placed so far: no pass is
placed twice, every placed pass is registered, every producer of a placed pass
was placed before it, and the tie-break. -/
def Valid (graph : List PassNode) (placed : List Nat) : Prop :=
  placed.Nodup ∧ (∀ j ∈ placed, j < graph.length) ∧
  (∀ i j, j ∈ placed → produces graph i j = true → Precedes placed i j) ∧
  TieBreak graph placed

/-- A pass that reads resource 0, a pass that touches nothing and a pass that
writes resource 0, registered in this order. -/
def exampleDetour : List PassNode :=
  [{ reads := [{ index := 0, generation := 0, assigned := true }], writes := [] },
   { reads := [], writes := [] },
   { reads := [], writes := [{ index := 0, generation := 0, assigned := true }] }]

/-- Two passes that both write resource 0 and read nothing. -/
def exampleTwoWriters : List PassNode :=
  [{ reads := [], writes := [{ index := 0, generation := 0, assigned := true }] },
   { reads := [], writes := [{ index := 0, generation := 0, assigned := true }] }]

/-- Two passes each of which reads what the other writes. -/
def exampleCycle : List PassNode :=
  [{ reads := [{ index := 1, generation := 0, assigned := true }],
     writes := [{ index := 0, generation := 0, assigned := true }] },
   { reads := [{ index := 0, generation := 0, assigned := true }],
     writes := [{ index := 1, generation := 0, assigned := true }] }]

end Resolver

/-! # Theorems -/

/-! ## Counting the lights -/

theorem countLights_foldlM (nodes : List Node) (cs : Node → Except Error Bool) (flag : Node → Bool)
    (h : ∀ n ∈ nodes, cs n = .ok (flag n)) (a b : Nat) :
    nodes.foldlM (fun (acc : Nat × Nat) l => do
      if (← cs l) then
        return (acc.1, acc.2 + 1)
      else
        return (acc.1 + 1, acc.2)) (a, b)
      = .ok (a + (nodes.filter (fun n => !flag n)).length, b + (nodes.filter flag).length) := by
  induction nodes generalizing a b with
  | nil => rfl
  | cons n ns ih =>
    have hn : cs n = .ok (flag n) := h n (List.mem_cons_self _ _)
    have hns : ∀ m ∈ ns, cs m = .ok (flag m) := fun m hm => h m (List.mem_cons_of_mem _ hm)
    rw [List.foldlM_cons, hn]
    cases hf : flag n
    · refine (ih hns (a + 1) b).trans ?_
      simp [List.filter_cons, hf]
      omega
    · refine (ih hns a (b + 1)).trans ?_
      simp [List.filter_cons, hf]
      omega

theorem countLights_pointLight (s : Scene) :
    countLights s.findAllPointLight Node.pointLightCastShadows
      = .ok (s.countPointLights false, s.countPointLights true) := by
  unfold countLights
  rw [countLights_foldlM _ _ (fun n => match n.pointLight with | some l => l.castShadows | none => false)]
  · simp only [Scene.findAllPointLight, Scene.countPointLights, List.filter_filter, Nat.zero_add]
    congr 2 <;> congr 2 <;> funext n <;> cases n.pointLight <;> simp
  · intro n hn
    simp only [Scene.findAllPointLight, List.mem_filter] at hn
    unfold Node.pointLightCastShadows Node.getPointLight
    cases h : n.pointLight <;> simp_all

theorem countLights_directionalLight (s : Scene) :
    countLights s.findAllDirectionalLight Node.directionalLightCastShadows
      = .ok (s.countDirectionalLights false, s.countDirectionalLights true) := by
  unfold countLights
  rw [countLights_foldlM _ _
    (fun n => match n.directionalLight with | some l => l.castShadows | none => false)]
  · simp only [Scene.findAllDirectionalLight, Scene.countDirectionalLights, List.filter_filter,
      Nat.zero_add]
    congr 2 <;> congr 2 <;> funext n <;> cases n.directionalLight <;> simp
  · intro n hn
    simp only [Scene.findAllDirectionalLight, List.mem_filter] at hn
    unfold Node.directionalLightCastShadows Node.getDirectionalLight
    cases h : n.directionalLight <;> simp_all

theorem countLights_spotLight (s : Scene) :
    countLights s.findAllSpotLight Node.spotLightCastShadows
      = .ok (s.countSpotLights false, s.countSpotLights true) := by
  unfold countLights
  rw [countLights_foldlM _ _ (fun n => match n.spotLight with | some l => l.castShadows | none => false)]
  · simp only [Scene.findAllSpotLight, Scene.countSpotLights, List.filter_filter, Nat.zero_add]
    congr 2 <;> congr 2 <;> funext n <;> cases n.spotLight <;> simp
  · intro n hn
    simp only [Scene.findAllSpotLight, List.mem_filter] at hn
    unfold Node.spotLightCastShadows Node.getSpotLight
    cases h : n.spotLight <;> simp_all

/-! ## The monad of member functions -/

section RunLemmas
variable {P α β : Type}

theorem Run.pure_apply (a : α) (w : World P) : (Pure.pure a : Run P α) w = (.ok a, w) := rfl

theorem Run.pure_apply' (a : α) (w : World P) : (Run.pure a : Run P α) w = (.ok a, w) := rfl

theorem Run.fail_apply (e : Error) (w : World P) : (Run.fail e : Run P α) w = (.error e, w) := rfl

theorem Run.fail_bind (e : Error) (f : α → Run P β) (w : World P) :
    (Run.fail e >>= f) w = (.error e, w) := rfl

theorem Run.lift_bind (r : Except Error α) (f : α → Run P β) (w : World P) :
    (Run.lift r >>= f) w =
      match r with
      | .ok a => f a w
      | .error e => (.error e, w) := by
  cases r <;> rfl

theorem Run.getPass_bind (f : P → Run P β) (w : World P) :
    (Run.getPass >>= f) w = f w.pass w := rfl

theorem Run.modifyPass_bind (g : P → P) (f : Unit → Run P β) (w : World P) :
    (Run.modifyPass g >>= f) w = f () { w with pass := g w.pass } := rfl

theorem Run.modifyPass_apply (g : P → P) (w : World P) :
    (Run.modifyPass g) w = (.ok (), { w with pass := g w.pass }) := rfl

theorem Run.call_bind (c : Call) (f : Unit → Run P β) (w : World P) :
    (Run.call c >>= f) w = f () { w with calls := w.calls ++ [c] } := rfl

theorem Run.call_apply (c : Call) (w : World P) :
    (Run.call c : Run P Unit) w = (.ok (), { w with calls := w.calls ++ [c] }) := rfl

theorem Run.backendCall_bind (c : BackendCall) (f : Unit → Run P β) (w : World P) :
    (Run.backendCall c >>= f) w = f () { w with backend := w.backend ++ [c] } := rfl

theorem Run.backendCall_apply (c : BackendCall) (w : World P) :
    (Run.backendCall c : Run P Unit) w = (.ok (), { w with backend := w.backend ++ [c] }) := rfl

theorem FrameGraphBuilder.getScene_bind (f : Scene → Run P β) (w : World P) :
    (FrameGraphBuilder.getScene >>= f) w = f w.builder.scene w := rfl

theorem FrameGraphBuilder.getRenderResolution_bind (f : Vec2i → Run P β) (w : World P) :
    (FrameGraphBuilder.getRenderResolution >>= f) w = f w.builder.renderResolution w := rfl

theorem FrameGraphBuilder.getBackBufferSize_bind (f : Vec2i → Run P β) (w : World P) :
    (FrameGraphBuilder.getBackBufferSize >>= f) w = f w.builder.backBufferSize w := rfl

theorem FrameGraphBuilder.getRenderScale_bind (f : FloatExpr → Run P β) (w : World P) :
    (FrameGraphBuilder.getRenderScale >>= f) w = f w.builder.settings.SETTING_RENDER_SCALE w :=
  rfl

theorem FrameGraphBuilder.freshHandle_bind (f : FrameGraphResource → Run P β) (w : World P) :
    (FrameGraphBuilder.freshHandle >>= f) w =
      f { index := w.builder.counter, generation := w.builder.generation, assigned := true }
        { w with builder := { w.builder with counter := w.builder.counter + 1 } } := rfl

theorem FrameGraphBuilder.getSlot_bind (s : FrameGraphSlot) (f : FrameGraphResource → Run P β)
    (w : World P) :
    (FrameGraphBuilder.getSlot s >>= f) w =
      f (w.builder.slots s) { w with calls := w.calls ++ [.getSlot s (w.builder.slots s)] } := rfl

theorem FrameGraphBuilder.checkSlot_bind (s : FrameGraphSlot) (f : Bool → Run P β)
    (w : World P) :
    (FrameGraphBuilder.checkSlot s >>= f) w =
      f (w.builder.slots s).assigned
        { w with calls := w.calls ++ [.checkSlot s (w.builder.slots s).assigned] } := rfl

theorem FrameGraphBuilder.requireAssigned_bind (h : FrameGraphResource) (f : Unit → Run P β)
    (w : World P) :
    (FrameGraphBuilder.requireAssigned h >>= f) w =
      if h.assigned then f () w else (.error .graphError, w) := by
  unfold FrameGraphBuilder.requireAssigned; split <;> rfl

theorem FrameGraphBuilder.requireAssigned_apply (h : FrameGraphResource) (w : World P) :
    (FrameGraphBuilder.requireAssigned h : Run P Unit) w =
      if h.assigned then (.ok (), w) else (.error .graphError, w) := by
  unfold FrameGraphBuilder.requireAssigned; split <;> rfl

theorem FrameGraphBuilder.requireAssigned_bind_cond (h : FrameGraphResource) (f : Unit → Run P β)
    (w : World P) :
    (FrameGraphBuilder.requireAssigned h >>= f) w =
      bif h.assigned then f () w else (.error .graphError, w) := by
  unfold FrameGraphBuilder.requireAssigned; cases h.assigned <;> rfl

theorem FrameGraphBuilder.requireAssigned_apply_cond (h : FrameGraphResource) (w : World P) :
    (FrameGraphBuilder.requireAssigned h : Run P Unit) w =
      bif h.assigned then (.ok (), w) else (.error .graphError, w) := by
  unfold FrameGraphBuilder.requireAssigned; cases h.assigned <;> rfl

theorem Run.ite_apply_cond (c : Bool) (m1 m2 : Run P α) (w : World P) :
    (if c = true then m1 else m2) w = bif c then m1 w else m2 w := by
  cases c <;> rfl

theorem FrameGraphPassResources.get_bind_of_mem (resources : FrameGraphPassResources)
    (kind : ResourceKind) (h : FrameGraphResource) (hm : h ∈ resources.declared)
    (f : Object → Run P β) (w : World P) :
    (resources.get kind h >>= f) w =
      f { kind := kind, handle := h } { w with backend := w.backend ++ [.get kind h] } := by
  simp only [FrameGraphPassResources.get, bind_assoc, Run.backendCall_bind, hm, if_true, pure_bind]

end RunLemmas

/-! ## `DeferredLightingPass::setup`, evaluated -/

namespace DeferredLightingPass

theorem SetupSpec.cond {b : FrameGraphBuilder} {p : DeferredLightingPass} {c : Bool}
    {x y : Except Error Unit × World DeferredLightingPass}
    (hx : c = true → SetupSpec b p x) (hy : c = false → SetupSpec b p y) :
    SetupSpec b p (bif c then x else y) := by
  cases c
  · exact hy rfl
  · exact hx rfl

theorem SetupSpec.error {b : FrameGraphBuilder} {p : DeferredLightingPass} {e : Error}
    {w : World DeferredLightingPass} (h : setupOutcome b p = .error e)
    (hc : Consistent p → Consistent w.pass) (hrt : Consistent p → RenderTargetCreated b w) :
    SetupSpec b p (.error e, w) := by
  refine ⟨h.symm, ?_, hc, hrt⟩
  intro _ _ hok
  rw [h] at hok
  cases hok

theorem setupOutcome_unbound {b : FrameGraphBuilder} {p : DeferredLightingPass}
    (hinv : (p.vertexBufferRes.assigned && !p.vertexArrayObjectRes.assigned) = false)
    (s : FrameGraphSlot) (hs : s ∈ requiredSlots) (h : (b.slots s).assigned = false) :
    setupOutcome b p = .error .graphError := by
  have hall : requiredSlots.all (fun s => (b.slots s).assigned) = false := by
    rw [List.all_eq_false]
    exact ⟨s, hs, by simp [h]⟩
  simp only [setupOutcome, hinv, hall]
  rfl

theorem setupOutcome_ok {b : FrameGraphBuilder} {p : DeferredLightingPass} {node : Node}
    (hinv : (p.vertexBufferRes.assigned && !p.vertexArrayObjectRes.assigned) = false)
    (hall : requiredSlots.all (fun s => (b.slots s).assigned) = true)
    (hcam : b.scene.findCamera = .ok node) :
    setupOutcome b p = .ok () := by
  simp only [setupOutcome, hinv, hall, hcam]
  rfl

theorem createdRenderTargets_setupCalls (b : FrameGraphBuilder) (p q : DeferredLightingPass) :
    createdRenderTargets (setupCalls b p q) =
      [({ size := q.renderSize, numberOfColorAttachments := 1,
          hasDepthStencilAttachment := true }, q.targetRes)] := by
  cases h1 : p.vertexBufferRes.assigned <;> cases h2 : p.pipelineRes.assigned <;>
    cases h3 : (b.slots SLOT_SHADOW_MAP_POINT).assigned <;>
    simp only [setupCalls, h1, h2, h3, ↓reduceIte, Bool.false_eq_true, List.nil_append,
      List.cons_append, List.append_nil] <;>
    rfl

theorem renderTargetCreated_setupWorld (b : FrameGraphBuilder) (p : DeferredLightingPass)
    (t : Transform) :
    RenderTargetCreated b (setupWorld b p b.settings.SETTING_RENDER_SCALE t) :=
  ⟨createdRenderTargets_setupCalls b p _, rfl, rfl, rfl, Nat.le_add_right _ _⟩

theorem SetupSpec.ok {b : FrameGraphBuilder} {p : DeferredLightingPass}
    {node : Node} {w : World DeferredLightingPass}
    (hinv : (p.vertexBufferRes.assigned && !p.vertexArrayObjectRes.assigned) = false)
    (hall : requiredSlots.all (fun s => (b.slots s).assigned) = true)
    (hcam : b.scene.findCamera = .ok node)
    (hw : w = setupWorld b p b.settings.SETTING_RENDER_SCALE node.transform)
    (hc : Consistent p → Consistent w.pass) :
    SetupSpec b p (.ok (), w) := by
  refine ⟨(setupOutcome_ok hinv hall hcam).symm, ?_, hc, ?_⟩
  · intro node' hcam' _
    rw [hcam] at hcam'
    cases hcam'
    exact hw
  · intro _
    rw [hw]
    exact renderTargetCreated_setupWorld b p _

set_option maxRecDepth 100000 in
set_option maxHeartbeats 4000000 in
theorem setup_eval_ff (b : FrameGraphBuilder) (p : DeferredLightingPass)
    (hvb : p.vertexBufferRes.assigned = false) (hpl : p.pipelineRes.assigned = false) :
    SetupSpec b p (setup (World.start b p)) := by
  generalize hrun : setup (World.start b p) = r
  simp only [DeferredLightingPass.setup, World.start, hvb, hpl,
    FrameGraphBuilder.createVertexBuffer, FrameGraphBuilder.createVertexArrayObject,
    FrameGraphBuilder.write, FrameGraphBuilder.read, FrameGraphBuilder.persist,
    FrameGraphBuilder.createPipeline, FrameGraphBuilder.createRenderTarget,
    FrameGraphBuilder.createRenderPass, FrameGraphBuilder.createShaderStorageBuffer,
    FrameGraphBuilder.createCommandBuffer, FrameGraphBuilder.createTextureArrayBuffer,
    countLights_pointLight, countLights_directionalLight, countLights_spotLight,
    bind_assoc, pure_bind, Run.pure_apply, Run.lift_bind, Run.getPass_bind, Run.modifyPass_bind,
    Run.call_bind, Run.call_apply, FrameGraphBuilder.getScene_bind,
    FrameGraphBuilder.getBackBufferSize_bind, FrameGraphBuilder.getRenderScale_bind,
    Node.getTransform,
    FrameGraphBuilder.freshHandle_bind, FrameGraphBuilder.getSlot_bind,
    FrameGraphBuilder.checkSlot_bind, FrameGraphBuilder.requireAssigned_bind_cond,
    FrameGraphBuilder.requireAssigned_apply_cond, Run.ite_apply_cond, Bool.not_false,
    Bool.not_true, cond_true, cond_false, List.nil_append, List.cons_append,
    List.append_assoc, ↓reduceIte] at hrun
  subst hrun
  have hinv : (p.vertexBufferRes.assigned && !p.vertexArrayObjectRes.assigned) = false := by
    simp [hvb]
  · refine SetupSpec.cond (fun h1 => ?_)
      (fun h => SetupSpec.error (setupOutcome_unbound hinv _ (by decide) h) (fun _ _ => rfl)
        (fun _ => ⟨rfl, rfl, rfl, rfl, by dsimp only; omega⟩))
    refine SetupSpec.cond (fun h2 => ?_)
      (fun h => SetupSpec.error (setupOutcome_unbound hinv _ (by decide) h) (fun _ _ => rfl)
        (fun _ => ⟨rfl, rfl, rfl, rfl, by dsimp only; omega⟩))
    refine SetupSpec.cond (fun h3 => ?_)
      (fun h => SetupSpec.error (setupOutcome_unbound hinv _ (by decide) h) (fun _ _ => rfl)
        (fun _ => ⟨rfl, rfl, rfl, rfl, by dsimp only; omega⟩))
    refine SetupSpec.cond (fun h4 => ?_)
      (fun h => SetupSpec.error (setupOutcome_unbound hinv _ (by decide) h) (fun _ _ => rfl)
        (fun _ => ⟨rfl, rfl, rfl, rfl, by dsimp only; omega⟩))
    refine SetupSpec.cond (fun h5 => ?_)
      (fun h => SetupSpec.error (setupOutcome_unbound hinv _ (by decide) h) (fun _ _ => rfl)
        (fun _ => ⟨rfl, rfl, rfl, rfl, by dsimp only; omega⟩))
    refine SetupSpec.cond (fun h6 => ?_)
      (fun h => SetupSpec.error (setupOutcome_unbound hinv _ (by decide) h) (fun _ _ => rfl)
        (fun _ => ⟨rfl, rfl, rfl, rfl, by dsimp only; omega⟩))
    refine SetupSpec.cond (fun h7 => ?_)
      (fun h => SetupSpec.error (setupOutcome_unbound hinv _ (by decide) h) (fun _ _ => rfl)
        (fun _ => ⟨rfl, rfl, rfl, rfl, by dsimp only; omega⟩))
    refine SetupSpec.cond (fun h8 => ?_)
      (fun h => SetupSpec.error (setupOutcome_unbound hinv _ (by decide) h) (fun _ _ => rfl)
        (fun _ => ⟨rfl, rfl, rfl, rfl, by dsimp only; omega⟩))
    refine SetupSpec.cond (fun h9 => ?_)
      (fun h => SetupSpec.error (setupOutcome_unbound hinv _ (by decide) h) (fun _ _ => rfl)
        (fun _ => ⟨rfl, rfl, rfl, rfl, by dsimp only; omega⟩))
    have hall : requiredSlots.all (fun s => (b.slots s).assigned) = true := by
      simp [requiredSlots, h1, h2, h3, h4, h5, h6, h7, h8, h9]
    rcases hcam : b.scene.findCamera with e | node
    · refine SetupSpec.error ?_ (fun _ _ => rfl)
        (fun _ => ⟨rfl, rfl, rfl, rfl, by dsimp only; omega⟩)
      simp only [setupOutcome, hinv, hall, hcam]
      rfl
    dsimp only
    refine SetupSpec.cond (fun hsh => ?_) (fun hsh => ?_)
    · refine SetupSpec.cond (fun _ => ?_) (fun h => ?_)
      · refine SetupSpec.ok hinv hall hcam ?_ (fun _ _ => rfl)
        simp [setupWorld, setupPass, setupCalls, FrameGraphBuilder.nthHandle, quadCreated,
          persistedCreated, hvb, hpl, hsh, Nat.add_assoc]
      · rw [hsh] at h
        cases h
    · refine SetupSpec.ok hinv hall hcam ?_ (fun _ _ => rfl)
      simp [setupWorld, setupPass, setupCalls, FrameGraphBuilder.nthHandle, quadCreated,
        persistedCreated, hvb, hpl, hsh, Nat.add_assoc]

set_option maxRecDepth 100000 in
set_option maxHeartbeats 4000000 in
theorem setup_eval_ft (b : FrameGraphBuilder) (p : DeferredLightingPass)
    (hvb : p.vertexBufferRes.assigned = false) (hpl : p.pipelineRes.assigned = true) :
    SetupSpec b p (setup (World.start b p)) := by
  generalize hrun : setup (World.start b p) = r
  simp only [DeferredLightingPass.setup, World.start, hvb, hpl,
    FrameGraphBuilder.createVertexBuffer, FrameGraphBuilder.createVertexArrayObject,
    FrameGraphBuilder.write, FrameGraphBuilder.read, FrameGraphBuilder.persist,
    FrameGraphBuilder.createPipeline, FrameGraphBuilder.createRenderTarget,
    FrameGraphBuilder.createRenderPass, FrameGraphBuilder.createShaderStorageBuffer,
    FrameGraphBuilder.createCommandBuffer, FrameGraphBuilder.createTextureArrayBuffer,
    countLights_pointLight, countLights_directionalLight, countLights_spotLight,
    bind_assoc, pure_bind, Run.pure_apply, Run.lift_bind, Run.getPass_bind, Run.modifyPass_bind,
    Run.call_bind, Run.call_apply, FrameGraphBuilder.getScene_bind,
    FrameGraphBuilder.getBackBufferSize_bind, FrameGraphBuilder.getRenderScale_bind,
    Node.getTransform,
    FrameGraphBuilder.freshHandle_bind, FrameGraphBuilder.getSlot_bind,
    FrameGraphBuilder.checkSlot_bind, FrameGraphBuilder.requireAssigned_bind_cond,
    FrameGraphBuilder.requireAssigned_apply_cond, Run.ite_apply_cond, Bool.not_false,
    Bool.not_true, cond_true, cond_false, List.nil_append, List.cons_append,
    List.append_assoc, ↓reduceIte] at hrun
  subst hrun
  have hinv : (p.vertexBufferRes.assigned && !p.vertexArrayObjectRes.assigned) = false := by
    simp [hvb]
  · refine SetupSpec.cond (fun h1 => ?_)
      (fun h => SetupSpec.error (setupOutcome_unbound hinv _ (by decide) h) (fun _ _ => rfl)
        (fun _ => ⟨rfl, rfl, rfl, rfl, by dsimp only; omega⟩))
    refine SetupSpec.cond (fun h2 => ?_)
      (fun h => SetupSpec.error (setupOutcome_unbound hinv _ (by decide) h) (fun _ _ => rfl)
        (fun _ => ⟨rfl, rfl, rfl, rfl, by dsimp only; omega⟩))
    refine SetupSpec.cond (fun h3 => ?_)
      (fun h => SetupSpec.error (setupOutcome_unbound hinv _ (by decide) h) (fun _ _ => rfl)
        (fun _ => ⟨rfl, rfl, rfl, rfl, by dsimp only; omega⟩))
    refine SetupSpec.cond (fun h4 => ?_)
      (fun h => SetupSpec.error (setupOutcome_unbound hinv _ (by decide) h) (fun _ _ => rfl)
        (fun _ => ⟨rfl, rfl, rfl, rfl, by dsimp only; omega⟩))
    refine SetupSpec.cond (fun h5 => ?_)
      (fun h => SetupSpec.error (setupOutcome_unbound hinv _ (by decide) h) (fun _ _ => rfl)
        (fun _ => ⟨rfl, rfl, rfl, rfl, by dsimp only; omega⟩))
    refine SetupSpec.cond (fun h6 => ?_)
      (fun h => SetupSpec.error (setupOutcome_unbound hinv _ (by decide) h) (fun _ _ => rfl)
        (fun _ => ⟨rfl, rfl, rfl, rfl, by dsimp only; omega⟩))
    refine SetupSpec.cond (fun h7 => ?_)
      (fun h => SetupSpec.error (setupOutcome_unbound hinv _ (by decide) h) (fun _ _ => rfl)
        (fun _ => ⟨rfl, rfl, rfl, rfl, by dsimp only; omega⟩))
    refine SetupSpec.cond (fun h8 => ?_)
      (fun h => SetupSpec.error (setupOutcome_unbound hinv _ (by decide) h) (fun _ _ => rfl)
        (fun _ => ⟨rfl, rfl, rfl, rfl, by dsimp only; omega⟩))
    refine SetupSpec.cond (fun h9 => ?_)
      (fun h => SetupSpec.error (setupOutcome_unbound hinv _ (by decide) h) (fun _ _ => rfl)
        (fun _ => ⟨rfl, rfl, rfl, rfl, by dsimp only; omega⟩))
    have hall : requiredSlots.all (fun s => (b.slots s).assigned) = true := by
      simp [requiredSlots, h1, h2, h3, h4, h5, h6, h7, h8, h9]
    rcases hcam : b.scene.findCamera with e | node
    · refine SetupSpec.error ?_ (fun _ _ => rfl)
        (fun _ => ⟨rfl, rfl, rfl, rfl, by dsimp only; omega⟩)
      simp only [setupOutcome, hinv, hall, hcam]
      rfl
    dsimp only
    refine SetupSpec.cond (fun hsh => ?_) (fun hsh => ?_)
    · refine SetupSpec.cond (fun _ => ?_) (fun h => ?_)
      · refine SetupSpec.ok hinv hall hcam ?_ (fun _ _ => rfl)
        simp [setupWorld, setupPass, setupCalls, FrameGraphBuilder.nthHandle, quadCreated,
          persistedCreated, hvb, hpl, hsh, Nat.add_assoc]
      · rw [hsh] at h
        cases h
    · refine SetupSpec.ok hinv hall hcam ?_ (fun _ _ => rfl)
      simp [setupWorld, setupPass, setupCalls, FrameGraphBuilder.nthHandle, quadCreated,
        persistedCreated, hvb, hpl, hsh, Nat.add_assoc]

set_option maxRecDepth 100000 in
set_option maxHeartbeats 4000000 in
theorem setup_eval_tf (b : FrameGraphBuilder) (p : DeferredLightingPass)
    (hvb : p.vertexBufferRes.assigned = true) (hpl : p.pipelineRes.assigned = false) :
    SetupSpec b p (setup (World.start b p)) := by
  generalize hrun : setup (World.start b p) = r
  simp only [DeferredLightingPass.setup, World.start, hvb, hpl,
    FrameGraphBuilder.createVertexBuffer, FrameGraphBuilder.createVertexArrayObject,
    FrameGraphBuilder.write, FrameGraphBuilder.read, FrameGraphBuilder.persist,
    FrameGraphBuilder.createPipeline, FrameGraphBuilder.createRenderTarget,
    FrameGraphBuilder.createRenderPass, FrameGraphBuilder.createShaderStorageBuffer,
    FrameGraphBuilder.createCommandBuffer, FrameGraphBuilder.createTextureArrayBuffer,
    countLights_pointLight, countLights_directionalLight, countLights_spotLight,
    bind_assoc, pure_bind, Run.pure_apply, Run.lift_bind, Run.getPass_bind, Run.modifyPass_bind,
    Run.call_bind, Run.call_apply, FrameGraphBuilder.getScene_bind,
    FrameGraphBuilder.getBackBufferSize_bind, FrameGraphBuilder.getRenderScale_bind,
    Node.getTransform,
    FrameGraphBuilder.freshHandle_bind, FrameGraphBuilder.getSlot_bind,
    FrameGraphBuilder.checkSlot_bind, FrameGraphBuilder.requireAssigned_bind_cond,
    FrameGraphBuilder.requireAssigned_apply_cond, Run.ite_apply_cond, Bool.not_false,
    Bool.not_true, cond_true, cond_false, List.nil_append, List.cons_append,
    List.append_assoc, ↓reduceIte] at hrun
  subst hrun
  refine SetupSpec.cond (fun hvao => ?_) (fun hvao => ?_)
  swap
  · refine SetupSpec.error ?_ (fun hc => hc)
      (fun hc => by have := hc hvb; rw [hvao] at this; cases this)
    simp only [setupOutcome, hvb, hvao]
    rfl
  refine SetupSpec.cond (fun _ => ?_) (fun h => ?_)
  swap
  · rw [hvao] at h
    cases h
  have hinv : (p.vertexBufferRes.assigned && !p.vertexArrayObjectRes.assigned) = false := by
    simp [hvb, hvao]
  · refine SetupSpec.cond (fun h1 => ?_)
      (fun h => SetupSpec.error (setupOutcome_unbound hinv _ (by decide) h) (fun hc => hc)
        (fun _ => ⟨rfl, rfl, rfl, rfl, by dsimp only; omega⟩))
    refine SetupSpec.cond (fun h2 => ?_)
      (fun h => SetupSpec.error (setupOutcome_unbound hinv _ (by decide) h) (fun hc => hc)
        (fun _ => ⟨rfl, rfl, rfl, rfl, by dsimp only; omega⟩))
    refine SetupSpec.cond (fun h3 => ?_)
      (fun h => SetupSpec.error (setupOutcome_unbound hinv _ (by decide) h) (fun hc => hc)
        (fun _ => ⟨rfl, rfl, rfl, rfl, by dsimp only; omega⟩))
    refine SetupSpec.cond (fun h4 => ?_)
      (fun h => SetupSpec.error (setupOutcome_unbound hinv _ (by decide) h) (fun hc => hc)
        (fun _ => ⟨rfl, rfl, rfl, rfl, by dsimp only; omega⟩))
    refine SetupSpec.cond (fun h5 => ?_)
      (fun h => SetupSpec.error (setupOutcome_unbound hinv _ (by decide) h) (fun hc => hc)
        (fun _ => ⟨rfl, rfl, rfl, rfl, by dsimp only; omega⟩))
    refine SetupSpec.cond (fun h6 => ?_)
      (fun h => SetupSpec.error (setupOutcome_unbound hinv _ (by decide) h) (fun hc => hc)
        (fun _ => ⟨rfl, rfl, rfl, rfl, by dsimp only; omega⟩))
    refine SetupSpec.cond (fun h7 => ?_)
      (fun h => SetupSpec.error (setupOutcome_unbound hinv _ (by decide) h) (fun hc => hc)
        (fun _ => ⟨rfl, rfl, rfl, rfl, by dsimp only; omega⟩))
    refine SetupSpec.cond (fun h8 => ?_)
      (fun h => SetupSpec.error (setupOutcome_unbound hinv _ (by decide) h) (fun hc => hc)
        (fun _ => ⟨rfl, rfl, rfl, rfl, by dsimp only; omega⟩))
    refine SetupSpec.cond (fun h9 => ?_)
      (fun h => SetupSpec.error (setupOutcome_unbound hinv _ (by decide) h) (fun hc => hc)
        (fun _ => ⟨rfl, rfl, rfl, rfl, by dsimp only; omega⟩))
    have hall : requiredSlots.all (fun s => (b.slots s).assigned) = true := by
      simp [requiredSlots, h1, h2, h3, h4, h5, h6, h7, h8, h9]
    rcases hcam : b.scene.findCamera with e | node
    · refine SetupSpec.error ?_ (fun hc => hc)
        (fun _ => ⟨rfl, rfl, rfl, rfl, by dsimp only; omega⟩)
      simp only [setupOutcome, hinv, hall, hcam]
      rfl
    dsimp only
    refine SetupSpec.cond (fun hsh => ?_) (fun hsh => ?_)
    · refine SetupSpec.cond (fun _ => ?_) (fun h => ?_)
      · refine SetupSpec.ok hinv hall hcam ?_ (fun hc => hc)
        simp [setupWorld, setupPass, setupCalls, FrameGraphBuilder.nthHandle, quadCreated,
          persistedCreated, hvb, hpl, hsh, Nat.add_assoc]
      · rw [hsh] at h
        cases h
    · refine SetupSpec.ok hinv hall hcam ?_ (fun hc => hc)
      simp [setupWorld, setupPass, setupCalls, FrameGraphBuilder.nthHandle, quadCreated,
        persistedCreated, hvb, hpl, hsh, Nat.add_assoc]

set_option maxRecDepth 100000 in
set_option maxHeartbeats 4000000 in
theorem setup_eval_tt (b : FrameGraphBuilder) (p : DeferredLightingPass)
    (hvb : p.vertexBufferRes.assigned = true) (hpl : p.pipelineRes.assigned = true) :
    SetupSpec b p (setup (World.start b p)) := by
  generalize hrun : setup (World.start b p) = r
  simp only [DeferredLightingPass.setup, World.start, hvb, hpl,
    FrameGraphBuilder.createVertexBuffer, FrameGraphBuilder.createVertexArrayObject,
    FrameGraphBuilder.write, FrameGraphBuilder.read, FrameGraphBuilder.persist,
    FrameGraphBuilder.createPipeline, FrameGraphBuilder.createRenderTarget,
    FrameGraphBuilder.createRenderPass, FrameGraphBuilder.createShaderStorageBuffer,
    FrameGraphBuilder.createCommandBuffer, FrameGraphBuilder.createTextureArrayBuffer,
    countLights_pointLight, countLights_directionalLight, countLights_spotLight,
    bind_assoc, pure_bind, Run.pure_apply, Run.lift_bind, Run.getPass_bind, Run.modifyPass_bind,
    Run.call_bind, Run.call_apply, FrameGraphBuilder.getScene_bind,
    FrameGraphBuilder.getBackBufferSize_bind, FrameGraphBuilder.getRenderScale_bind,
    Node.getTransform,
    FrameGraphBuilder.freshHandle_bind, FrameGraphBuilder.getSlot_bind,
    FrameGraphBuilder.checkSlot_bind, FrameGraphBuilder.requireAssigned_bind_cond,
    FrameGraphBuilder.requireAssigned_apply_cond, Run.ite_apply_cond, Bool.not_false,
    Bool.not_true, cond_true, cond_false, List.nil_append, List.cons_append,
    List.append_assoc, ↓reduceIte] at hrun
  subst hrun
  refine SetupSpec.cond (fun hvao => ?_) (fun hvao => ?_)
  swap
  · refine SetupSpec.error ?_ (fun hc => hc)
      (fun hc => by have := hc hvb; rw [hvao] at this; cases this)
    simp only [setupOutcome, hvb, hvao]
    rfl
  refine SetupSpec.cond (fun _ => ?_) (fun h => ?_)
  swap
  · rw [hvao] at h
    cases h
  have hinv : (p.vertexBufferRes.assigned && !p.vertexArrayObjectRes.assigned) = false := by
    simp [hvb, hvao]
  · refine SetupSpec.cond (fun h1 => ?_)
      (fun h => SetupSpec.error (setupOutcome_unbound hinv _ (by decide) h) (fun hc => hc)
        (fun _ => ⟨rfl, rfl, rfl, rfl, by dsimp only; omega⟩))
    refine SetupSpec.cond (fun h2 => ?_)
      (fun h => SetupSpec.error (setupOutcome_unbound hinv _ (by decide) h) (fun hc => hc)
        (fun _ => ⟨rfl, rfl, rfl, rfl, by dsimp only; omega⟩))
    refine SetupSpec.cond (fun h3 => ?_)
      (fun h => SetupSpec.error (setupOutcome_unbound hinv _ (by decide) h) (fun hc => hc)
        (fun _ => ⟨rfl, rfl, rfl, rfl, by dsimp only; omega⟩))
    refine SetupSpec.cond (fun h4 => ?_)
      (fun h => SetupSpec.error (setupOutcome_unbound hinv _ (by decide) h) (fun hc => hc)
        (fun _ => ⟨rfl, rfl, rfl, rfl, by dsimp only; omega⟩))
    refine SetupSpec.cond (fun h5 => ?_)
      (fun h => SetupSpec.error (setupOutcome_unbound hinv _ (by decide) h) (fun hc => hc)
        (fun _ => ⟨rfl, rfl, rfl, rfl, by dsimp only; omega⟩))
    refine SetupSpec.cond (fun h6 => ?_)
      (fun h => SetupSpec.error (setupOutcome_unbound hinv _ (by decide) h) (fun hc => hc)
        (fun _ => ⟨rfl, rfl, rfl, rfl, by dsimp only; omega⟩))
    refine SetupSpec.cond (fun h7 => ?_)
      (fun h => SetupSpec.error (setupOutcome_unbound hinv _ (by decide) h) (fun hc => hc)
        (fun _ => ⟨rfl, rfl, rfl, rfl, by dsimp only; omega⟩))
    refine SetupSpec.cond (fun h8 => ?_)
      (fun h => SetupSpec.error (setupOutcome_unbound hinv _ (by decide) h) (fun hc => hc)
        (fun _ => ⟨rfl, rfl, rfl, rfl, by dsimp only; omega⟩))
    refine SetupSpec.cond (fun h9 => ?_)
      (fun h => SetupSpec.error (setupOutcome_unbound hinv _ (by decide) h) (fun hc => hc)
        (fun _ => ⟨rfl, rfl, rfl, rfl, by dsimp only; omega⟩))
    have hall : requiredSlots.all (fun s => (b.slots s).assigned) = true := by
      simp [requiredSlots, h1, h2, h3, h4, h5, h6, h7, h8, h9]
    rcases hcam : b.scene.findCamera with e | node
    · refine SetupSpec.error ?_ (fun hc => hc)
        (fun _ => ⟨rfl, rfl, rfl, rfl, by dsimp only; omega⟩)
      simp only [setupOutcome, hinv, hall, hcam]
      rfl
    dsimp only
    refine SetupSpec.cond (fun hsh => ?_) (fun hsh => ?_)
    · refine SetupSpec.cond (fun _ => ?_) (fun h => ?_)
      · refine SetupSpec.ok hinv hall hcam ?_ (fun hc => hc)
        simp [setupWorld, setupPass, setupCalls, FrameGraphBuilder.nthHandle, quadCreated,
          persistedCreated, hvb, hpl, hsh, Nat.add_assoc]
      · rw [hsh] at h
        cases h
    · refine SetupSpec.ok hinv hall hcam ?_ (fun hc => hc)
      simp [setupWorld, setupPass, setupCalls, FrameGraphBuilder.nthHandle, quadCreated,
        persistedCreated, hvb, hpl, hsh, Nat.add_assoc]

/-- The closed forms describe every run of `setup` that starts with nothing
recorded. -/
theorem setup_spec (b : FrameGraphBuilder) (p : DeferredLightingPass) :
    SetupSpec b p (setup (World.start b p)) := by
  cases hvb : p.vertexBufferRes.assigned <;> cases hpl : p.pipelineRes.assigned
  · exact setup_eval_ff b p hvb hpl
  · exact setup_eval_ft b p hvb hpl
  · exact setup_eval_tf b p hvb hpl
  · exact setup_eval_tt b p hvb hpl

end DeferredLightingPass

/-! ## `DeferredLightingPass::execute`, evaluated -/

namespace DeferredLightingPass

set_option maxRecDepth 100000 in
set_option maxHeartbeats 4000000 in
theorem execute_eval_ff (resources : FrameGraphPassResources)
    (renderQueues computeQueues transferQueues : List CommandQueue)
    (b : FrameGraphBuilder) (p : DeferredLightingPass)
    (hdecl : ∀ h ∈ executeFetches p, h ∈ resources.declared)
    (hsh : p.pointLightShadowMapRes.assigned = false) (hq : p.quadAllocated = false) :
    execute resources renderQueues computeQueues transferQueues (World.start b p) =
      executeResult resources renderQueues b p := by
  have hm : ∀ h, h ∈ executeFetches p → (h ∈ resources.declared) = True :=
    fun h hh => eq_true (hdecl h hh)
  simp only [executeFetches, executeFetchesFirst, executeFetchesSecond, shadowMapHandle, hsh,
    List.cons_append, List.nil_append, List.map_cons, List.map_nil, List.mem_cons,
    List.mem_singleton, forall_eq_or_imp, forall_eq, Bool.false_eq_true, ↓reduceIte] at hm
  obtain ⟨m1, m2, m3, m4, m5, m6, m7, m8, m9, m10, m11, m12, m13, m14, m15, m16, m17, m18, m19,
    m20, m21, m22, m23⟩ := hm
  generalize hrun : execute resources renderQueues computeQueues transferQueues
    (World.start b p) = r
  simp only [execute, World.start, hsh, hq,
    FrameGraphPassResources.get_bind_of_mem, m1, m2, m3, m4, m5, m6, m7, m8, m9, m10, m11, m12,
    m13, m14, m15, m16, m17, m18, m19, m20, m21, m22, m23,
    bind_assoc, pure_bind, Run.pure_apply, Run.lift_bind, Run.getPass_bind, Run.modifyPass_bind,
    Run.modifyPass_apply, Run.backendCall_bind, Run.backendCall_apply, Run.ite_apply_cond,
    Bool.not_false, Bool.not_true, cond_true, cond_false, List.nil_append, List.cons_append,
    List.append_assoc, ↓reduceIte, Bool.false_eq_true] at hrun
  subst hrun
  rcases hpl : getPointLights p.scene with e | pointLights
  · simp [executeResult, fetchCalls, executeFetchesFirst, shadowMapHandle, hsh, hpl]
  rcases hdl : getDirLights p.scene with e | dirLights
  · simp [executeResult, fetchCalls, executeFetchesFirst, shadowMapHandle, hsh, hpl, hdl]
  rcases hsl : getSpotLights p.scene with e | spotLights
  · simp [executeResult, fetchCalls, executeFetchesFirst, shadowMapHandle, hsh, hpl, hdl, hsl]
  rcases hqu : vectorAt renderQueues 0 with e | queue <;>
  simp [executeResult, executeRecorded, fetchCalls, executeFetchesFirst, executeFetchesSecond,
    executeLightUploads, executeQuadUpload, executeShaderData, executeCommands,
    executeBoundResources, shadowMapHandle, Transform.getPosition, hsh, hq, hpl, hdl, hsl, hqu]

set_option maxRecDepth 100000 in
set_option maxHeartbeats 4000000 in
theorem execute_eval_ft (resources : FrameGraphPassResources)
    (renderQueues computeQueues transferQueues : List CommandQueue)
    (b : FrameGraphBuilder) (p : DeferredLightingPass)
    (hdecl : ∀ h ∈ executeFetches p, h ∈ resources.declared)
    (hsh : p.pointLightShadowMapRes.assigned = false) (hq : p.quadAllocated = true) :
    execute resources renderQueues computeQueues transferQueues (World.start b p) =
      executeResult resources renderQueues b p := by
  have hm : ∀ h, h ∈ executeFetches p → (h ∈ resources.declared) = True :=
    fun h hh => eq_true (hdecl h hh)
  simp only [executeFetches, executeFetchesFirst, executeFetchesSecond, shadowMapHandle, hsh,
    List.cons_append, List.nil_append, List.map_cons, List.map_nil, List.mem_cons,
    List.mem_singleton, forall_eq_or_imp, forall_eq, Bool.false_eq_true, ↓reduceIte] at hm
  obtain ⟨m1, m2, m3, m4, m5, m6, m7, m8, m9, m10, m11, m12, m13, m14, m15, m16, m17, m18, m19,
    m20, m21, m22, m23⟩ := hm
  generalize hrun : execute resources renderQueues computeQueues transferQueues
    (World.start b p) = r
  simp only [execute, World.start, hsh, hq,
    FrameGraphPassResources.get_bind_of_mem, m1, m2, m3, m4, m5, m6, m7, m8, m9, m10, m11, m12,
    m13, m14, m15, m16, m17, m18, m19, m20, m21, m22, m23,
    bind_assoc, pure_bind, Run.pure_apply, Run.lift_bind, Run.getPass_bind, Run.modifyPass_bind,
    Run.modifyPass_apply, Run.backendCall_bind, Run.backendCall_apply, Run.ite_apply_cond,
    Bool.not_false, Bool.not_true, cond_true, cond_false, List.nil_append, List.cons_append,
    List.append_assoc, ↓reduceIte, Bool.false_eq_true] at hrun
  subst hrun
  rcases hpl : getPointLights p.scene with e | pointLights
  · simp [executeResult, fetchCalls, executeFetchesFirst, shadowMapHandle, hsh, hpl]
  rcases hdl : getDirLights p.scene with e | dirLights
  · simp [executeResult, fetchCalls, executeFetchesFirst, shadowMapHandle, hsh, hpl, hdl]
  rcases hsl : getSpotLights p.scene with e | spotLights
  · simp [executeResult, fetchCalls, executeFetchesFirst, shadowMapHandle, hsh, hpl, hdl, hsl]
  rcases hqu : vectorAt renderQueues 0 with e | queue <;>
  simp [executeResult, executeRecorded, fetchCalls, executeFetchesFirst, executeFetchesSecond,
    executeLightUploads, executeQuadUpload, executeShaderData, executeCommands,
    executeBoundResources, shadowMapHandle, Transform.getPosition, hsh, hq, hpl, hdl, hsl, hqu]
  all_goals (cases p; simp only at hq; subst hq; rfl)

set_option maxRecDepth 100000 in
set_option maxHeartbeats 4000000 in
theorem execute_eval_tf (resources : FrameGraphPassResources)
    (renderQueues computeQueues transferQueues : List CommandQueue)
    (b : FrameGraphBuilder) (p : DeferredLightingPass)
    (hdecl : ∀ h ∈ executeFetches p, h ∈ resources.declared)
    (hsh : p.pointLightShadowMapRes.assigned = true) (hq : p.quadAllocated = false) :
    execute resources renderQueues computeQueues transferQueues (World.start b p) =
      executeResult resources renderQueues b p := by
  have hm : ∀ h, h ∈ executeFetches p → (h ∈ resources.declared) = True :=
    fun h hh => eq_true (hdecl h hh)
  simp only [executeFetches, executeFetchesFirst, executeFetchesSecond, shadowMapHandle, hsh,
    List.cons_append, List.nil_append, List.map_cons, List.map_nil, List.mem_cons,
    List.mem_singleton, forall_eq_or_imp, forall_eq, Bool.false_eq_true, ↓reduceIte] at hm
  obtain ⟨m1, m2, m3, m4, m5, m6, m7, m8, m9, m10, m11, m12, m13, m14, m15, m16, m17, m18, m19,
    m20, m21, m22, m23⟩ := hm
  generalize hrun : execute resources renderQueues computeQueues transferQueues
    (World.start b p) = r
  simp only [execute, World.start, hsh, hq,
    FrameGraphPassResources.get_bind_of_mem, m1, m2, m3, m4, m5, m6, m7, m8, m9, m10, m11, m12,
    m13, m14, m15, m16, m17, m18, m19, m20, m21, m22, m23,
    bind_assoc, pure_bind, Run.pure_apply, Run.lift_bind, Run.getPass_bind, Run.modifyPass_bind,
    Run.modifyPass_apply, Run.backendCall_bind, Run.backendCall_apply, Run.ite_apply_cond,
    Bool.not_false, Bool.not_true, cond_true, cond_false, List.nil_append, List.cons_append,
    List.append_assoc, ↓reduceIte, Bool.false_eq_true] at hrun
  subst hrun
  rcases hpl : getPointLights p.scene with e | pointLights
  · simp [executeResult, fetchCalls, executeFetchesFirst, shadowMapHandle, hsh, hpl]
  rcases hdl : getDirLights p.scene with e | dirLights
  · simp [executeResult, fetchCalls, executeFetchesFirst, shadowMapHandle, hsh, hpl, hdl]
  rcases hsl : getSpotLights p.scene with e | spotLights
  · simp [executeResult, fetchCalls, executeFetchesFirst, shadowMapHandle, hsh, hpl, hdl, hsl]
  rcases hqu : vectorAt renderQueues 0 with e | queue <;>
  simp [executeResult, executeRecorded, fetchCalls, executeFetchesFirst, executeFetchesSecond,
    executeLightUploads, executeQuadUpload, executeShaderData, executeCommands,
    executeBoundResources, shadowMapHandle, Transform.getPosition, hsh, hq, hpl, hdl, hsl, hqu]

set_option maxRecDepth 100000 in
set_option maxHeartbeats 4000000 in
theorem execute_eval_tt (resources : FrameGraphPassResources)
    (renderQueues computeQueues transferQueues : List CommandQueue)
    (b : FrameGraphBuilder) (p : DeferredLightingPass)
    (hdecl : ∀ h ∈ executeFetches p, h ∈ resources.declared)
    (hsh : p.pointLightShadowMapRes.assigned = true) (hq : p.quadAllocated = true) :
    execute resources renderQueues computeQueues transferQueues (World.start b p) =
      executeResult resources renderQueues b p := by
  have hm : ∀ h, h ∈ executeFetches p → (h ∈ resources.declared) = True :=
    fun h hh => eq_true (hdecl h hh)
  simp only [executeFetches, executeFetchesFirst, executeFetchesSecond, shadowMapHandle, hsh,
    List.cons_append, List.nil_append, List.map_cons, List.map_nil, List.mem_cons,
    List.mem_singleton, forall_eq_or_imp, forall_eq, Bool.false_eq_true, ↓reduceIte] at hm
  obtain ⟨m1, m2, m3, m4, m5, m6, m7, m8, m9, m10, m11, m12, m13, m14, m15, m16, m17, m18, m19,
    m20, m21, m22, m23⟩ := hm
  generalize hrun : execute resources renderQueues computeQueues transferQueues
    (World.start b p) = r
  simp only [execute, World.start, hsh, hq,
    FrameGraphPassResources.get_bind_of_mem, m1, m2, m3, m4, m5, m6, m7, m8, m9, m10, m11, m12,
    m13, m14, m15, m16, m17, m18, m19, m20, m21, m22, m23,
    bind_assoc, pure_bind, Run.pure_apply, Run.lift_bind, Run.getPass_bind, Run.modifyPass_bind,
    Run.modifyPass_apply, Run.backendCall_bind, Run.backendCall_apply, Run.ite_apply_cond,
    Bool.not_false, Bool.not_true, cond_true, cond_false, List.nil_append, List.cons_append,
    List.append_assoc, ↓reduceIte, Bool.false_eq_true] at hrun
  subst hrun
  rcases hpl : getPointLights p.scene with e | pointLights
  · simp [executeResult, fetchCalls, executeFetchesFirst, shadowMapHandle, hsh, hpl]
  rcases hdl : getDirLights p.scene with e | dirLights
  · simp [executeResult, fetchCalls, executeFetchesFirst, shadowMapHandle, hsh, hpl, hdl]
  rcases hsl : getSpotLights p.scene with e | spotLights
  · simp [executeResult, fetchCalls, executeFetchesFirst, shadowMapHandle, hsh, hpl, hdl, hsl]
  rcases hqu : vectorAt renderQueues 0 with e | queue <;>
  simp [executeResult, executeRecorded, fetchCalls, executeFetchesFirst, executeFetchesSecond,
    executeLightUploads, executeQuadUpload, executeShaderData, executeCommands,
    executeBoundResources, shadowMapHandle, Transform.getPosition, hsh, hq, hpl, hdl, hsl, hqu]
  all_goals (cases p; simp only at hq; subst hq; rfl)

/-- The closed form describes every run of `execute` in which the pass fetches
declared handles only. -/
theorem execute_spec (resources : FrameGraphPassResources)
    (renderQueues computeQueues transferQueues : List CommandQueue)
    (b : FrameGraphBuilder) (p : DeferredLightingPass)
    (hdecl : ∀ h ∈ executeFetches p, h ∈ resources.declared) :
    execute resources renderQueues computeQueues transferQueues (World.start b p) =
      executeResult resources renderQueues b p := by
  cases hsh : p.pointLightShadowMapRes.assigned <;> cases hq : p.quadAllocated
  · exact execute_eval_ff resources renderQueues computeQueues transferQueues b p hdecl hsh hq
  · exact execute_eval_ft resources renderQueues computeQueues transferQueues b p hdecl hsh hq
  · exact execute_eval_tf resources renderQueues computeQueues transferQueues b p hdecl hsh hq
  · exact execute_eval_tt resources renderQueues computeQueues transferQueues b p hdecl hsh hq

end DeferredLightingPass

/-! ## `CompositePass::setup`, evaluated -/

namespace CompositePass

set_option maxRecDepth 100000 in
set_option maxHeartbeats 4000000 in
/-- The closed form describes every run of `CompositePass::setup` that starts
with nothing recorded; the setup never throws. -/
theorem composite_spec (b : FrameGraphBuilder) (p : CompositePass) :
    setup (World.start b p) = (.ok (), setupWorld b p) := by
  generalize hrun : setup (World.start b p) = r
  cases hpl : p.pipeline.assigned <;> cases hvb : p.vertexBuffer.assigned <;>
  · simp only [CompositePass.setup, World.start, hpl, hvb,
      FrameGraphBuilder.createVertexBuffer, FrameGraphBuilder.createRenderPipeline,
      FrameGraphBuilder.persist, FrameGraphBuilder.upload, FrameGraphBuilder.blitColor,
      FrameGraphBuilder.beginPass, FrameGraphBuilder.bindPipeline,
      FrameGraphBuilder.bindVertexBuffers, FrameGraphBuilder.bindShaderResources,
      FrameGraphBuilder.drawArray, FrameGraphBuilder.finishPass,
      bind_assoc, pure_bind, Run.pure_apply, Run.getPass_bind, Run.modifyPass_bind,
      Run.call_bind, Run.call_apply, FrameGraphBuilder.getRenderResolution_bind,
      FrameGraphBuilder.freshHandle_bind, FrameGraphBuilder.getSlot_bind,
      FrameGraphBuilder.requireAssigned_bind_cond, FrameGraphBuilder.requireAssigned_apply_cond,
      Run.ite_apply_cond, Bool.not_false, Bool.not_true, cond_true, cond_false,
      List.nil_append, List.cons_append, List.append_assoc, ↓reduceIte,
      Bool.false_eq_true] at hrun
    subst hrun
    simp [setupWorld, setupPass, setupCalls, FrameGraphBuilder.nthHandle, hpl, hvb]

end CompositePass

/-! ## What a member function leaves untouched -/

section Keeps
variable {P α β : Type} {R : World P → World P → Prop}

theorem Run.Keeps.bind (ht : ∀ a b c, R a b → R b c → R a c)
    {m : Run P α} {f : α → Run P β}
    (hm : Run.Keeps R m) (hf : ∀ a, Run.Keeps R (f a)) : Run.Keeps R (m >>= f) := by
  intro w
  show R w (Run.bind m f w).2
  unfold Run.bind
  have h1 := hm w
  rcases h : m w with ⟨_ | a, w1⟩
  · rw [h] at h1; exact h1
  · rw [h] at h1; exact ht _ _ _ h1 (hf a w1)

theorem Run.Keeps.pure (hr : ∀ w, R w w) (a : α) : Run.Keeps R (pure a : Run P α) :=
  fun w => hr w

theorem Run.Keeps.fail (hr : ∀ w, R w w) (e : Error) : Run.Keeps R (Run.fail e : Run P α) :=
  fun w => hr w

theorem Run.Keeps.lift (hr : ∀ w, R w w) (r : Except Error α) :
    Run.Keeps R (Run.lift r : Run P α) :=
  fun w => hr w

theorem Run.Keeps.getPass (hr : ∀ w, R w w) : Run.Keeps R (Run.getPass : Run P P) :=
  fun w => hr w

theorem Run.Keeps.getScene (hr : ∀ w, R w w) :
    Run.Keeps R (FrameGraphBuilder.getScene : Run P Scene) :=
  fun w => hr w

theorem Run.Keeps.getRenderResolution (hr : ∀ w, R w w) :
    Run.Keeps R (FrameGraphBuilder.getRenderResolution : Run P Vec2i) :=
  fun w => hr w

theorem Run.Keeps.getBackBufferSize (hr : ∀ w, R w w) :
    Run.Keeps R (FrameGraphBuilder.getBackBufferSize : Run P Vec2i) :=
  fun w => hr w

theorem Run.Keeps.getRenderScale (hr : ∀ w, R w w) :
    Run.Keeps R (FrameGraphBuilder.getRenderScale : Run P FloatExpr) :=
  fun w => hr w

theorem Run.Keeps.requireAssigned (hr : ∀ w, R w w) (h : FrameGraphResource) :
    Run.Keeps R (FrameGraphBuilder.requireAssigned h : Run P Unit) := by
  intro w
  unfold FrameGraphBuilder.requireAssigned
  split <;> exact hr w

theorem Run.Keeps.ite (c : Prop) [Decidable c] {m1 m2 : Run P α}
    (h1 : Run.Keeps R m1) (h2 : Run.Keeps R m2) :
    Run.Keeps R (if c then m1 else m2) := by
  split <;> assumption

end Keeps

theorem World.graphLocal_refl {P : Type} (w : World P) : World.GraphLocal w w :=
  ⟨rfl, rfl, rfl, rfl, rfl, rfl, rfl, rfl⟩

theorem World.graphLocal_trans {P : Type} (a b c : World P) (h1 : World.GraphLocal a b)
    (h2 : World.GraphLocal b c) : World.GraphLocal a c := by
  obtain ⟨a1, a2, a3, a4, a5, a6, a7, a8⟩ := h1
  obtain ⟨b1, b2, b3, b4, b5, b6, b7, b8⟩ := h2
  exact ⟨b1.trans a1, b2.trans a2, b3.trans a3, b4.trans a4, b5.trans a5, b6.trans a6,
    b7.trans a7, b8.trans a8⟩

theorem World.membersKept_refl (w : World DeferredLightingPass) : World.MembersKept w w :=
  ⟨rfl, rfl, rfl, rfl⟩

theorem World.membersKept_trans (a b c : World DeferredLightingPass)
    (h1 : World.MembersKept a b) (h2 : World.MembersKept b c) : World.MembersKept a c := by
  obtain ⟨a1, a2, a3, a4⟩ := h1
  obtain ⟨b1, b2, b3, b4⟩ := h2
  refine ⟨?_, b2.trans a2, b3.trans a3, b4.trans a4⟩
  rw [b1, a1]

section GraphLocal
variable {P α β : Type}

theorem Run.graphLocal_modifyPass (g : P → P) : Run.Keeps World.GraphLocal (Run.modifyPass g) :=
  fun _ => ⟨rfl, rfl, rfl, rfl, rfl, rfl, rfl, rfl⟩

theorem Run.graphLocal_call (c : Call) : Run.Keeps World.GraphLocal (Run.call c : Run P Unit) :=
  fun _ => ⟨rfl, rfl, rfl, rfl, rfl, rfl, rfl, rfl⟩

theorem Run.graphLocal_freshHandle :
    Run.Keeps World.GraphLocal (FrameGraphBuilder.freshHandle : Run P FrameGraphResource) :=
  fun _ => ⟨rfl, rfl, rfl, rfl, rfl, rfl, rfl, rfl⟩

theorem Run.graphLocal_getSlot (s : FrameGraphSlot) :
    Run.Keeps World.GraphLocal (FrameGraphBuilder.getSlot s : Run P FrameGraphResource) :=
  fun _ => ⟨rfl, rfl, rfl, rfl, rfl, rfl, rfl, rfl⟩

theorem Run.graphLocal_checkSlot (s : FrameGraphSlot) :
    Run.Keeps World.GraphLocal (FrameGraphBuilder.checkSlot s : Run P Bool) :=
  fun _ => ⟨rfl, rfl, rfl, rfl, rfl, rfl, rfl, rfl⟩

end GraphLocal

theorem Run.membersKept_backendCall (c : BackendCall) :
    Run.Keeps World.MembersKept (Run.backendCall c : Run DeferredLightingPass Unit) :=
  fun _ => ⟨rfl, rfl, rfl, rfl⟩

theorem Run.membersKept_get (resources : FrameGraphPassResources) (kind : ResourceKind)
    (h : FrameGraphResource) :
    Run.Keeps World.MembersKept (resources.get kind h : Run DeferredLightingPass Object) := by
  unfold FrameGraphPassResources.get
  refine Run.Keeps.bind World.membersKept_trans (Run.membersKept_backendCall _) (fun _ => ?_)
  exact Run.Keeps.ite _ (Run.Keeps.pure World.membersKept_refl _)
    (Run.Keeps.fail World.membersKept_refl _)

theorem Run.membersKept_quadAllocated :
    Run.Keeps World.MembersKept
      (Run.modifyPass fun p : DeferredLightingPass => { p with quadAllocated := true }) :=
  fun _ => ⟨rfl, rfl, rfl, rfl⟩

/-- `DeferredLightingPass::setup` is graph-local: whatever the world it starts
in and however it ends, it changes nothing but the member fields, the recorded
builder calls and the builder's counter of created handles. -/
theorem DeferredLightingPass.setup_graphLocal :
    Run.Keeps World.GraphLocal DeferredLightingPass.setup := by
  unfold DeferredLightingPass.setup
  simp only [FrameGraphBuilder.createVertexBuffer, FrameGraphBuilder.createVertexArrayObject,
    FrameGraphBuilder.write, FrameGraphBuilder.read, FrameGraphBuilder.persist,
    FrameGraphBuilder.createPipeline, FrameGraphBuilder.createRenderTarget,
    FrameGraphBuilder.createRenderPass, FrameGraphBuilder.createShaderStorageBuffer,
    FrameGraphBuilder.createCommandBuffer, FrameGraphBuilder.createTextureArrayBuffer]
  repeat' with_reducible (first
    | intro _
    | exact Run.Keeps.getPass World.graphLocal_refl
    | exact Run.graphLocal_modifyPass _
    | exact Run.graphLocal_call _
    | exact Run.Keeps.lift World.graphLocal_refl _
    | exact Run.Keeps.getScene World.graphLocal_refl
    | exact Run.Keeps.getBackBufferSize World.graphLocal_refl
    | exact Run.Keeps.getRenderScale World.graphLocal_refl
    | exact Run.graphLocal_freshHandle
    | exact Run.graphLocal_getSlot _
    | exact Run.graphLocal_checkSlot _
    | exact Run.Keeps.requireAssigned World.graphLocal_refl _
    | apply Run.Keeps.bind World.graphLocal_trans
    | apply Run.Keeps.ite
    | split
    | dsimp only)
  all_goals exact Run.Keeps.pure World.graphLocal_refl _

/-- `CompositePass::setup` is graph-local. -/
theorem CompositePass.composite_graphLocal :
    Run.Keeps World.GraphLocal CompositePass.setup := by
  unfold CompositePass.setup
  simp only [FrameGraphBuilder.createVertexBuffer, FrameGraphBuilder.createRenderPipeline,
    FrameGraphBuilder.persist, FrameGraphBuilder.upload, FrameGraphBuilder.blitColor,
    FrameGraphBuilder.beginPass, FrameGraphBuilder.bindPipeline,
    FrameGraphBuilder.bindVertexBuffers, FrameGraphBuilder.bindShaderResources,
    FrameGraphBuilder.drawArray, FrameGraphBuilder.finishPass]
  repeat' with_reducible (first
    | intro _
    | exact Run.Keeps.getPass World.graphLocal_refl
    | exact Run.graphLocal_modifyPass _
    | exact Run.graphLocal_call _
    | exact Run.Keeps.getRenderResolution World.graphLocal_refl
    | exact Run.graphLocal_freshHandle
    | exact Run.graphLocal_getSlot _
    | exact Run.Keeps.requireAssigned World.graphLocal_refl _
    | apply Run.Keeps.bind World.graphLocal_trans
    | apply Run.Keeps.ite
    | split
    | dsimp only)
  all_goals exact Run.Keeps.pure World.graphLocal_refl _

/-- `DeferredLightingPass::execute` assigns to no member field but
`quadAllocated`, whatever the resources view and however it ends. -/
theorem DeferredLightingPass.execute_membersKept (resources : FrameGraphPassResources)
    (renderQueues computeQueues transferQueues : List CommandQueue) :
    Run.Keeps World.MembersKept
      (DeferredLightingPass.execute resources renderQueues computeQueues transferQueues) := by
  unfold DeferredLightingPass.execute
  repeat' with_reducible (first
    | intro _
    | exact Run.Keeps.getPass World.membersKept_refl
    | exact Run.membersKept_quadAllocated
    | exact Run.membersKept_backendCall _
    | exact Run.membersKept_get _ _ _
    | exact Run.Keeps.lift World.membersKept_refl _
    | apply Run.Keeps.bind World.membersKept_trans
    | apply Run.Keeps.ite
    | split
    | dsimp only)
  all_goals exact Run.Keeps.pure World.membersKept_refl _

/-! ## When setup returns normally -/

namespace DeferredLightingPass

theorem setupOutcome_ok_iff (b : FrameGraphBuilder) (p : DeferredLightingPass) :
    setupOutcome b p = .ok () ↔
      Consistent p ∧ (∀ s ∈ requiredSlots, (b.slots s).assigned = true) ∧
      ∃ node, b.scene.findCamera = .ok node := by
  unfold setupOutcome Consistent
  cases hvb : p.vertexBufferRes.assigned <;> cases hvao : p.vertexArrayObjectRes.assigned <;>
    cases hall : requiredSlots.all (fun s => (b.slots s).assigned) <;>
    rcases hcam : b.scene.findCamera with e | node
  all_goals simp_all [List.all_eq_true]

/-- A setup that returns normally leaves the world written out in `setupWorld`. -/
theorem setup_world_of_ok {b : FrameGraphBuilder} {p : DeferredLightingPass}
    {w : World DeferredLightingPass} (h : setup (World.start b p) = (.ok (), w)) :
    setupOutcome b p = .ok () ∧
    ∃ f node t, b.settings.SETTING_RENDER_SCALE = f ∧ b.scene.findCamera = .ok node ∧
      node.getTransform = .ok t ∧ w = setupWorld b p f t := by
  have hs := setup_spec b p
  rw [h] at hs
  obtain ⟨h1, h2, _⟩ := hs
  have hok : setupOutcome b p = .ok () := h1.symm
  obtain ⟨_, _, node, hcam⟩ := (setupOutcome_ok_iff b p).1 hok
  exact ⟨hok, _, node, _, rfl, hcam, rfl, h2 node hcam hok⟩

end DeferredLightingPass

/-! ## Required slots (C3) -/

namespace DeferredLightingPass

theorem Reachable.consistent {p : DeferredLightingPass} (h : Reachable p) : Consistent p := by
  induction h with
  | fresh mesh => intro h; cases h
  | setup b p _ ih => exact (setup_spec b p).2.2.1 ih
  | execute resources rq cq tq b p _ ih =>
    have hk := (execute_membersKept resources rq cq tq (World.start b p)).1
    intro h1
    rw [hk] at h1 ⊢
    exact ih h1

theorem setupOutcome_of_assumptions {b : FrameGraphBuilder} {p : DeferredLightingPass}
    (hp : Consistent p)
    (hcamera : ∃ node t, b.scene.findCamera = .ok node ∧ node.getTransform = .ok t) :
    setupOutcome b p =
      if requiredSlots.all (fun s => (b.slots s).assigned) then .ok () else .error .graphError := by
  obtain ⟨node, t, hcam, htr⟩ := hcamera
  have hinv : (p.vertexBufferRes.assigned && !p.vertexArrayObjectRes.assigned) = false := by
    unfold Consistent at hp
    cases hvb : p.vertexBufferRes.assigned <;> cases hvao : p.vertexArrayObjectRes.assigned <;>
      simp_all
  simp only [setupOutcome, hinv, hcam]
  rfl

/-- C3: for a pass in a reachable state and a scene with a camera node that has
a transform (the render-scale setting is a float the settings always hold),
`DeferredLightingPass::setup` throws, and then a `GraphError`, exactly when one
of the nine slots it reads or writes unconditionally is unbound; it returns
normally exactly when all nine are bound; and rebinding or unbinding
`SLOT_SHADOW_MAP_POINT` never changes how the setup ends. -/
theorem setup_fails_iff_required_slot_unbound (b : FrameGraphBuilder) (p : DeferredLightingPass)
    (hp : Reachable p)
    (hcamera : ∃ node t, b.scene.findCamera = .ok node ∧ node.getTransform = .ok t) :
    ((setup (World.start b p)).1 = .error .graphError ↔
      ∃ s ∈ requiredSlots, (b.slots s).assigned = false) ∧
    ((setup (World.start b p)).1 ≠ .ok () ↔
      ∃ s ∈ requiredSlots, (b.slots s).assigned = false) ∧
    ∀ shadowMap : FrameGraphResource,
      (setup (World.start
        { b with slots := Function.update b.slots SLOT_SHADOW_MAP_POINT shadowMap } p)).1 =
      (setup (World.start b p)).1 := by
  have ho := setupOutcome_of_assumptions (b := b) hp.consistent hcamera
  have hrun := (setup_spec b p).1
  have hex : (∃ s ∈ requiredSlots, (b.slots s).assigned = false) ↔
      requiredSlots.all (fun s => (b.slots s).assigned) = false := by
    rw [List.all_eq_false]
    simp
  refine ⟨?_, ?_, ?_⟩
  · rw [hrun, ho, hex]
    cases requiredSlots.all (fun s => (b.slots s).assigned) <;> simp
  · rw [hrun, ho, hex]
    cases requiredSlots.all (fun s => (b.slots s).assigned) <;> simp
  · intro shadowMap
    rw [hrun, (setup_spec _ p).1]
    have hall : requiredSlots.all (fun s =>
          (Function.update b.slots SLOT_SHADOW_MAP_POINT shadowMap s).assigned) =
        requiredSlots.all (fun s => (b.slots s).assigned) := by
      simp [requiredSlots, Function.update]
    simp only [setupOutcome, hall]

/-- C3 at the concrete frame with `SLOT_GBUFFER_DEPTH` unbound: the setup of a
fresh pass throws a `GraphError`. -/
theorem setup_fails_iff_required_slot_unbound_witness :
    (setup (World.start exampleUnboundBuilder examplePass)).1 = .error .graphError :=
  (setup_fails_iff_required_slot_unbound exampleUnboundBuilder examplePass
    (Reachable.fresh exampleMesh) ⟨_, _, rfl, rfl⟩).1.2
    ⟨SLOT_GBUFFER_DEPTH, by decide, rfl⟩

end DeferredLightingPass

/-! ## Fetches and declarations (C1) -/

namespace DeferredLightingPass

/-- Every handle `execute` fetches from the pass a successful setup leaves was
declared by a `read` or a `write` of that setup. -/
theorem executeFetches_declared (b : FrameGraphBuilder) (p : DeferredLightingPass)
    (f : FloatExpr) (t : Transform) :
    ∀ h ∈ executeFetches (setupPass b p f t),
      Call.read h ∈ setupCalls b p (setupPass b p f t) ∨
      Call.write h ∈ setupCalls b p (setupPass b p f t) := by
  generalize hq : setupPass b p f t = q
  have hsh : q.pointLightShadowMapRes.assigned = (b.slots SLOT_SHADOW_MAP_POINT).assigned := by
    rw [← hq]
    simp only [setupPass]
    cases h : (b.slots SLOT_SHADOW_MAP_POINT).assigned <;> simp [h]
  cases hs : (b.slots SLOT_SHADOW_MAP_POINT).assigned <;>
    simp [executeFetches, executeFetchesFirst, executeFetchesSecond, shadowMapHandle,
      setupCalls, hsh, hs]

end DeferredLightingPass

theorem foldlM_error_eq {α β : Type} (f : β → α → Except Error β) (E : Error)
    (hf : ∀ acc x e, f acc x = .error e → e = E) (l : List α) (init : β) (e : Error)
    (h : l.foldlM f init = .error e) : e = E := by
  induction l generalizing init with
  | nil => cases h
  | cons x xs ih =>
    rw [List.foldlM_cons] at h
    rcases hx : f init x with e' | acc
    · rw [hx] at h
      cases h
      exact hf _ _ _ hx
    · rw [hx] at h
      exact ih acc h

theorem vectorAt_error {α : Type} (v : List α) (i : Nat) (e : Error)
    (h : vectorAt v i = .error e) : e = .outOfRange := by
  unfold vectorAt at h
  split at h
  · cases h
  · cases h; rfl

namespace DeferredLightingPass

theorem getPointLights_error (s : Scene) (e : Error) (h : getPointLights s = .error e) :
    e = .missingProperty := by
  refine foldlM_error_eq _ _ ?_ _ _ _ h
  intro acc node e he
  simp only [Node.getPointLight, Node.getTransform, bind, Except.bind, pure, Except.pure] at he
  cases hl : node.pointLight <;> cases ht : node.transform <;> simp only [hl, ht] at he <;>
    first
    | (cases he; rfl)
    | (split at he <;> cases he)

theorem getDirLights_error (s : Scene) (e : Error) (h : getDirLights s = .error e) :
    e = .missingProperty := by
  refine foldlM_error_eq _ _ ?_ _ _ _ h
  intro acc node e he
  simp only [Node.getDirectionalLight, bind, Except.bind, pure, Except.pure] at he
  cases hl : node.directionalLight <;> simp only [hl] at he <;>
    first
    | (cases he; rfl)
    | (split at he <;> cases he)

theorem getSpotLights_error (s : Scene) (e : Error) (h : getSpotLights s = .error e) :
    e = .missingProperty := by
  refine foldlM_error_eq _ _ ?_ _ _ _ h
  intro acc node e he
  simp only [Node.getSpotLight, Node.getTransform, bind, Except.bind, pure, Except.pure] at he
  cases hl : node.spotLight <;> cases ht : node.transform <;> simp only [hl, ht] at he <;>
    first
    | (cases he; rfl)
    | (split at he <;> cases he)

theorem fetchedHandles_fetchCalls (l : List (ResourceKind × FrameGraphResource)) :
    fetchedHandles (fetchCalls l) = l.map Prod.snd := by
  induction l with
  | nil => rfl
  | cons x xs ih =>
    simp only [fetchCalls, fetchedHandles, List.map_cons, List.filterMap_cons] at ih ⊢
    rw [ih]

theorem fetchedHandles_append (a b : List BackendCall) :
    fetchedHandles (a ++ b) = fetchedHandles a ++ fetchedHandles b := by
  simp [fetchedHandles]

theorem fetchedHandles_executeRecorded (resources : FrameGraphPassResources)
    (p : DeferredLightingPass) (pointLights : List PointLightData × List PointLightData)
    (dirLights : List DirectionalLightData × List DirectionalLightData)
    (spotLights : List SpotLightData × List SpotLightData) :
    fetchedHandles (executeRecorded resources p pointLights dirLights spotLights) =
      executeFetches p := by
  simp only [executeRecorded, fetchedHandles_append, fetchedHandles_fetchCalls, executeFetches,
    List.map_append]
  have h1 : fetchedHandles (executeLightUploads p pointLights dirLights spotLights) = [] := rfl
  have h2 : fetchedHandles (executeQuadUpload p) = [] := by
    unfold executeQuadUpload
    split <;> rfl
  rw [h1, h2]
  simp [fetchedHandles]

/-- The fetches in the log of `execute` are among `executeFetches`, and
`execute` does not end in the access-violation error, when the pass fetches
declared handles only. -/
theorem executeResult_fetches (resources : FrameGraphPassResources)
    (renderQueues : List CommandQueue) (b : FrameGraphBuilder) (p : DeferredLightingPass) :
    (∀ h ∈ fetchedHandles (executeResult resources renderQueues b p).2.backend,
      h ∈ executeFetches p) ∧
    (executeResult resources renderQueues b p).1 ≠ .error .accessViolation := by
  have hfirst : ∀ h ∈ fetchedHandles (fetchCalls (executeFetchesFirst p)),
      h ∈ executeFetches p := by
    intro h hh
    rw [fetchedHandles_fetchCalls] at hh
    simp only [executeFetches, List.map_append, List.mem_append]
    exact Or.inl hh
  unfold executeResult
  rcases hpl : getPointLights p.scene with e | pointLights
  · refine ⟨hfirst, ?_⟩
    rw [getPointLights_error _ _ hpl]
    simp
  rcases hdl : getDirLights p.scene with e | dirLights
  · refine ⟨hfirst, ?_⟩
    rw [getDirLights_error _ _ hdl]
    simp
  rcases hsl : getSpotLights p.scene with e | spotLights
  · refine ⟨hfirst, ?_⟩
    rw [getSpotLights_error _ _ hsl]
    simp
  rcases hq : vectorAt renderQueues 0 with e | queue
  · refine ⟨?_, ?_⟩
    · intro h hh
      simp only [fetchedHandles_executeRecorded] at hh
      exact hh
    · rw [vectorAt_error _ _ _ hq]
      simp
  · refine ⟨?_, by simp⟩
    intro h hh
    simp only [fetchedHandles_append, fetchedHandles_executeRecorded] at hh
    simpa [fetchedHandles] using hh

theorem mem_declaredHandles (calls : List Call) (h : FrameGraphResource) :
    h ∈ declaredHandles calls ↔
      Call.read h ∈ calls ∨ Call.write h ∈ calls ∨ Call.persist h ∈ calls := by
  unfold declaredHandles
  rw [List.mem_filterMap]
  constructor
  · rintro ⟨c, hc, hd⟩
    cases c <;> simp only [Call.declares, Option.some.injEq, reduceCtorEq] at hd
    · subst hd; exact Or.inl hc
    · subst hd; exact Or.inr (Or.inl hc)
    · subst hd; exact Or.inr (Or.inr hc)
  · rintro (h1 | h1 | h1)
    · exact ⟨_, h1, rfl⟩
    · exact ⟨_, h1, rfl⟩
    · exact ⟨_, h1, rfl⟩

/-- C1: whenever `DeferredLightingPass::setup` returns normally, every handle
the following `execute` passes to `resources.get` was passed to `builder.read`,
`builder.write` or `builder.persist` by that setup, whatever the scene, the
slot bindings (with `SLOT_SHADOW_MAP_POINT` bound or unbound) and the queues;
so `execute`, run against the view of what the setup declared, never ends in
the access-violation error. -/
theorem execute_fetches_only_declared (b : FrameGraphBuilder) (p : DeferredLightingPass)
    (w : World DeferredLightingPass) (hsetup : setup (World.start b p) = (.ok (), w))
    (renderQueues computeQueues transferQueues : List CommandQueue) :
    (∀ h ∈ fetchedHandles (execute (.ofCalls w.calls) renderQueues computeQueues transferQueues
        (World.start w.builder w.pass)).2.backend,
      Call.read h ∈ w.calls ∨ Call.write h ∈ w.calls ∨ Call.persist h ∈ w.calls) ∧
    (execute (.ofCalls w.calls) renderQueues computeQueues transferQueues
      (World.start w.builder w.pass)).1 ≠ .error .accessViolation := by
  obtain ⟨_, f, node, t, _, _, _, hw⟩ := setup_world_of_ok hsetup
  have hdecl : ∀ h ∈ executeFetches w.pass, Call.read h ∈ w.calls ∨ Call.write h ∈ w.calls := by
    rw [hw]
    exact executeFetches_declared b p f t
  have hview : ∀ h ∈ executeFetches w.pass,
      h ∈ (FrameGraphPassResources.ofCalls w.calls).declared := by
    intro h hh
    show h ∈ declaredHandles w.calls
    rw [mem_declaredHandles]
    rcases hdecl h hh with h1 | h1
    · exact Or.inl h1
    · exact Or.inr (Or.inl h1)
  rw [execute_spec _ _ _ _ _ _ hview]
  have hres := executeResult_fetches (.ofCalls w.calls) renderQueues w.builder w.pass
  refine ⟨fun h hh => ?_, hres.2⟩
  rcases hdecl h (hres.1 h hh) with h1 | h1
  · exact Or.inl h1
  · exact Or.inr (Or.inl h1)

/-- C1 at the concrete frame. -/
theorem execute_fetches_only_declared_witness :
    setup (World.start exampleBuilder examplePass) = (.ok (), exampleSetup) ∧
    (execute (.ofCalls exampleSetup.calls) exampleInput.renderQueues [] []
      (World.start exampleSetup.builder exampleSetup.pass)).1 ≠ .error .accessViolation :=
  ⟨Prod.ext (by rfl) rfl,
   (execute_fetches_only_declared exampleBuilder examplePass exampleSetup
      (Prod.ext (by rfl) rfl) exampleInput.renderQueues [] []).2⟩

end DeferredLightingPass

/-! ## Persisted resources (C2) -/

theorem runSetups_cons_some {P : Type} {setup : Run P Unit} {b : FrameGraphBuilder}
    {bs : List FrameGraphBuilder} {p q : P} {traces : List (List Call)}
    (h : runSetups setup (b :: bs) p = some (traces, q)) :
    ∃ w rest, setup (World.start b p) = (.ok (), w) ∧
      runSetups setup bs w.pass = some (rest, q) ∧ traces = w.calls :: rest := by
  rcases hs : setup (World.start b p) with ⟨_ | _, w⟩
  · simp only [runSetups, hs] at h
    cases h
  rcases hr : runSetups setup bs w.pass with _ | ⟨rest, q'⟩
  · simp only [runSetups, hs, hr] at h
    cases h
  simp only [runSetups, hs, hr, Option.some.injEq, Prod.mk.injEq] at h
  obtain ⟨rfl, rfl⟩ := h
  exact ⟨w, rest, rfl, hr, rfl⟩

namespace DeferredLightingPass

theorem setupCalls_persists (b : FrameGraphBuilder) (p q : DeferredLightingPass) :
    Call.persist q.vertexBufferRes ∈ setupCalls b p q ∧
    Call.persist q.vertexArrayObjectRes ∈ setupCalls b p q ∧
    Call.persist q.pipelineRes ∈ setupCalls b p q := by
  simp [setupCalls]

theorem setupCalls_creations (b : FrameGraphBuilder) (p q : DeferredLightingPass) :
    persistedCreations (setupCalls b p q) =
      (if p.vertexBufferRes.assigned then 0 else 1, if p.vertexBufferRes.assigned then 0 else 1,
       if p.pipelineRes.assigned then 0 else 1) := by
  cases hvb : p.vertexBufferRes.assigned <;> cases hpl : p.pipelineRes.assigned <;>
    cases hsh : (b.slots SLOT_SHADOW_MAP_POINT).assigned <;>
    simp [persistedCreations, setupCalls, hvb, hpl, hsh, List.countP_cons,
      Call.isCreateVertexBuffer, Call.isCreateVertexArrayObject, Call.isCreatePipeline]

/-- What a setup that returns normally does with the persisted resources. -/
theorem setup_persisted {b : FrameGraphBuilder} {p : DeferredLightingPass}
    {w : World DeferredLightingPass} (h : setup (World.start b p) = (.ok (), w)) :
    persistedCreations w.calls =
      (if p.vertexBufferRes.assigned then 0 else 1, if p.vertexBufferRes.assigned then 0 else 1,
       if p.pipelineRes.assigned then 0 else 1) ∧
    Call.persist w.pass.vertexBufferRes ∈ w.calls ∧
    Call.persist w.pass.vertexArrayObjectRes ∈ w.calls ∧
    Call.persist w.pass.pipelineRes ∈ w.calls ∧
    w.pass.vertexBufferRes.assigned = true ∧ w.pass.vertexArrayObjectRes.assigned = true ∧
    w.pass.pipelineRes.assigned = true ∧
    (p.vertexBufferRes.assigned = true →
      w.pass.vertexBufferRes = p.vertexBufferRes ∧
      w.pass.vertexArrayObjectRes = p.vertexArrayObjectRes) ∧
    (p.pipelineRes.assigned = true → w.pass.pipelineRes = p.pipelineRes) ∧
    (p.vertexBufferRes.assigned = false →
      (∃ d, Call.createVertexBuffer d w.pass.vertexBufferRes ∈ w.calls) ∧
      (∃ d, Call.createVertexArrayObject d w.pass.vertexArrayObjectRes ∈ w.calls)) ∧
    (p.pipelineRes.assigned = false →
      ∃ d, Call.createPipeline d w.pass.pipelineRes ∈ w.calls) := by
  obtain ⟨hok, f, node, t, _, _, _, hw⟩ := setup_world_of_ok h
  have hcons := ((setupOutcome_ok_iff b p).1 hok).1
  subst hw
  have hp := setupCalls_persists b p (setupPass b p f t)
  refine ⟨setupCalls_creations b p _, hp.1, hp.2.1, hp.2.2, ?_, ?_, ?_, ?_, ?_, ?_, ?_⟩
  · cases hvb : p.vertexBufferRes.assigned <;>
      simp [setupWorld, setupPass, hvb, FrameGraphBuilder.nthHandle]
  · cases hvb : p.vertexBufferRes.assigned
    · simp [setupWorld, setupPass, hvb, FrameGraphBuilder.nthHandle]
    · simpa [setupWorld, setupPass, hvb] using hcons hvb
  · cases hpl : p.pipelineRes.assigned <;>
      simp [setupWorld, setupPass, hpl, FrameGraphBuilder.nthHandle]
  · intro hvb
    simp [setupWorld, setupPass, hvb]
  · intro hpl
    simp [setupWorld, setupPass, hpl]
  · intro hvb
    simp [setupWorld, setupCalls, hvb]
  · intro hpl
    simp [setupWorld, setupCalls, hpl]

/-- Setups that follow one another on a pass whose persisted handles are all
assigned create none of the persisted resources again and persist the same
three handles every time. -/
theorem runSetups_assigned (bs : List FrameGraphBuilder) (p : DeferredLightingPass)
    (traces : List (List Call)) (q : DeferredLightingPass)
    (hvb : p.vertexBufferRes.assigned = true) (hpl : p.pipelineRes.assigned = true)
    (hrun : runSetups setup bs p = some (traces, q)) :
    traces.length = bs.length ∧
    q.vertexBufferRes = p.vertexBufferRes ∧ q.vertexArrayObjectRes = p.vertexArrayObjectRes ∧
    q.pipelineRes = p.pipelineRes ∧
    ∀ t ∈ traces, persistedCreations t = (0, 0, 0) ∧
      Call.persist p.vertexBufferRes ∈ t ∧ Call.persist p.vertexArrayObjectRes ∈ t ∧
      Call.persist p.pipelineRes ∈ t := by
  induction bs generalizing p traces with
  | nil =>
    simp only [runSetups, Option.some.injEq, Prod.mk.injEq] at hrun
    obtain ⟨rfl, rfl⟩ := hrun
    simp
  | cons b bs ih =>
    obtain ⟨w, rest, hs, hr, rfl⟩ := runSetups_cons_some hrun
    obtain ⟨hc, hp1, hp2, hp3, ha1, _, ha3, hk1, hk2, _, _⟩ := setup_persisted hs
    obtain ⟨e1, e2⟩ := hk1 hvb
    have e3 := hk2 hpl
    obtain ⟨hl, hq1, hq2, hq3, hall⟩ := ih w.pass rest ha1 ha3 hr
    rw [e1] at hq1 hp1
    rw [e2] at hq2 hp2
    rw [e3] at hq3 hp3
    refine ⟨by simp [hl], hq1, hq2, hq3, ?_⟩
    intro t ht
    rcases List.mem_cons.1 ht with rfl | ht
    · refine ⟨?_, hp1, hp2, hp3⟩
      rw [hc]
      simp [hvb, hpl]
    · have := hall t ht
      rw [e1, e2, e3] at this
      exact this

end DeferredLightingPass

namespace CompositePass

theorem compositeCalls_creations (b : FrameGraphBuilder) (p q : CompositePass) :
    persistedCreations (setupCalls b p q) =
      (if p.pipeline.assigned then 0 else 1, if p.vertexBuffer.assigned then 0 else 1) := by
  cases hpl : p.pipeline.assigned <;> cases hvb : p.vertexBuffer.assigned <;>
    simp [persistedCreations, setupCalls, hvb, hpl, List.countP_cons,
      Call.isCreateVertexBuffer, Call.isCreateRenderPipeline]

/-- What `CompositePass::setup` does with the persisted resources. -/
theorem composite_persisted (b : FrameGraphBuilder) (p : CompositePass) :
    persistedCreations (setupWorld b p).calls =
      (if p.pipeline.assigned then 0 else 1, if p.vertexBuffer.assigned then 0 else 1) ∧
    Call.persist (setupWorld b p).pass.pipeline ∈ (setupWorld b p).calls ∧
    Call.persist (setupWorld b p).pass.vertexBuffer ∈ (setupWorld b p).calls ∧
    (setupWorld b p).pass.pipeline.assigned = true ∧
    (setupWorld b p).pass.vertexBuffer.assigned = true ∧
    (p.pipeline.assigned = true → (setupWorld b p).pass.pipeline = p.pipeline) ∧
    (p.vertexBuffer.assigned = true → (setupWorld b p).pass.vertexBuffer = p.vertexBuffer) ∧
    (p.pipeline.assigned = false →
      ∃ d, Call.createRenderPipeline d (setupWorld b p).pass.pipeline ∈ (setupWorld b p).calls) ∧
    (p.vertexBuffer.assigned = false →
      ∃ d, Call.createVertexBuffer d (setupWorld b p).pass.vertexBuffer ∈
        (setupWorld b p).calls) := by
  refine ⟨compositeCalls_creations b p _, by simp [setupWorld, setupCalls],
    by simp [setupWorld, setupCalls], ?_, ?_, ?_, ?_, ?_, ?_⟩
  · cases hpl : p.pipeline.assigned <;>
      simp [setupWorld, setupPass, hpl, FrameGraphBuilder.nthHandle]
  · cases hvb : p.vertexBuffer.assigned <;>
      simp [setupWorld, setupPass, hvb, FrameGraphBuilder.nthHandle]
  · intro hpl
    simp [setupWorld, setupPass, hpl]
  · intro hvb
    simp [setupWorld, setupPass, hvb]
  · intro hpl
    simp [setupWorld, setupCalls, hpl]
  · intro hvb
    simp [setupWorld, setupCalls, hvb]

theorem runSetups_cons (b : FrameGraphBuilder) (bs : List FrameGraphBuilder) (p q : CompositePass)
    (rest : List (List Call)) (h : runSetups setup bs (setupWorld b p).pass = some (rest, q)) :
    runSetups setup (b :: bs) p = some ((setupWorld b p).calls :: rest, q) := by
  simp only [runSetups, composite_spec, h]

theorem compositeSetups_assigned (bs : List FrameGraphBuilder) (p : CompositePass)
    (hpl : p.pipeline.assigned = true) (hvb : p.vertexBuffer.assigned = true) :
    ∃ traces q, runSetups setup bs p = some (traces, q) ∧
      traces.length = bs.length ∧ q.pipeline = p.pipeline ∧ q.vertexBuffer = p.vertexBuffer ∧
      ∀ t ∈ traces, persistedCreations t = (0, 0) ∧
        Call.persist p.pipeline ∈ t ∧ Call.persist p.vertexBuffer ∈ t := by
  induction bs generalizing p with
  | nil => exact ⟨[], p, rfl, rfl, rfl, rfl, by simp⟩
  | cons b bs ih =>
    obtain ⟨hc, hp1, hp2, ha1, ha2, hk1, hk2, _, _⟩ := composite_persisted b p
    have e1 := hk1 hpl
    have e2 := hk2 hvb
    obtain ⟨rest, q, hr, hl, hq1, hq2, hall⟩ := ih (setupWorld b p).pass ha1 ha2
    refine ⟨(setupWorld b p).calls :: rest, q, ?_, by simp [hl], hq1.trans e1, hq2.trans e2, ?_⟩
    · exact runSetups_cons b bs p q rest hr
    · intro t ht
      rw [e1] at hp1
      rw [e2] at hp2
      rcases List.mem_cons.1 ht with rfl | ht
      · refine ⟨?_, hp1, hp2⟩
        rw [hc]
        simp [hvb, hpl]
      · have := hall t ht
        rw [e1, e2] at this
        exact this

end CompositePass

/-- C2: in every run of `N >= 1` consecutive setups that all return normally,
on a pass whose persisted handles start unassigned, the first setup issues
exactly one create call for each persisted resource and no later setup issues
any (`DeferredLightingPass`: `createVertexBuffer`, `createVertexArrayObject`,
`createPipeline`; `CompositePass`: `createRenderPipeline`, `createVertexBuffer`),
and every one of the `N` setups calls `persist` on the handles those first
create calls returned, which the pass still holds at the end. The setups of
`CompositePass` always return normally. -/
theorem persisted_resources_created_once (bs : List FrameGraphBuilder) (hN : bs ≠ []) :
    (∀ (p : DeferredLightingPass) (traces : List (List Call)) (q : DeferredLightingPass),
      p.vertexBufferRes.assigned = false → p.vertexArrayObjectRes.assigned = false →
      p.pipelineRes.assigned = false →
      runSetups DeferredLightingPass.setup bs p = some (traces, q) →
      traces.length = bs.length ∧
      ∃ first rest, traces = first :: rest ∧
        DeferredLightingPass.persistedCreations first = (1, 1, 1) ∧
        (∀ t ∈ rest, DeferredLightingPass.persistedCreations t = (0, 0, 0)) ∧
        (∃ d, Call.createVertexBuffer d q.vertexBufferRes ∈ first) ∧
        (∃ d, Call.createVertexArrayObject d q.vertexArrayObjectRes ∈ first) ∧
        (∃ d, Call.createPipeline d q.pipelineRes ∈ first) ∧
        ∀ t ∈ traces, Call.persist q.vertexBufferRes ∈ t ∧
          Call.persist q.vertexArrayObjectRes ∈ t ∧ Call.persist q.pipelineRes ∈ t) ∧
    (∀ (p : CompositePass), p.pipeline.assigned = false → p.vertexBuffer.assigned = false →
      ∃ traces q, runSetups CompositePass.setup bs p = some (traces, q) ∧
        traces.length = bs.length ∧
        ∃ first rest, traces = first :: rest ∧
          CompositePass.persistedCreations first = (1, 1) ∧
          (∀ t ∈ rest, CompositePass.persistedCreations t = (0, 0)) ∧
          (∃ d, Call.createRenderPipeline d q.pipeline ∈ first) ∧
          (∃ d, Call.createVertexBuffer d q.vertexBuffer ∈ first) ∧
          ∀ t ∈ traces, Call.persist q.pipeline ∈ t ∧ Call.persist q.vertexBuffer ∈ t) := by
  obtain ⟨b, bs, rfl⟩ := List.exists_cons_of_ne_nil hN
  constructor
  · intro p traces q hvb _ hpl hrun
    obtain ⟨w, rest, hs, hr, rfl⟩ := runSetups_cons_some hrun
    obtain ⟨hc, hp1, hp2, hp3, ha1, _, ha3, _, _, hcr1, hcr2⟩ :=
      DeferredLightingPass.setup_persisted hs
    obtain ⟨hl, hq1, hq2, hq3, hall⟩ :=
      DeferredLightingPass.runSetups_assigned bs w.pass rest q ha1 ha3 hr
    obtain ⟨⟨d1, hd1⟩, ⟨d2, hd2⟩⟩ := hcr1 hvb
    obtain ⟨d3, hd3⟩ := hcr2 hpl
    rw [hq1, hq2, hq3]
    refine ⟨by simp [hl], w.calls, rest, rfl, ?_, fun t ht => (hall t ht).1, ⟨d1, hd1⟩,
      ⟨d2, hd2⟩, ⟨d3, hd3⟩, ?_⟩
    · rw [hc]
      simp [hvb, hpl]
    · intro t ht
      rcases List.mem_cons.1 ht with rfl | ht
      · exact ⟨hp1, hp2, hp3⟩
      · exact (hall t ht).2
  · intro p hpl hvb
    obtain ⟨hc, hp1, hp2, ha1, ha2, _, _, hcr1, hcr2⟩ := CompositePass.composite_persisted b p
    obtain ⟨rest, q, hr, hl, hq1, hq2, hall⟩ :=
      CompositePass.compositeSetups_assigned bs (CompositePass.setupWorld b p).pass ha1 ha2
    obtain ⟨d1, hd1⟩ := hcr1 hpl
    obtain ⟨d2, hd2⟩ := hcr2 hvb
    refine ⟨(CompositePass.setupWorld b p).calls :: rest, q, ?_, by simp [hl], _, _, rfl, ?_,
      fun t ht => (hall t ht).1, ?_, ?_, ?_⟩
    · exact CompositePass.runSetups_cons b bs p q rest hr
    · rw [hc]
      simp [hvb, hpl]
    · rw [hq1]
      exact ⟨d1, hd1⟩
    · rw [hq2]
      exact ⟨d2, hd2⟩
    · intro t ht
      rw [hq1, hq2]
      rcases List.mem_cons.1 ht with rfl | ht
      · exact ⟨hp1, hp2⟩
      · exact (hall t ht).2

/-- C2 at two consecutive frames of the concrete input. -/
theorem persisted_resources_created_once_witness :
    (∃ traces q, runSetups DeferredLightingPass.setup exampleBuilders examplePass =
        some (traces, q) ∧ traces.length = exampleBuilders.length) ∧
    (∃ traces q, runSetups CompositePass.setup exampleBuilders exampleCompositePass =
        some (traces, q) ∧ traces.length = exampleBuilders.length) :=
  ⟨⟨_, _, rfl,
    ((persisted_resources_created_once exampleBuilders (List.cons_ne_nil _ _)).1 examplePass
      _ _ rfl rfl rfl rfl).1⟩,
   (((persisted_resources_created_once exampleBuilders (List.cons_ne_nil _ _)).2
      exampleCompositePass rfl rfl).imp fun _ h => h.imp fun _ h => ⟨h.1, h.2.1⟩)⟩

/-! ## The shadow map in execute -/

theorem foldlM_ok {α β : Type} (f : β → α → Except Error β) (l : List α)
    (hf : ∀ acc, ∀ x ∈ l, ∃ r, f acc x = .ok r) (init : β) :
    ∃ r, l.foldlM f init = .ok r := by
  induction l generalizing init with
  | nil => exact ⟨init, rfl⟩
  | cons x xs ih =>
    obtain ⟨r, hr⟩ := hf init x (List.mem_cons_self _ _)
    obtain ⟨r', hr'⟩ := ih (fun acc y hy => hf acc y (List.mem_cons_of_mem _ hy)) r
    refine ⟨r', ?_⟩
    rw [List.foldlM_cons, hr]
    exact hr'

namespace DeferredLightingPass

/-- `getPointLights` returns for every scene. -/
theorem getPointLights_ok (scene : Scene) : ∃ r, getPointLights scene = .ok r := by
  unfold getPointLights
  apply foldlM_ok
  intro acc n hn
  unfold Scene.findAllPointLight at hn
  rw [List.mem_filter] at hn
  obtain ⟨hmem, hl⟩ := hn
  cases hl' : n.pointLight with
  | none => rw [hl'] at hl; cases hl
  | some l =>
    cases hc : l.castShadows <;>
      simp [Node.getPointLight, Node.getTransform, hl', hc, bind, Except.bind, pure,
        Except.pure]

/-- `getDirLights` returns for every scene. -/
theorem getDirLights_ok (scene : Scene) : ∃ r, getDirLights scene = .ok r := by
  unfold getDirLights
  apply foldlM_ok
  intro acc n hn
  unfold Scene.findAllDirectionalLight at hn
  rw [List.mem_filter] at hn
  obtain ⟨hmem, hl⟩ := hn
  cases hl' : n.directionalLight with
  | none => rw [hl'] at hl; cases hl
  | some l =>
    cases hc : l.castShadows <;>
      simp [Node.getDirectionalLight, hl', hc, bind, Except.bind, pure, Except.pure]

/-- `getSpotLights` returns for every scene. -/
theorem getSpotLights_ok (scene : Scene) : ∃ r, getSpotLights scene = .ok r := by
  unfold getSpotLights
  apply foldlM_ok
  intro acc n hn
  unfold Scene.findAllSpotLight at hn
  rw [List.mem_filter] at hn
  obtain ⟨hmem, hl⟩ := hn
  cases hl' : n.spotLight with
  | none => rw [hl'] at hl; cases hl
  | some l =>
    cases hc : l.castShadows <;>
      simp [Node.getSpotLight, Node.getTransform, hl', hc, bind, Except.bind, pure,
        Except.pure]

theorem mem_fetchCalls_first_textureArray (p : DeferredLightingPass) (h : FrameGraphResource) :
    BackendCall.get .TextureArrayBuffer h ∈ fetchCalls (executeFetchesFirst p) ↔
      h = shadowMapHandle p := by
  simp [fetchCalls, executeFetchesFirst]

end DeferredLightingPass

/-! ## The optional shadow-map slot (C4) -/

namespace DeferredLightingPass

/-- After a setup that returned normally, `execute` run against the view of
what that setup declared is the run written out in `executeResult`. -/
theorem execute_after_setup {b : FrameGraphBuilder} {p : DeferredLightingPass}
    {w : World DeferredLightingPass} (hsetup : setup (World.start b p) = (.ok (), w))
    (renderQueues computeQueues transferQueues : List CommandQueue) :
    execute (.ofCalls w.calls) renderQueues computeQueues transferQueues
        (World.start w.builder w.pass) =
      executeResult (.ofCalls w.calls) renderQueues w.builder w.pass := by
  obtain ⟨_, f, node, t, _, _, _, hw⟩ := setup_world_of_ok hsetup
  apply execute_spec
  intro h hh
  show h ∈ declaredHandles w.calls
  rw [mem_declaredHandles]
  have hdecl : Call.read h ∈ w.calls ∨ Call.write h ∈ w.calls := by
    rw [hw] at hh ⊢
    exact executeFetches_declared b p f t h hh
  rcases hdecl with h1 | h1
  · exact Or.inl h1
  · exact Or.inr (Or.inl h1)

end DeferredLightingPass

/-! ## The command buffer in execute -/

namespace DeferredLightingPass

theorem vectorAt_zero {α : Type} (v : List α) :
    vectorAt v 0 = match v.head? with
      | some a => .ok a
      | none => .error .outOfRange := by
  cases v <;> rfl

end DeferredLightingPass

/-! ## Command-buffer protocol and submission (C5, C6) -/

namespace DeferredLightingPass

end DeferredLightingPass

/-! ## The vertex-data producer (C7) -/

theorem VertexStream.getVertexBuffer_length (vs : List Vertex) (n : Nat)
    (h : ∀ v ∈ vs, v.buffer.length = n) :
    (VertexStream.getVertexBuffer vs).length = vs.length * n := by
  unfold VertexStream.getVertexBuffer
  induction vs with
  | nil => simp
  | cons v vs ih =>
    have hv := h v (List.mem_cons_self _ _)
    have := ih (fun u hu => h u (List.mem_cons_of_mem _ hu))
    simp only [List.map_cons, List.flatten_cons, List.length_append, List.length_cons, this, hv]
    ring

namespace CompositePass

theorem registeredProducers_setupCalls (b : FrameGraphBuilder) (p q : CompositePass) :
    registeredProducers (setupCalls b p q) =
      if p.vertexBuffer.assigned then [] else [(q.vertexBuffer, .compositePassVertexData)] := by
  cases hpl : p.pipeline.assigned <;> cases hvb : p.vertexBuffer.assigned <;>
    simp [registeredProducers, setupCalls, hvb, hpl, List.filterMap_cons]

/-- Setups that follow one another on a pass whose handles are assigned
register no producer and keep the mesh. -/
theorem runSetups_registers_nothing (bs : List FrameGraphBuilder) (p : CompositePass)
    (hvb : p.vertexBuffer.assigned = true) (traces : List (List Call)) (q : CompositePass)
    (hrun : runSetups setup bs p = some (traces, q)) :
    q.mesh = p.mesh ∧ ∀ t ∈ traces, registeredProducers t = [] := by
  induction bs generalizing p traces with
  | nil =>
    simp only [runSetups, Option.some.injEq, Prod.mk.injEq] at hrun
    obtain ⟨rfl, rfl⟩ := hrun
    simp
  | cons b bs ih =>
    obtain ⟨w, rest, hs, hr, rfl⟩ := runSetups_cons_some hrun
    rw [composite_spec] at hs
    obtain rfl : setupWorld b p = w := (Prod.mk.inj hs).2
    have ha := (composite_persisted b p).2.2.2.2.1
    obtain ⟨hm, hall⟩ := ih (setupWorld b p).pass ha rest hr
    refine ⟨hm, ?_⟩
    intro t ht
    rcases List.mem_cons.1 ht with rfl | ht
    · show registeredProducers (setupCalls b p _) = []
      rw [registeredProducers_setupCalls, hvb]
      rfl
    · exact hall t ht

/-- C7 fails as stated: the first setup of the fresh pass of the concrete frame
declares a vertex buffer of 24 bytes and registers the producer for it; when
the mesh of the pass is replaced before the engine invokes the producer, which
captures `this`, the producer yields the 36 bytes of the new mesh. -/
theorem producer_yields_bytes_of_changed_mesh :
    Call.createVertexBuffer { size := 24 } exampleChangedCompositePass.vertexBuffer ∈
      (setup (World.start exampleBuilder exampleCompositePass)).2.calls ∧
    registeredProducers (setup (World.start exampleBuilder exampleCompositePass)).2.calls =
      [(exampleChangedCompositePass.vertexBuffer, .compositePassVertexData)] ∧
    (Engine.invokeProducer .compositePassVertexData
      (World.start exampleBuilder exampleChangedCompositePass)).1 =
      .ok (VertexStream.getVertexBuffer exampleChangedMesh.vertices) ∧
    (VertexStream.getVertexBuffer exampleChangedMesh.vertices).length = 36 :=
  ⟨by decide, by rfl, by rfl, by rfl⟩

/-- C7, amended: `CompositePass::setup` never evaluates a producer (in any
world, the producers invoked are the same after it as before it). In
consecutive setups of a pass whose vertex buffer handle starts unassigned, the
first setup creates the vertex buffer, declared with vertex count times vertex
layout size in `size_t` arithmetic, and registers the vertex-data producer for
it, exactly once, and no later setup registers anything; a setup of a pass
whose vertex buffer handle is assigned registers nothing. Whenever the engine
invokes the producer, it yields the bytes of the vertices of the mesh the pass
holds at that moment; their length is the declared size when that mesh is the
one the creating setup saw, each of its vertices holds as many bytes as the
layout says, and the byte count fits `size_t`. -/
theorem vertex_data_producer_is_lazy (b : FrameGraphBuilder) (bs : List FrameGraphBuilder)
    (p : CompositePass) (hfresh : p.vertexBuffer.assigned = false) :
    (∀ w : World CompositePass, (setup w).2.invoked = w.invoked) ∧
    (∀ (b' : FrameGraphBuilder) (p' : CompositePass), p'.vertexBuffer.assigned = true →
      registeredProducers (setup (World.start b' p')).2.calls = []) ∧
    ∃ first rest q, runSetups setup (b :: bs) p = some (first :: rest, q) ∧
      registeredProducers first = [(q.vertexBuffer, .compositePassVertexData)] ∧
      Call.createVertexBuffer
        { size := (p.mesh.vertices.length * p.mesh.vertexLayout.attributes.sum) % 2 ^ 64 }
        q.vertexBuffer ∈ first ∧
      (∀ t ∈ rest, registeredProducers t = []) ∧
      ∀ w : World CompositePass,
        ∃ bytes w', Engine.invokeProducer .compositePassVertexData w = (.ok bytes, w') ∧
          bytes = (w.pass.mesh.vertices.map fun v => v.buffer).flatten ∧
          (w.pass.mesh = p.mesh →
            (∀ v ∈ p.mesh.vertices, v.buffer.length = p.mesh.vertexLayout.attributes.sum) →
            p.mesh.vertices.length * p.mesh.vertexLayout.attributes.sum < 2 ^ 64 →
            bytes.length =
              (p.mesh.vertices.length * p.mesh.vertexLayout.attributes.sum) % 2 ^ 64) := by
  refine ⟨fun w => (composite_graphLocal w).2.1, fun b' p' hvb => ?_, ?_⟩
  · rw [composite_spec]
    show registeredProducers (setupCalls b' p' _) = []
    rw [registeredProducers_setupCalls, hvb]
    rfl
  · obtain ⟨_, _, _, ha1, ha2, _, _, _, _⟩ := composite_persisted b p
    obtain ⟨rest, q, hr, _, _, hq2, _⟩ := compositeSetups_assigned bs (setupWorld b p).pass ha1 ha2
    obtain ⟨hm, hall⟩ := runSetups_registers_nothing bs (setupWorld b p).pass ha2 rest q hr
    refine ⟨(setupWorld b p).calls, rest, q, runSetups_cons b bs p q rest hr, ?_, ?_, hall, ?_⟩
    · show registeredProducers (setupCalls b p _) = _
      rw [registeredProducers_setupCalls, hfresh, hq2]
      rfl
    · rw [hq2]
      show Call.createVertexBuffer
        { size := mulSizeT p.mesh.vertices.length p.mesh.vertexLayout.getSize } _ ∈ _
      simp [setupWorld, setupCalls, hfresh]
    · intro w
      refine ⟨_, _, rfl, rfl, ?_⟩
      intro hmesh hlayout hsize
      show (VertexStream.getVertexBuffer w.pass.mesh.vertices).length = _
      rw [hmesh, Nat.mod_eq_of_lt hsize]
      exact VertexStream.getVertexBuffer_length _ _ hlayout

/-- C7, amended, at the concrete mesh: three vertices of eight bytes each, and
two setups. -/
theorem vertex_data_producer_is_lazy_witness :
    exampleCompositePass.vertexBuffer.assigned = false ∧
    ∃ first rest q,
      runSetups setup [exampleBuilder, exampleBuilder] exampleCompositePass =
        some (first :: rest, q) ∧
      registeredProducers first = [(q.vertexBuffer, .compositePassVertexData)] ∧
      Call.createVertexBuffer { size := 24 } q.vertexBuffer ∈ first ∧
      (∀ t ∈ rest, registeredProducers t = []) ∧
      ∀ w : World CompositePass,
        ∃ bytes w', Engine.invokeProducer .compositePassVertexData w = (.ok bytes, w') ∧
          bytes = (w.pass.mesh.vertices.map fun v => v.buffer).flatten ∧
          (w.pass.mesh = exampleMesh →
            (∀ v ∈ exampleMesh.vertices, v.buffer.length = 8) → 3 * 8 < 2 ^ 64 →
            bytes.length = 24) :=
  ⟨rfl, (vertex_data_producer_is_lazy exampleBuilder [exampleBuilder] exampleCompositePass rfl).2.2⟩

end CompositePass

/-! ## Handles across frames (C9) -/

theorem runFrames_cons_some {P : Type} {setup : Run P Unit}
    {execute : FrameGraphPassResources → FrameInput → Run P Unit} {generation : Nat}
    {i : FrameInput} {is : List FrameInput} {p q : P} {records : List FrameRecord}
    (h : runFrames setup execute generation (i :: is) p = some (records, q)) :
    ∃ w rest, setup (World.start (i.builder generation) p) = (.ok (), w) ∧
      runFrames setup execute (generation + 1) is
        (execute (.ofCalls w.calls) i (World.start w.builder w.pass)).2.pass = some (rest, q) ∧
      records = { calls := w.calls,
                  backend := (execute (.ofCalls w.calls) i
                    (World.start w.builder w.pass)).2.backend } :: rest := by
  rcases hs : setup (World.start (i.builder generation) p) with ⟨_ | _, w⟩
  · simp only [runFrames, hs] at h
    cases h
  rcases hr : runFrames setup execute (generation + 1) is
      (execute (.ofCalls w.calls) i (World.start w.builder w.pass)).2.pass with _ | ⟨rest, q'⟩
  · simp only [runFrames, hs, hr] at h
    cases h
  simp only [runFrames, hs, hr, Option.some.injEq, Prod.mk.injEq] at h
  obtain ⟨rfl, rfl⟩ := h
  exact ⟨w, rest, rfl, hr, rfl⟩

namespace DeferredLightingPass

theorem setupCalls_handles (b : FrameGraphBuilder) (p q : DeferredLightingPass)
    (hvb : p.vertexBufferRes.assigned = true →
      q.vertexBufferRes = p.vertexBufferRes ∧ q.vertexArrayObjectRes = p.vertexArrayObjectRes)
    (hpl : p.pipelineRes.assigned = true → q.pipelineRes = p.pipelineRes)
    (hsh : q.pointLightShadowMapRes.assigned = (b.slots SLOT_SHADOW_MAP_POINT).assigned) :
    passedHandles (setupCalls b p q) ++ executeFetches q ⊆
      returnedHandles (setupCalls b p q) ++ carriedHandles p := by
  have hf : executeFetches q =
      [q.targetRes, q.pipelineRes, q.passRes, q.vertexBufferRes, q.vertexArrayObjectRes,
       q.shaderDataBufferRes, q.pointLightBufferRes, q.shadowPointLightBufferRes,
       q.dirLightBufferRes, q.shadowDirLightBufferRes, q.spotLightBufferRes,
       q.shadowSpotLightBufferRes, q.colorTextureRes, q.depthTextureRes, q.commandBuffer,
       shadowMapHandle q, q.gBufferPosition, q.gBufferNormal, q.gBufferTangent,
       q.gBufferRoughnessMetallicAO, q.gBufferAlbedo, q.gBufferModelObject, q.gBufferDepth] := rfl
  rw [hf]
  cases h1 : p.vertexBufferRes.assigned <;> cases h2 : p.pipelineRes.assigned <;>
    cases h3 : (b.slots SLOT_SHADOW_MAP_POINT).assigned <;>
    simp only [setupCalls, carriedHandles, shadowMapHandle, h1, h2, h3, hsh, ↓reduceIte,
      Bool.false_eq_true, List.nil_append, List.cons_append, List.append_nil] <;>
    simp only [passedHandles, returnedHandles, List.map_cons, List.map_nil, Call.handles,
      List.flatten_cons, List.flatten_nil, List.filterMap_cons, List.filterMap_nil,
      Call.returned, Call.created, List.nil_append, List.cons_append, List.append_nil] <;>
    (try rw [(hvb h1).1, (hvb h1).2]) <;>
    (try rw [hpl h2]) <;>
    simp only [List.cons_subset, List.nil_subset, List.mem_cons, List.mem_append, true_or,
      or_true, and_self, eq_self_iff_true, List.mem_singleton]

/-- What one frame does with handles: every handle passed to a builder method
or to `resources.get` was returned in this frame's setup or is a persisted
handle the pass brought into the frame; the frame persists the three persisted
handles, which the pass holds, assigned, when the frame is over. -/
theorem frame_handles {b : FrameGraphBuilder} {p : DeferredLightingPass}
    {w : World DeferredLightingPass} (hsetup : setup (World.start b p) = (.ok (), w))
    (renderQueues computeQueues transferQueues : List CommandQueue)
    (x : Except Error Unit × World DeferredLightingPass)
    (hx : x = execute (.ofCalls w.calls) renderQueues computeQueues transferQueues
      (World.start w.builder w.pass)) :
    (passedHandles w.calls ++ fetchedHandles x.2.backend ⊆
      returnedHandles w.calls ++ carriedHandles p) ∧
    carriedHandles x.2.pass =
      [w.pass.vertexBufferRes, w.pass.vertexArrayObjectRes, w.pass.pipelineRes] ∧
    x.2.pass.vertexBufferRes.assigned = true ∧ x.2.pass.pipelineRes.assigned = true ∧
    (∀ h ∈ carriedHandles x.2.pass, Call.persist h ∈ w.calls) ∧
    (∀ h ∈ carriedHandles x.2.pass, h ∈ createdHandles w.calls ∨ h ∈ carriedHandles p) ∧
    (p.vertexBufferRes.assigned = true → p.pipelineRes.assigned = true →
      carriedHandles x.2.pass = carriedHandles p) := by
  obtain ⟨hc, hp1, hp2, hp3, ha1, ha2, ha3, hk1, hk2, hcr1, hcr2⟩ := setup_persisted hsetup
  obtain ⟨hok, f, node, t, _, _, _, hw⟩ := setup_world_of_ok hsetup
  have hkept := (execute_membersKept (.ofCalls w.calls) renderQueues computeQueues
    transferQueues (World.start w.builder w.pass)).1
  rw [← hx] at hkept
  have e1 : x.2.pass.vertexBufferRes = w.pass.vertexBufferRes := by rw [hkept]; rfl
  have e2 : x.2.pass.vertexArrayObjectRes = w.pass.vertexArrayObjectRes := by rw [hkept]; rfl
  have e3 : x.2.pass.pipelineRes = w.pass.pipelineRes := by rw [hkept]; rfl
  have hcar : carriedHandles x.2.pass =
      [w.pass.vertexBufferRes, w.pass.vertexArrayObjectRes, w.pass.pipelineRes] := by
    simp [carriedHandles, e1, e2, e3, ha1, ha3]
  refine ⟨?_, hcar, by rw [e1]; exact ha1, by rw [e3]; exact ha3, ?_, ?_, ?_⟩
  · have hsub : passedHandles w.calls ++ executeFetches w.pass ⊆
        returnedHandles w.calls ++ carriedHandles p := by
      rw [hw]
      apply setupCalls_handles b p (setupPass b p f t)
      · intro h
        simp [setupPass, h]
      · intro h
        simp [setupPass, h]
      · cases h : (b.slots SLOT_SHADOW_MAP_POINT).assigned <;> simp [setupPass, h]
    intro h hh
    rw [List.mem_append] at hh
    rcases hh with hh | hh
    · exact hsub (List.mem_append_left _ hh)
    · apply hsub
      apply List.mem_append_right
      rw [hx, execute_after_setup hsetup] at hh
      exact (executeResult_fetches _ _ _ _).1 h hh
  · rw [hcar]
    intro h hh
    simp only [List.mem_cons, List.mem_singleton, List.not_mem_nil, or_false] at hh
    rcases hh with rfl | rfl | rfl
    · exact hp1
    · exact hp2
    · exact hp3
  · rw [hcar]
    have hmem : ∀ (c : Call) (h : FrameGraphResource), c ∈ w.calls → c.created = some h →
        h ∈ createdHandles w.calls := by
      intro c h hc' hh
      unfold createdHandles
      rw [List.mem_filterMap]
      exact ⟨c, hc', hh⟩
    have hv : w.pass.vertexBufferRes ∈ createdHandles w.calls ∨
        w.pass.vertexBufferRes ∈ carriedHandles p := by
      cases hvb : p.vertexBufferRes.assigned
      · obtain ⟨⟨d1, hd1⟩, _⟩ := hcr1 hvb
        exact Or.inl (hmem _ _ hd1 rfl)
      · right
        simp [carriedHandles, hvb, (hk1 hvb).1]
    have hvao : w.pass.vertexArrayObjectRes ∈ createdHandles w.calls ∨
        w.pass.vertexArrayObjectRes ∈ carriedHandles p := by
      cases hvb : p.vertexBufferRes.assigned
      · obtain ⟨_, ⟨d2, hd2⟩⟩ := hcr1 hvb
        exact Or.inl (hmem _ _ hd2 rfl)
      · right
        simp [carriedHandles, hvb, (hk1 hvb).2]
    have hpipe : w.pass.pipelineRes ∈ createdHandles w.calls ∨
        w.pass.pipelineRes ∈ carriedHandles p := by
      cases hpl : p.pipelineRes.assigned
      · obtain ⟨d3, hd3⟩ := hcr2 hpl
        exact Or.inl (hmem _ _ hd3 rfl)
      · right
        simp [carriedHandles, hpl, hk2 hpl]
    intro h hh
    simp only [List.mem_cons, List.mem_singleton, List.not_mem_nil, or_false] at hh
    rcases hh with rfl | rfl | rfl
    · exact hv
    · exact hvao
    · exact hpipe
  · intro hvb hpl
    rw [hcar, (hk1 hvb).1, (hk1 hvb).2, hk2 hpl]
    simp [carriedHandles, hvb, hpl]

theorem runFrames_carried (inputs : List FrameInput) (generation : Nat)
    (p : DeferredLightingPass) (records : List FrameRecord) (q : DeferredLightingPass)
    (hvb : p.vertexBufferRes.assigned = true) (hpl : p.pipelineRes.assigned = true)
    (hrun : runFrames setup executeFrame generation inputs p = some (records, q)) :
    ∀ r ∈ records,
      (passedHandles r.calls ++ fetchedHandles r.backend ⊆
        returnedHandles r.calls ++ carriedHandles p) ∧
      ∀ h ∈ carriedHandles p, Call.persist h ∈ r.calls := by
  induction inputs generalizing generation p records with
  | nil =>
    simp only [runFrames, Option.some.injEq, Prod.mk.injEq] at hrun
    obtain ⟨rfl, rfl⟩ := hrun
    simp
  | cons i is ih =>
    obtain ⟨w, rest, hs, hr, rfl⟩ := runFrames_cons_some hrun
    obtain ⟨h1, _, h3, h4, h5, _, h7⟩ := frame_handles hs i.renderQueues i.computeQueues
      i.transferQueues _ rfl
    have hsame := h7 hvb hpl
    have hrest := ih _ _ _ h3 h4 hr
    intro r hr'
    rcases List.mem_cons.1 hr' with rfl | hr'
    · refine ⟨h1, ?_⟩
      rw [← hsame]
      exact h5
    · have := hrest r hr'
      rw [← hsame]
      exact this

end DeferredLightingPass

namespace CompositePass

theorem compositeCalls_handles (b : FrameGraphBuilder) (p q : CompositePass)
    (hpl : p.pipeline.assigned = true → q.pipeline = p.pipeline)
    (hvb : p.vertexBuffer.assigned = true → q.vertexBuffer = p.vertexBuffer) :
    passedHandles (setupCalls b p q) ⊆
      returnedHandles (setupCalls b p q) ++ carriedHandles p ++ [({} : FrameGraphResource)] := by
  cases h1 : p.pipeline.assigned <;> cases h2 : p.vertexBuffer.assigned <;>
    simp only [setupCalls, carriedHandles, h1, h2, ↓reduceIte,
      Bool.false_eq_true, List.nil_append, List.cons_append, List.append_nil] <;>
    simp only [passedHandles, returnedHandles, List.map_cons, List.map_nil, Call.handles,
      FrameGraphAttachment.handle, List.flatten_cons, List.flatten_nil, List.filterMap_cons,
      List.filterMap_nil, Call.returned, Call.created, List.nil_append, List.cons_append,
      List.append_nil] <;>
    (try rw [hpl h1]) <;>
    (try rw [hvb h2]) <;>
    simp only [List.cons_subset, List.nil_subset, List.mem_cons, List.mem_append, true_or,
      or_true, and_self, eq_self_iff_true, List.mem_singleton]

/-- What one setup does with handles. -/
theorem setup_handles (b : FrameGraphBuilder) (p : CompositePass) :
    (passedHandles (setupWorld b p).calls ⊆
      returnedHandles (setupWorld b p).calls ++ carriedHandles p ++ [({} : FrameGraphResource)]) ∧
    carriedHandles (setupWorld b p).pass =
      [(setupWorld b p).pass.pipeline, (setupWorld b p).pass.vertexBuffer] ∧
    (∀ h ∈ carriedHandles (setupWorld b p).pass, Call.persist h ∈ (setupWorld b p).calls) ∧
    (∀ h ∈ carriedHandles (setupWorld b p).pass,
      h ∈ createdHandles (setupWorld b p).calls ∨ h ∈ carriedHandles p) ∧
    (p.pipeline.assigned = true → p.vertexBuffer.assigned = true →
      carriedHandles (setupWorld b p).pass = carriedHandles p) := by
  obtain ⟨_, hp1, hp2, ha1, ha2, hk1, hk2, hcr1, hcr2⟩ := composite_persisted b p
  have hcar : carriedHandles (setupWorld b p).pass =
      [(setupWorld b p).pass.pipeline, (setupWorld b p).pass.vertexBuffer] := by
    simp [carriedHandles, ha1, ha2]
  have hmem : ∀ (c : Call) (h : FrameGraphResource), c ∈ (setupWorld b p).calls →
      c.created = some h → h ∈ createdHandles (setupWorld b p).calls := by
    intro c h hc' hh
    unfold createdHandles
    rw [List.mem_filterMap]
    exact ⟨c, hc', hh⟩
  refine ⟨compositeCalls_handles b p _ hk1 hk2, hcar, ?_, ?_, ?_⟩
  · rw [hcar]
    intro h hh
    simp only [List.mem_cons, List.mem_singleton, List.not_mem_nil, or_false] at hh
    rcases hh with rfl | rfl
    · exact hp1
    · exact hp2
  · rw [hcar]
    have hpipe : (setupWorld b p).pass.pipeline ∈ createdHandles (setupWorld b p).calls ∨
        (setupWorld b p).pass.pipeline ∈ carriedHandles p := by
      cases hpl : p.pipeline.assigned
      · obtain ⟨d, hd⟩ := hcr1 hpl
        exact Or.inl (hmem _ _ hd rfl)
      · right
        simp [carriedHandles, hpl, hk1 hpl]
    have hv : (setupWorld b p).pass.vertexBuffer ∈ createdHandles (setupWorld b p).calls ∨
        (setupWorld b p).pass.vertexBuffer ∈ carriedHandles p := by
      cases hvb : p.vertexBuffer.assigned
      · obtain ⟨d, hd⟩ := hcr2 hvb
        exact Or.inl (hmem _ _ hd rfl)
      · right
        simp [carriedHandles, hvb, hk2 hvb]
    intro h hh
    simp only [List.mem_cons, List.mem_singleton, List.not_mem_nil, or_false] at hh
    rcases hh with rfl | rfl
    · exact hpipe
    · exact hv
  · intro hpl hvb
    rw [hcar, hk1 hpl, hk2 hvb]
    simp [carriedHandles, hvb, hpl]

theorem runSetups_carried (bs : List FrameGraphBuilder) (p : CompositePass)
    (traces : List (List Call)) (q : CompositePass)
    (hpl : p.pipeline.assigned = true) (hvb : p.vertexBuffer.assigned = true)
    (hrun : runSetups setup bs p = some (traces, q)) :
    ∀ t ∈ traces,
      (passedHandles t ⊆ returnedHandles t ++ carriedHandles p ++ [({} : FrameGraphResource)]) ∧
      ∀ h ∈ carriedHandles p, Call.persist h ∈ t := by
  induction bs generalizing p traces with
  | nil =>
    simp only [runSetups, Option.some.injEq, Prod.mk.injEq] at hrun
    obtain ⟨rfl, rfl⟩ := hrun
    simp
  | cons b bs ih =>
    obtain ⟨w, rest, hs, hr, rfl⟩ := runSetups_cons_some hrun
    rw [composite_spec] at hs
    obtain rfl : setupWorld b p = w := (Prod.mk.inj hs).2
    obtain ⟨h1, _, h3, _, h5⟩ := setup_handles b p
    obtain ⟨_, _, _, ha1, ha2, _⟩ := composite_persisted b p
    have hsame := h5 hpl hvb
    have hrest := ih _ _ ha1 ha2 hr
    intro t ht
    rcases List.mem_cons.1 ht with rfl | ht
    · refine ⟨h1, ?_⟩
      rw [← hsame]
      exact h3
    · have := hrest t ht
      rw [← hsame]
      exact this

theorem runSetups_total (bs : List FrameGraphBuilder) (p : CompositePass) :
    ∃ traces q, runSetups setup bs p = some (traces, q) := by
  induction bs generalizing p with
  | nil => exact ⟨[], p, rfl⟩
  | cons b bs ih =>
    obtain ⟨rest, q, hr⟩ := ih (setupWorld b p).pass
    exact ⟨_, q, runSetups_cons b bs p q rest hr⟩

end CompositePass

/-- C9 fails as stated: in its first setup the `CompositePass` of the concrete
frame passes the empty handle `{}` to `bindVertexBuffers`, twice, for the index
buffer and the instance buffer it does not have (compositepass.cpp, line 90);
no `create*` or `getSlot` call of that setup returned it, and there is no
earlier frame. -/
theorem composite_setup_passes_empty_handle :
    (CompositePass.setup (World.start exampleBuilder exampleCompositePass)).1 = .ok () ∧
    Call.bindVertexBuffers { index := 15, generation := 0, assigned := true } {} {}
        exampleMesh.vertexLayout { attributes := [] } ∈
      (CompositePass.setup (World.start exampleBuilder exampleCompositePass)).2.calls ∧
    (passedHandles
      (CompositePass.setup (World.start exampleBuilder exampleCompositePass)).2.calls).count
        {} = 2 ∧
    (returnedHandles
      (CompositePass.setup (World.start exampleBuilder exampleCompositePass)).2.calls).count
        {} = 0 :=
  ⟨by rfl, by decide, by rfl, by rfl⟩

/-- C9, amended: in every sequence of frames of a pass whose persisted handles
start unassigned, each frame a `setup` that returns normally followed by an
`execute`, every handle `DeferredLightingPass` passes to a builder method or to
`resources.get` in frame `n` was returned by a `create*` or `getSlot` call of
frame `n`'s setup, or was created in an earlier frame `m` and passed to
`persist` in the setup of every frame from `m` to `n`. For `CompositePass`,
whose setups always return normally, the same holds of every handle it passes
to a builder method other than the empty handle `{}` it passes to
`bindVertexBuffers` for the index and instance buffers it does not have. -/
theorem no_stale_handle_is_used :
    (∀ (inputs : List FrameInput) (generation : Nat) (p : DeferredLightingPass)
      (records : List FrameRecord) (q : DeferredLightingPass),
      p.vertexBufferRes.assigned = false → p.pipelineRes.assigned = false →
      runFrames DeferredLightingPass.setup DeferredLightingPass.executeFrame generation inputs p =
        some (records, q) →
      ∀ (n : Nat) (r : FrameRecord), records[n]? = some r →
        ∀ h ∈ passedHandles r.calls ++ fetchedHandles r.backend,
          h ∈ returnedHandles r.calls ∨
          ∃ (m : Nat) (r0 : FrameRecord), m < n ∧ records[m]? = some r0 ∧ h ∈ createdHandles r0.calls ∧
            ∀ (k : Nat) (rk : FrameRecord), m ≤ k → k ≤ n → records[k]? = some rk → Call.persist h ∈ rk.calls) ∧
    (∀ (bs : List FrameGraphBuilder) (p : CompositePass),
      p.pipeline.assigned = false → p.vertexBuffer.assigned = false →
      ∃ traces q, runSetups CompositePass.setup bs p = some (traces, q) ∧
        traces.length = bs.length ∧
        ∀ (n : Nat) (t : List Call), traces[n]? = some t →
          ∀ h ∈ passedHandles t, h ≠ ({} : FrameGraphResource) →
            h ∈ returnedHandles t ∨
            ∃ (m : Nat) (t0 : List Call), m < n ∧ traces[m]? = some t0 ∧ h ∈ createdHandles t0 ∧
              ∀ (k : Nat) (tk : List Call), m ≤ k → k ≤ n → traces[k]? = some tk → Call.persist h ∈ tk) := by
  constructor
  · intro inputs generation p records q hvb hpl hrun n r hn h hh
    cases inputs with
    | nil =>
      simp only [runFrames, Option.some.injEq, Prod.mk.injEq] at hrun
      obtain ⟨rfl, rfl⟩ := hrun
      simp at hn
    | cons i is =>
      obtain ⟨w, rest, hs, hr, rfl⟩ := runFrames_cons_some hrun
      obtain ⟨h1, _, h3, h4, h5, h6, _⟩ := DeferredLightingPass.frame_handles hs i.renderQueues
        i.computeQueues i.transferQueues _ rfl
      have hnone : DeferredLightingPass.carriedHandles p = [] := by
        simp [DeferredLightingPass.carriedHandles, hvb, hpl]
      rw [hnone] at h1 h6
      have hrest := DeferredLightingPass.runFrames_carried is _ _ rest q h3 h4 hr
      cases n with
      | zero =>
        simp only [List.getElem?_cons_zero, Option.some.injEq] at hn
        subst hn
        left
        simpa using h1 hh
      | succ n =>
        simp only [List.getElem?_cons_succ] at hn
        obtain ⟨hsub, hper⟩ := hrest r (List.getElem?_mem hn)
        rcases List.mem_append.1 (hsub hh) with hret | hcar
        · exact Or.inl hret
        · right
          refine ⟨0, _, Nat.succ_pos n, List.getElem?_cons_zero, ?_, ?_⟩
          · rcases h6 h hcar with hc | hc
            · exact hc
            · cases hc
          · intro k rk _ _ hk
            cases k with
            | zero =>
              simp only [List.getElem?_cons_zero, Option.some.injEq] at hk
              subst hk
              exact h5 h hcar
            | succ k =>
              simp only [List.getElem?_cons_succ] at hk
              exact (hrest rk (List.getElem?_mem hk)).2 h hcar
  · intro bs p hpl hvb
    obtain ⟨traces, q, hrun⟩ := CompositePass.runSetups_total bs p
    refine ⟨traces, q, hrun, ?_, ?_⟩
    · cases bs with
      | nil =>
        simp only [runSetups, Option.some.injEq, Prod.mk.injEq] at hrun
        rw [← hrun.1]
        rfl
      | cons b bs =>
        obtain ⟨w, rest, hs, hr, rfl⟩ := runSetups_cons_some hrun
        rw [CompositePass.composite_spec] at hs
        obtain rfl : CompositePass.setupWorld b p = w := (Prod.mk.inj hs).2
        obtain ⟨_, _, _, ha1, ha2, _⟩ := CompositePass.composite_persisted b p
        obtain ⟨rest', q', hr', hl, _⟩ := CompositePass.compositeSetups_assigned bs _ ha1 ha2
        rw [hr] at hr'
        obtain ⟨rfl, rfl⟩ := Prod.mk.inj (Option.some.inj hr')
        simp [hl]
    · intro n t hn h hh hne
      cases bs with
      | nil =>
        simp only [runSetups, Option.some.injEq, Prod.mk.injEq] at hrun
        obtain ⟨rfl, rfl⟩ := hrun
        simp at hn
      | cons b bs =>
        obtain ⟨w, rest, hs, hr, rfl⟩ := runSetups_cons_some hrun
        rw [CompositePass.composite_spec] at hs
        obtain rfl : CompositePass.setupWorld b p = w := (Prod.mk.inj hs).2
        obtain ⟨h1, _, h5, h6, _⟩ := CompositePass.setup_handles b p
        obtain ⟨_, _, _, ha1, ha2, _⟩ := CompositePass.composite_persisted b p
        have hnone : CompositePass.carriedHandles p = [] := by
          simp [CompositePass.carriedHandles, hvb, hpl]
        rw [hnone] at h1 h6
        have hrest := CompositePass.runSetups_carried bs _ rest q ha1 ha2 hr
        cases n with
        | zero =>
          simp only [List.getElem?_cons_zero, Option.some.injEq] at hn
          subst hn
          left
          have := h1 hh
          simp only [List.append_nil, List.mem_append, List.mem_singleton] at this
          rcases this with hret | he
          · exact hret
          · exact absurd he hne
        | succ n =>
          simp only [List.getElem?_cons_succ] at hn
          obtain ⟨hsub, hper⟩ := hrest t (List.getElem?_mem hn)
          have := hsub hh
          simp only [List.mem_append, List.mem_singleton] at this
          rcases this with (hret | hcar) | he
          · exact Or.inl hret
          · right
            refine ⟨0, _, Nat.succ_pos n, List.getElem?_cons_zero, ?_, ?_⟩
            · rcases h6 h hcar with hc | hc
              · exact hc
              · cases hc
            · intro k tk _ _ hk
              cases k with
              | zero =>
                simp only [List.getElem?_cons_zero, Option.some.injEq] at hk
                subst hk
                exact h5 h hcar
              | succ k =>
                simp only [List.getElem?_cons_succ] at hk
                exact (hrest tk (List.getElem?_mem hk)).2 h hcar
          · exact absurd he hne

/-- C9 at two consecutive frames of the concrete input. -/
theorem no_stale_handle_is_used_witness :
    ∃ records q,
      runFrames DeferredLightingPass.setup DeferredLightingPass.executeFrame 0
        [exampleInput, exampleInput] examplePass = some (records, q) ∧
      ∀ (n : Nat) (r : FrameRecord), records[n]? = some r →
        ∀ h ∈ passedHandles r.calls ++ fetchedHandles r.backend,
          h ∈ returnedHandles r.calls ∨
          ∃ (m : Nat) (r0 : FrameRecord), m < n ∧ records[m]? = some r0 ∧
            h ∈ createdHandles r0.calls ∧
            ∀ (k : Nat) (rk : FrameRecord), m ≤ k → k ≤ n → records[k]? = some rk →
              Call.persist h ∈ rk.calls :=
  ⟨_, _, rfl, no_stale_handle_is_used.1 [exampleInput, exampleInput] 0 examplePass _ _ rfl rfl rfl⟩

/-! ## Backend state in setup (C8) and recreation (C10) -/

/-- C8: in every world, with whatever scene, settings and slot bindings the
builder holds and whatever the backend objects have received before,
`CompositePass::setup` and `DeferredLightingPass::setup` (returning or
throwing) leave the calls received by backend objects and the producers invoked
exactly as they were, and change nothing of the builder but what it records for
the graph (the builder calls and the counter of created handles): scene,
settings, sizes, slot table and generation are as before. -/
theorem setup_touches_no_backend_object :
    (∀ w : World CompositePass,
      (CompositePass.setup w).2.backend = w.backend ∧
      (CompositePass.setup w).2.invoked = w.invoked ∧
      (CompositePass.setup w).2.builder.scene = w.builder.scene ∧
      (CompositePass.setup w).2.builder.settings = w.builder.settings ∧
      (CompositePass.setup w).2.builder.backBufferSize = w.builder.backBufferSize ∧
      (CompositePass.setup w).2.builder.renderResolution = w.builder.renderResolution ∧
      (CompositePass.setup w).2.builder.slots = w.builder.slots ∧
      (CompositePass.setup w).2.builder.generation = w.builder.generation) ∧
    (∀ w : World DeferredLightingPass,
      (DeferredLightingPass.setup w).2.backend = w.backend ∧
      (DeferredLightingPass.setup w).2.invoked = w.invoked ∧
      (DeferredLightingPass.setup w).2.builder.scene = w.builder.scene ∧
      (DeferredLightingPass.setup w).2.builder.settings = w.builder.settings ∧
      (DeferredLightingPass.setup w).2.builder.backBufferSize = w.builder.backBufferSize ∧
      (DeferredLightingPass.setup w).2.builder.renderResolution = w.builder.renderResolution ∧
      (DeferredLightingPass.setup w).2.builder.slots = w.builder.slots ∧
      (DeferredLightingPass.setup w).2.builder.generation = w.builder.generation) :=
  ⟨fun w => CompositePass.composite_graphLocal w, fun w => DeferredLightingPass.setup_graphLocal w⟩

/-- C10 fails as stated: the `CompositePass` of the concrete frame, after its
first setup, gets a mesh with another vertex count and another vertex layout,
so that the size of the `VertexBufferDesc` and the `RenderPipelineDesc` it
would compute both differ; its second setup issues no create call at all and
persists the handles of the first. -/
theorem changed_mesh_is_not_recreated :
    mulSizeT exampleChangedMesh.vertices.length exampleChangedMesh.vertexLayout.getSize ≠
      mulSizeT exampleMesh.vertices.length exampleMesh.vertexLayout.getSize ∧
    CompositePass.pipelineDesc exampleChangedMesh ≠ CompositePass.pipelineDesc exampleMesh ∧
    createdHandles (CompositePass.setup
      (World.start (exampleInput.builder 1) exampleChangedCompositePass)).2.calls = [] ∧
    (CompositePass.setup
      (World.start (exampleInput.builder 1) exampleChangedCompositePass)).2.pass =
      exampleChangedCompositePass :=
  ⟨by decide, by decide, by rfl, by rfl⟩

/-- C10, amended: a persisted resource is created only by a setup that finds
its handle unassigned. A `CompositePass::setup` issues `createRenderPipeline`
exactly when `pipeline` is unassigned and `createVertexBuffer` exactly when
`vertexBuffer` is unassigned, and a `DeferredLightingPass::setup` that returns
normally issues `createVertexBuffer` and `createVertexArrayObject` exactly when
`vertexBufferRes` is unassigned and `createPipeline` exactly when `pipelineRes`
is unassigned, whatever the mesh is by then; a handle that is assigned is kept
and persisted again, so a changed descriptor recreates nothing. -/
theorem persisted_resource_created_only_when_unassigned :
    (∀ (b : FrameGraphBuilder) (p : CompositePass),
      CompositePass.persistedCreations (CompositePass.setup (World.start b p)).2.calls =
        (if p.pipeline.assigned then 0 else 1, if p.vertexBuffer.assigned then 0 else 1) ∧
      (p.pipeline.assigned = true →
        (CompositePass.setup (World.start b p)).2.pass.pipeline = p.pipeline ∧
        Call.persist p.pipeline ∈ (CompositePass.setup (World.start b p)).2.calls) ∧
      (p.vertexBuffer.assigned = true →
        (CompositePass.setup (World.start b p)).2.pass.vertexBuffer = p.vertexBuffer ∧
        Call.persist p.vertexBuffer ∈ (CompositePass.setup (World.start b p)).2.calls)) ∧
    (∀ (b : FrameGraphBuilder) (p : DeferredLightingPass) (w : World DeferredLightingPass),
      DeferredLightingPass.setup (World.start b p) = (.ok (), w) →
      DeferredLightingPass.persistedCreations w.calls =
        (if p.vertexBufferRes.assigned then 0 else 1,
         if p.vertexBufferRes.assigned then 0 else 1,
         if p.pipelineRes.assigned then 0 else 1) ∧
      (p.vertexBufferRes.assigned = true →
        w.pass.vertexBufferRes = p.vertexBufferRes ∧
        w.pass.vertexArrayObjectRes = p.vertexArrayObjectRes ∧
        Call.persist p.vertexBufferRes ∈ w.calls ∧
        Call.persist p.vertexArrayObjectRes ∈ w.calls) ∧
      (p.pipelineRes.assigned = true →
        w.pass.pipelineRes = p.pipelineRes ∧ Call.persist p.pipelineRes ∈ w.calls)) := by
  constructor
  · intro b p
    rw [CompositePass.composite_spec]
    obtain ⟨hc, hp1, hp2, _, _, hk1, hk2, _, _⟩ := CompositePass.composite_persisted b p
    refine ⟨hc, fun h => ⟨hk1 h, ?_⟩, fun h => ⟨hk2 h, ?_⟩⟩
    · rw [← hk1 h]
      exact hp1
    · rw [← hk2 h]
      exact hp2
  · intro b p w hsetup
    obtain ⟨hc, hp1, hp2, hp3, _, _, _, hk1, hk2, _, _⟩ :=
      DeferredLightingPass.setup_persisted hsetup
    refine ⟨hc, fun h => ⟨(hk1 h).1, (hk1 h).2, ?_, ?_⟩, fun h => ⟨hk2 h, ?_⟩⟩
    · rw [← (hk1 h).1]
      exact hp1
    · rw [← (hk1 h).2]
      exact hp2
    · rw [← hk2 h]
      exact hp3

/-- C10, amended, at the concrete frame: the second setup of the pass with the
changed mesh keeps and persists the vertex buffer handle of the first. -/
theorem persisted_resource_created_only_when_unassigned_witness :
    (CompositePass.setup (World.start (exampleInput.builder 1)
        exampleChangedCompositePass)).2.pass.vertexBuffer =
      exampleChangedCompositePass.vertexBuffer ∧
    Call.persist exampleChangedCompositePass.vertexBuffer ∈
      (CompositePass.setup (World.start (exampleInput.builder 1)
        exampleChangedCompositePass)).2.calls :=
  (persisted_resource_created_only_when_unassigned.1 (exampleInput.builder 1)
    exampleChangedCompositePass).2.2 rfl

/-! ## The render target (C11) -/

theorem FloatExpr.value?_half_bits : (FloatExpr.bits 0x3F000000).value? = some (1 / 2) := by
  norm_num [FloatExpr.value?]

theorem Vec2iScaled.toVec2i?_of_value {s : Vec2iScaled} {r : ℚ} (h : s.factor.value? = some r) :
    s.toVec2i? =
      some { x := Int.tdiv ((s.base.x : ℚ) * r).num ((s.base.x : ℚ) * r).den
             y := Int.tdiv ((s.base.y : ℚ) * r).num ((s.base.y : ℚ) * r).den } := by
  simp [Vec2iScaled.toVec2i?, h]

namespace DeferredLightingPass

/-- At half the render scale the back buffer of 640 by 480 gives a render
target of 320 by 240. -/
theorem renderSize_half_scale :
    (setup (World.start exampleHalfScaleBuilder examplePass)).2.pass.renderSize.toVec2i? =
      some { x := 320, y := 240 } := by
  have h : (setup (World.start exampleHalfScaleBuilder examplePass)).2.pass.renderSize =
      { base := { x := 640, y := 480 }, factor := .bits 0x3F000000 } := by rfl
  rw [h, Vec2iScaled.toVec2i?_of_value FloatExpr.value?_half_bits]
  norm_num

end DeferredLightingPass

/-! ## Resources bound for the draw (C14) -/

namespace DeferredLightingPass

/-- The log of the run written out: everything up to the end of the command
buffer, followed by the submission when there is a render queue. -/
theorem executeResult_backend (resources : FrameGraphPassResources)
    (renderQueues : List CommandQueue) (b : FrameGraphBuilder) (p : DeferredLightingPass) :
    ∃ pointLights dirLights spotLights more,
      getPointLights p.scene = .ok pointLights ∧ getDirLights p.scene = .ok dirLights ∧
      getSpotLights p.scene = .ok spotLights ∧
      (executeResult resources renderQueues b p).2.backend =
        executeRecorded resources p pointLights dirLights spotLights ++ more ∧
      (executeResult resources renderQueues b p).2.pass = { p with quadAllocated := true } ∧
      ((more = [] ∧ (executeResult resources renderQueues b p).1 ≠ .ok ()) ∨
        ∃ queue, more =
          [.submit queue { kind := .CommandBuffer, handle := p.commandBuffer },
           .clearAttachments { kind := .RenderTarget, handle := p.targetRes }] ∧
          (executeResult resources renderQueues b p).1 = .ok ()) := by
  obtain ⟨pointLights, h1⟩ := getPointLights_ok p.scene
  obtain ⟨dirLights, h2⟩ := getDirLights_ok p.scene
  obtain ⟨spotLights, h3⟩ := getSpotLights_ok p.scene
  unfold executeResult
  rw [h1, h2, h3]
  dsimp only
  rcases h4 : vectorAt renderQueues 0 with e | queue
  · exact ⟨_, _, _, [], rfl, rfl, rfl, by simp, rfl, Or.inl ⟨rfl, by simp⟩⟩
  · exact ⟨_, _, _, _, rfl, rfl, rfl, rfl, rfl, Or.inr ⟨queue, rfl, rfl⟩⟩

theorem boundShaderResources_append (a b : List BackendCall) :
    boundShaderResources (a ++ b) = boundShaderResources a ++ boundShaderResources b := by
  simp [boundShaderResources]

theorem boundShaderResources_fetchCalls (l : List (ResourceKind × FrameGraphResource)) :
    boundShaderResources (fetchCalls l) = [] := by
  induction l with
  | nil => rfl
  | cons x xs ih =>
    simp only [fetchCalls, boundShaderResources, List.map_cons, List.filterMap_cons] at ih ⊢
    exact ih

theorem boundShaderResources_executeRecorded (resources : FrameGraphPassResources)
    (p : DeferredLightingPass) (pointLights : List PointLightData × List PointLightData)
    (dirLights : List DirectionalLightData × List DirectionalLightData)
    (spotLights : List SpotLightData × List SpotLightData) :
    boundShaderResources (executeRecorded resources p pointLights dirLights spotLights) =
      [executeBoundResources p] := by
  unfold executeRecorded
  simp only [boundShaderResources_append, boundShaderResources_fetchCalls, List.nil_append,
    List.append_nil]
  cases hqa : p.quadAllocated <;>
    simp [boundShaderResources, executeLightUploads, executeQuadUpload, executeCommands, hqa,
      List.filterMap_cons]

theorem executeResult_bound (resources : FrameGraphPassResources)
    (renderQueues : List CommandQueue) (b : FrameGraphBuilder) (p : DeferredLightingPass) :
    boundShaderResources (executeResult resources renderQueues b p).2.backend =
      [executeBoundResources p] := by
  obtain ⟨pl, dl, sl, more, _, _, _, hlog, _, hmore⟩ :=
    executeResult_backend resources renderQueues b p
  rw [hlog, boundShaderResources_append, boundShaderResources_executeRecorded]
  rcases hmore with ⟨rfl, _⟩ | ⟨queue, rfl, _⟩ <;> rfl

/-- C14: after a setup that returned normally, with the point-light shadow map
slot bound or unbound, the `execute` that follows, whether it returns or
throws, records exactly one `bindShaderResources` command; the list it binds
has 14 entries, as many as the bindings of
the pipeline descriptor of setup, and entry by entry the kind of the bound
resource is the kind the descriptor declares: one shader storage buffer, six
texture buffers, one texture array buffer, six shader storage buffers. The
setup that creates the pipeline declares it with that descriptor. -/
theorem bound_resources_match_pipeline_bindings (b : FrameGraphBuilder)
    (p : DeferredLightingPass) (w : World DeferredLightingPass)
    (hsetup : setup (World.start b p) = (.ok (), w))
    (renderQueues computeQueues transferQueues : List CommandQueue) :
    (∀ bound ∈ boundShaderResources
        (execute (.ofCalls w.calls) renderQueues computeQueues transferQueues
          (World.start w.builder w.pass)).2.backend,
      bound.length = 14 ∧
      bound.length = (pipelineDesc w.pass.mesh).bindings.length ∧
      bound.map (fun r => r.1.kind.binding) = (pipelineDesc w.pass.mesh).bindings.map some ∧
      bound.map (fun r => r.1.kind) =
        [.ShaderStorageBuffer, .TextureBuffer, .TextureBuffer, .TextureBuffer, .TextureBuffer,
         .TextureBuffer, .TextureBuffer, .TextureArrayBuffer, .ShaderStorageBuffer,
         .ShaderStorageBuffer, .ShaderStorageBuffer, .ShaderStorageBuffer,
         .ShaderStorageBuffer, .ShaderStorageBuffer] ∧
      (bound.get? 7).map (fun r => r.1.handle) =
        some (if (b.slots SLOT_SHADOW_MAP_POINT).assigned then b.slots SLOT_SHADOW_MAP_POINT
              else w.pass.pointLightShadowMapDefaultRes)) ∧
    (boundShaderResources
        (execute (.ofCalls w.calls) renderQueues computeQueues transferQueues
          (World.start w.builder w.pass)).2.backend).length = 1 ∧
    (p.pipelineRes.assigned = false →
      Call.createPipeline (pipelineDesc w.pass.mesh) w.pass.pipelineRes ∈ w.calls) := by
  rw [execute_after_setup hsetup]
  obtain ⟨_, f, node, t, _, _, _, hw⟩ := setup_world_of_ok hsetup
  have h := executeResult_bound (.ofCalls w.calls) renderQueues w.builder w.pass
  have hshadow : shadowMapHandle w.pass =
      if (b.slots SLOT_SHADOW_MAP_POINT).assigned then b.slots SLOT_SHADOW_MAP_POINT
      else w.pass.pointLightShadowMapDefaultRes := by
    rw [hw]
    cases h : (b.slots SLOT_SHADOW_MAP_POINT).assigned <;>
      simp [shadowMapHandle, setupWorld, setupPass, h]
  refine ⟨?_, ?_, ?_⟩
  · intro bound hb
    rw [h, List.mem_singleton] at hb
    subst hb
    refine ⟨rfl, rfl, rfl, rfl, ?_⟩
    rw [← hshadow]
    rfl
  · rw [h]
    rfl
  · intro hpl
    rw [hw]
    simp [setupWorld, setupCalls, setupPass, hpl]

/-- C14 at the concrete frame. -/
theorem bound_resources_match_pipeline_bindings_witness :
    (boundShaderResources
      (execute (.ofCalls exampleSetup.calls) exampleInput.renderQueues [] []
        (World.start exampleSetup.builder exampleSetup.pass)).2.backend).length = 1 :=
  (bound_resources_match_pipeline_bindings exampleBuilder examplePass exampleSetup
    (Prod.ext (by rfl) rfl) exampleInput.renderQueues [] []).2.1

end DeferredLightingPass

/-! ## Light buffers (C15) -/

namespace DeferredLightingPass

theorem mulSizeT_comm (a b : Nat) : mulSizeT a b = mulSizeT b a := by
  unfold mulSizeT
  rw [Nat.mul_comm]

end DeferredLightingPass

/-! ## Commands of the composite pass (C16) -/

namespace CompositePass

theorem recordedCommands_setupCalls (b : FrameGraphBuilder) (p q : CompositePass) :
    recordedCommands (setupCalls b p q) =
      [.blitColor (b.slots SLOT_BACKGROUND_COLOR) (b.slots SLOT_SCREEN_COLOR) { x := 0, y := 0 }
          { x := 0, y := 0 } b.renderResolution b.renderResolution .NEAREST 0 0,
       .beginPass [.texture (b.slots SLOT_SCREEN_COLOR)] (.texture (b.slots SLOT_SCREEN_DEPTH)),
       .bindPipeline q.pipeline,
       .bindVertexBuffers q.vertexBuffer {} {} p.mesh.vertexLayout { attributes := [] },
       .bindShaderResources [
          { resource := b.slots SLOT_DEFERRED_COLOR, access := [(.FRAGMENT, .READ)] },
          { resource := b.slots SLOT_DEFERRED_DEPTH, access := [(.FRAGMENT, .READ)] }],
       .drawArray { offset := 0, count := p.mesh.vertices.length },
       .bindShaderResources [
          { resource := b.slots SLOT_FORWARD_COLOR, access := [(.FRAGMENT, .READ)] },
          { resource := b.slots SLOT_FORWARD_DEPTH, access := [(.FRAGMENT, .READ)] }],
       .drawArray { offset := 0, count := p.mesh.vertices.length },
       .finishPass] := by
  cases h1 : p.pipeline.assigned <;> cases h2 : p.vertexBuffer.assigned <;>
    simp only [setupCalls, h1, h2, ↓reduceIte, Bool.false_eq_true, List.nil_append,
      List.cons_append, List.append_nil] <;>
    rfl

/-- C16: every `CompositePass::setup` returns normally and records its commands
in this order, after which nothing else is recorded: a colour blit from the
handle of the background colour slot to that of the screen colour slot, from
offset zero over the render resolution of the builder on both sides;
`beginPass` on the screen colour and screen depth attachments; `bindPipeline`
with the pass's pipeline; `bindVertexBuffers` with the pass's vertex buffer and
the mesh's layout; `bindShaderResources` of deferred colour and deferred depth
and a `drawArray`; `bindShaderResources` of forward colour and forward depth
and a `drawArray`; `finishPass`. Each draw covers vertices 0 up to the vertex
count of the mesh. -/
theorem composite_commands_in_order (b : FrameGraphBuilder) (p : CompositePass) :
    (setup (World.start b p)).1 = .ok () ∧
    recordedCommands (setup (World.start b p)).2.calls =
      [.blitColor (b.slots SLOT_BACKGROUND_COLOR) (b.slots SLOT_SCREEN_COLOR) { x := 0, y := 0 }
          { x := 0, y := 0 } b.renderResolution b.renderResolution .NEAREST 0 0,
       .beginPass [.texture (b.slots SLOT_SCREEN_COLOR)] (.texture (b.slots SLOT_SCREEN_DEPTH)),
       .bindPipeline (setup (World.start b p)).2.pass.pipeline,
       .bindVertexBuffers (setup (World.start b p)).2.pass.vertexBuffer {} {}
          p.mesh.vertexLayout { attributes := [] },
       .bindShaderResources [
          { resource := b.slots SLOT_DEFERRED_COLOR, access := [(.FRAGMENT, .READ)] },
          { resource := b.slots SLOT_DEFERRED_DEPTH, access := [(.FRAGMENT, .READ)] }],
       .drawArray { offset := 0, count := p.mesh.vertices.length },
       .bindShaderResources [
          { resource := b.slots SLOT_FORWARD_COLOR, access := [(.FRAGMENT, .READ)] },
          { resource := b.slots SLOT_FORWARD_DEPTH, access := [(.FRAGMENT, .READ)] }],
       .drawArray { offset := 0, count := p.mesh.vertices.length },
       .finishPass] ∧
    (∃ declarations, (setup (World.start b p)).2.calls =
      declarations ++ recordedCommands (setup (World.start b p)).2.calls ∧
      recordedCommands declarations = []) ∧
    (setup (World.start b p)).2.pass.pipeline.assigned = true ∧
    (setup (World.start b p)).2.pass.vertexBuffer.assigned = true := by
  rw [composite_spec]
  obtain ⟨_, _, _, ha1, ha2, _⟩ := composite_persisted b p
  refine ⟨rfl, recordedCommands_setupCalls b p _, ?_, ha1, ha2⟩
  show ∃ declarations, setupCalls b p _ = declarations ++ recordedCommands (setupCalls b p _) ∧ _
  rw [recordedCommands_setupCalls]
  refine ⟨(if p.pipeline.assigned then []
      else [.createRenderPipeline (pipelineDesc p.mesh) (setupPass b p).pipeline]) ++
    [.persist (setupPass b p).pipeline,
     .getSlot SLOT_SCREEN_COLOR (b.slots SLOT_SCREEN_COLOR),
     .getSlot SLOT_SCREEN_DEPTH (b.slots SLOT_SCREEN_DEPTH),
     .getSlot SLOT_DEFERRED_COLOR (b.slots SLOT_DEFERRED_COLOR),
     .getSlot SLOT_DEFERRED_DEPTH (b.slots SLOT_DEFERRED_DEPTH),
     .getSlot SLOT_FORWARD_COLOR (b.slots SLOT_FORWARD_COLOR),
     .getSlot SLOT_FORWARD_DEPTH (b.slots SLOT_FORWARD_DEPTH),
     .getSlot SLOT_BACKGROUND_COLOR (b.slots SLOT_BACKGROUND_COLOR)] ++
    (if p.vertexBuffer.assigned then []
     else
      [.createVertexBuffer
          { size := mulSizeT p.mesh.vertices.length p.mesh.vertexLayout.getSize }
          (setupPass b p).vertexBuffer,
       .upload (setupPass b p).vertexBuffer .compositePassVertexData]) ++
    [.persist (setupPass b p).vertexBuffer], ?_, ?_⟩
  · show setupCalls b p (setupPass b p) = _
    simp only [setupCalls, List.append_assoc, List.cons_append, List.nil_append]
  · cases h1 : p.pipeline.assigned <;> cases h2 : p.vertexBuffer.assigned <;>
      simp only [h1, h2, ↓reduceIte, Bool.false_eq_true, List.nil_append,
        List.cons_append, List.append_nil] <;>
      rfl

end CompositePass

/-! ## The screen quad (C17) -/

namespace DeferredLightingPass

end DeferredLightingPass

/-! ## The forward pass (C18) -/

namespace Deferred

theorem RenderTarget.colorAttachment_detachColor (t : RenderTarget) (index : Nat) :
    (t.detachColor index).colorAttachment index = none := by
  unfold RenderTarget.detachColor RenderTarget.colorAttachment
  simp only [List.get?_eq_getElem?]
  by_cases h : index < t.colorAttachments.length
  · rw [List.getElem?_eq_getElem (by simpa using h)]
    simp
  · rw [List.getElem?_eq_none (by simpa using h)]
    rfl

/-- C18: for every G-buffer, scene and forward pipeline, `ForwardPass::render`
makes these calls in this order and no others: on the pass target,
`setNumberOfColorAttachments(1)`, `attachColor(0, *output.color)` and
`attachDepthStencil(*output.depth)`; `pipeline.render` once, on that target,
which then has exactly one colour attachment, holding the output colour
texture, and the output depth texture as depth-stencil, and on the scene; on
the target again, `detachColor(0)` and `detachDepthStencil()`. When `render`
returns, the pass target holds no texture as colour attachment 0 and none as
depth-stencil, whatever the pipeline did to it. -/
theorem forward_render_attaches_and_detaches (pass : ForwardPass)
    (pipeline : RenderTarget → Scene → RenderTarget) (gBuffer : GBuffer) (scene : Scene) :
    ∃ attached : RenderTarget,
      (pass.render pipeline gBuffer scene).2 =
        [.setNumberOfColorAttachments 1, .attachColor 0 pass.outputColor,
         .attachDepthStencil pass.outputDepth, .pipelineRender attached scene,
         .detachColor 0, .detachDepthStencil] ∧
      attached.colorAttachments = [some pass.outputColor] ∧
      attached.depthStencil = some pass.outputDepth ∧
      (pass.render pipeline gBuffer scene).1.passTarget =
        ((pipeline attached scene).detachColor 0).detachDepthStencil ∧
      (pass.render pipeline gBuffer scene).1.passTarget.colorAttachment 0 = none ∧
      (pass.render pipeline gBuffer scene).1.passTarget.depthStencil = none := by
  refine ⟨((gBuffer.passTarget.setNumberOfColorAttachments 1).attachColor 0
    pass.outputColor).attachDepthStencil pass.outputDepth, rfl, ?_, rfl, rfl, ?_, rfl⟩
  · rcases h : gBuffer.passTarget.colorAttachments with _ | ⟨a, as⟩ <;>
      simp [RenderTarget.setNumberOfColorAttachments, RenderTarget.attachColor,
        RenderTarget.attachDepthStencil, h]
  · exact RenderTarget.colorAttachment_detachColor _ 0

end Deferred

/-! ## The resolver (C12, C13) -/

namespace Resolver

theorem produces_lt {graph : List PassNode} {i j : Nat} (h : produces graph i j = true) :
    i < graph.length ∧ j < graph.length ∧ i ≠ j := by
  unfold produces at h
  rcases hi : graph[i]? with _ | a
  · simp [hi] at h
  rcases hj : graph[j]? with _ | b
  · simp [hi, hj] at h
  have h1 := (List.getElem?_eq_some.1 hi).1
  have h2 := (List.getElem?_eq_some.1 hj).1
  refine ⟨h1, h2, ?_⟩
  rintro rfl
  simp at h

theorem ready_iff (graph : List PassNode) (placed : List Nat) (j : Nat) :
    ready graph placed j = true ↔
      j ∉ placed ∧ ∀ i, produces graph i j = true → i ∈ placed := by
  unfold ready
  simp only [Bool.and_eq_true, Bool.not_eq_true', List.all_eq_true, List.mem_range,
    Bool.or_eq_true, List.contains_eq_any_beq, List.any_eq_true, beq_iff_eq, List.any_eq_false,
    beq_eq_false_iff_ne, ne_eq]
  constructor
  · rintro ⟨h1, h2⟩
    refine ⟨fun hm => h1 j hm rfl, fun i hi => ?_⟩
    rcases h2 i (produces_lt hi).1 with h | ⟨x, hx, rfl⟩
    · rw [hi] at h
      cases h
    · exact hx
  · rintro ⟨h1, h2⟩
    refine ⟨fun x hx he => h1 (he ▸ hx), fun i _ => ?_⟩
    cases hp : produces graph i j
    · exact Or.inl rfl
    · exact Or.inr ⟨i, h2 i hp, rfl⟩

theorem precedes_append {order : List Nat} {i j : Nat} (h : Precedes order i j)
    (more : List Nat) : Precedes (order ++ more) i j := by
  obtain ⟨s, t, hst, hs, ht⟩ := h
  have hs' := (List.getElem?_eq_some.1 hs).1
  have ht' := (List.getElem?_eq_some.1 ht).1
  exact ⟨s, t, hst, by rw [List.getElem?_append_left hs']; exact hs,
    by rw [List.getElem?_append_left ht']; exact ht⟩

theorem valid_nil (graph : List PassNode) : Valid graph [] := by
  refine ⟨List.nodup_nil, ?_, ?_, ?_⟩
  · intro j h
    cases h
  · intro i j h
    cases h
  · intro t j h
    simp at h

/-- Placing the earliest registered ready pass keeps the placed passes valid. -/
theorem valid_step {graph : List PassNode} {placed : List Nat} {j : Nat}
    (hv : Valid graph placed)
    (hj : (List.range graph.length).find? (ready graph placed) = some j) :
    Valid graph (placed ++ [j]) := by
  obtain ⟨hnd, hlt, hpre, htb⟩ := hv
  rw [List.find?_range_eq_some] at hj
  obtain ⟨hready, hmem, hfirst⟩ := hj
  rw [ready_iff] at hready
  obtain ⟨hnot, hprod⟩ := hready
  refine ⟨?_, ?_, ?_, ?_⟩
  · rw [List.nodup_append]
    refine ⟨hnd, List.nodup_singleton j, ?_⟩
    intro x hx hx'
    rw [List.mem_singleton] at hx'
    exact hnot (hx' ▸ hx)
  · intro x hx
    rcases List.mem_append.1 hx with hx | hx
    · exact hlt x hx
    · rw [List.mem_singleton] at hx
      rw [hx]
      exact List.mem_range.1 hmem
  · intro i x hx hp
    rcases List.mem_append.1 hx with hx | hx
    · exact precedes_append (hpre i x hx hp) [j]
    · rw [List.mem_singleton] at hx
      subst hx
      obtain ⟨s, hs⟩ := List.mem_iff_getElem?.1 (hprod i hp)
      have hs' := (List.getElem?_eq_some.1 hs).1
      exact ⟨s, placed.length, hs', by rw [List.getElem?_append_left hs']; exact hs,
        List.getElem?_concat_length placed x⟩
  · intro t x ht i hi hnotin
    have htlt : t < (placed ++ [j]).length := (List.getElem?_eq_some.1 ht).1
    rw [List.length_append, List.length_singleton] at htlt
    rcases Nat.lt_succ_iff_lt_or_eq.1 htlt with h | h
    · rw [List.getElem?_append_left h] at ht
      rw [List.take_append_of_le_length (Nat.le_of_lt h)] at hnotin ⊢
      exact htb t x ht i hi hnotin
    · subst h
      rw [List.getElem?_concat_length] at ht
      obtain rfl : j = x := Option.some.inj ht
      rw [List.take_left] at hnotin ⊢
      have hnr := hfirst i hi
      have hnr' : ¬ (ready graph placed i = true) := by simpa using hnr
      rw [ready_iff] at hnr'
      by_contra hcon
      apply hnr'
      refine ⟨hnotin, fun k hk => ?_⟩
      by_contra hk'
      exact hcon ⟨k, hk, hk'⟩

theorem resolveFrom_valid (graph : List PassNode) (remaining : Nat) (placed order : List Nat)
    (hv : Valid graph placed) (h : resolveFrom graph remaining placed = .ok order) :
    Valid graph order ∧ order.length = placed.length + remaining := by
  induction remaining generalizing placed with
  | zero =>
    simp only [resolveFrom, Except.ok.injEq] at h
    subst h
    exact ⟨hv, rfl⟩
  | succ remaining ih =>
    rcases hj : (List.range graph.length).find? (ready graph placed) with _ | j
    · simp only [resolveFrom, hj] at h
      cases h
    · simp only [resolveFrom, hj] at h
      obtain ⟨h1, h2⟩ := ih (placed ++ [j]) (valid_step hv hj) h
      refine ⟨h1, ?_⟩
      rw [h2, List.length_append, List.length_singleton]
      omega

theorem resolveFrom_error (graph : List PassNode) (remaining : Nat) (placed : List Nat)
    (e : Error) (h : resolveFrom graph remaining placed = .error e) : e = .graphError := by
  induction remaining generalizing placed with
  | zero => cases h
  | succ remaining ih =>
    rcases hj : (List.range graph.length).find? (ready graph placed) with _ | j
    · simp only [resolveFrom, hj, Except.error.injEq] at h
      exact h.symm
    · simp only [resolveFrom, hj] at h
      exact ih _ h

theorem resolve_error (graph : List PassNode) (e : Error) (h : resolve graph = .error e) :
    e = .graphError := by
  unfold resolve at h
  split at h
  · cases h
    rfl
  · exact resolveFrom_error _ _ _ _ h

/-- Passes placed without repetition, as many as are registered, are all the
registered passes. -/
theorem mem_of_valid_length {graph : List PassNode} {order : List Nat}
    (hv : Valid graph order) (hl : order.length = graph.length) (i : Nat)
    (hi : i < graph.length) : i ∈ order := by
  obtain ⟨hnd, hlt, _, _⟩ := hv
  have hsub : order.toFinset ⊆ Finset.range graph.length := by
    intro x hx
    rw [List.mem_toFinset] at hx
    exact Finset.mem_range.2 (hlt x hx)
  have hcard : (Finset.range graph.length).card ≤ order.toFinset.card := by
    rw [List.toFinset_card_of_nodup hnd, Finset.card_range, hl]
  have heq := Finset.eq_of_subset_of_card_le hsub hcard
  have : i ∈ order.toFinset := by
    rw [heq]
    exact Finset.mem_range.2 hi
  exact List.mem_toFinset.1 this

theorem exists_unplaced {graph : List PassNode} {placed : List Nat}
    (hv : Valid graph placed) (hl : placed.length < graph.length) :
    ∃ u, u < graph.length ∧ u ∉ placed := by
  obtain ⟨hnd, hlt, _, _⟩ := hv
  by_contra hcon
  have hall : ∀ u, u < graph.length → u ∈ placed := by
    intro u hu
    by_contra hn
    exact hcon ⟨u, hu, hn⟩
  have hsub : Finset.range graph.length ⊆ placed.toFinset := by
    intro x hx
    exact List.mem_toFinset.2 (hall x (Finset.mem_range.1 hx))
  have := Finset.card_le_card hsub
  rw [List.toFinset_card_of_nodup hnd, Finset.card_range] at this
  omega

/-- Without a cycle, while passes remain one of them is ready. -/
theorem exists_ready {graph : List PassNode} {placed : List Nat}
    (hv : Valid graph placed) (hl : placed.length < graph.length) (hc : ¬ HasCycle graph) :
    ∃ j, (List.range graph.length).find? (ready graph placed) = some j := by
  obtain ⟨u, hu, hun⟩ := exists_unplaced hv hl
  let r : Fin graph.length → Fin graph.length → Prop := fun a b =>
    Relation.TransGen (fun a b => produces graph a b = true) a.val b.val
  haveI : IsTrans (Fin graph.length) r := ⟨fun _ _ _ h1 h2 => Relation.TransGen.trans h1 h2⟩
  haveI : IsIrrefl (Fin graph.length) r := ⟨fun a h => hc ⟨a.val, h⟩⟩
  have hwf : WellFounded r := Finite.wellFounded_of_trans_of_irrefl r
  obtain ⟨m, hm, hmin⟩ := hwf.has_min {a | a.val ∉ placed} ⟨⟨u, hu⟩, hun⟩
  have hready : ready graph placed m.val = true := by
    rw [ready_iff]
    refine ⟨hm, fun i hi => ?_⟩
    by_contra hn
    exact hmin ⟨i, (produces_lt hi).1⟩ hn (Relation.TransGen.single hi)
  rcases hf : (List.range graph.length).find? (ready graph placed) with _ | j
  · rw [List.find?_range_eq_none] at hf
    have := hf m.val m.isLt
    rw [hready] at this
    cases this
  · exact ⟨j, rfl⟩

theorem resolveFrom_total (graph : List PassNode) (remaining : Nat) (placed : List Nat)
    (hv : Valid graph placed) (hl : placed.length + remaining = graph.length)
    (hc : ¬ HasCycle graph) : ∃ order, resolveFrom graph remaining placed = .ok order := by
  induction remaining generalizing placed with
  | zero => exact ⟨placed, rfl⟩
  | succ remaining ih =>
    obtain ⟨j, hj⟩ := exists_ready hv (by omega) hc
    obtain ⟨order, ho⟩ := ih (placed ++ [j]) (valid_step hv hj)
      (by rw [List.length_append, List.length_singleton]; omega)
    exact ⟨order, by simp only [resolveFrom, hj]; exact ho⟩

theorem precedes_trans {order : List Nat} (hnd : order.Nodup) {i j k : Nat}
    (h1 : Precedes order i j) (h2 : Precedes order j k) : Precedes order i k := by
  obtain ⟨s, t, hst, hs, ht⟩ := h1
  obtain ⟨s', t', hst', hs', ht'⟩ := h2
  have : t = s' := List.getElem?_inj (List.getElem?_eq_some.1 ht).1 hnd (ht.trans hs'.symm)
  subst this
  exact ⟨s, t', Nat.lt_trans hst hst', hs, ht'⟩

theorem precedes_irrefl {order : List Nat} (hnd : order.Nodup) (i : Nat) :
    ¬ Precedes order i i := by
  rintro ⟨s, t, hst, hs, ht⟩
  have : s = t := List.getElem?_inj (List.getElem?_eq_some.1 hs).1 hnd (hs.trans ht.symm)
  omega

/-- An order the resolver returns has every registered pass exactly once, every
producer before its consumers, and the tie-break. -/
theorem resolve_valid {graph : List PassNode} {order : List Nat}
    (h : resolve graph = .ok order) :
    hasUnorderedWriters graph = false ∧ Valid graph order ∧ order.length = graph.length ∧
    (∀ i, i < graph.length → i ∈ order) ∧
    ∀ i j, produces graph i j = true → Precedes order i j := by
  unfold resolve at h
  split at h
  · cases h
  · rename_i hw
    obtain ⟨hv, hl⟩ := resolveFrom_valid graph graph.length [] order (valid_nil graph) h
    have hl' : order.length = graph.length := by simpa using hl
    have hall := mem_of_valid_length hv hl'
    refine ⟨by simpa using hw, hv, hl', hall, fun i j hp => ?_⟩
    exact hv.2.2.1 i j (hall j (produces_lt hp).2.1) hp

theorem resolve_cycle {graph : List PassNode} (hc : HasCycle graph) :
    resolve graph = .error .graphError := by
  rcases h : resolve graph with e | order
  · rw [resolve_error graph e h]
  · exfalso
    obtain ⟨_, hv, _, _, hpre⟩ := resolve_valid h
    obtain ⟨i, hi⟩ := hc
    have key : ∀ a b, Relation.TransGen (fun a b => produces graph a b = true) a b →
        Precedes order a b := by
      intro a b hab
      induction hab with
      | single h1 => exact hpre _ _ h1
      | tail _ h2 ih => exact precedes_trans hv.1 ih (hpre _ _ h2)
    exact precedes_irrefl hv.1 i (key i i hi)

theorem tieBreak_of_no_producer {graph : List PassNode} {order : List Nat}
    (hv : Valid graph order) (hall : ∀ i, i < graph.length → i ∈ order) (i j : Nat)
    (hij : i < j) (hj : j < graph.length) (hi : ∀ k, produces graph k i = false) :
    Precedes order i j := by
  obtain ⟨t, ht⟩ := List.mem_iff_getElem?.1 (hall j hj)
  have hin : i ∈ order.take t := by
    by_contra hn
    obtain ⟨k, hk, _⟩ := hv.2.2.2 t j ht i hij hn
    rw [hi k] at hk
    cases hk
  rw [List.mem_take_iff_getElem] at hin
  obtain ⟨s, hs, hs'⟩ := hin
  have hs1 : s < t := Nat.lt_of_lt_of_le hs (Nat.min_le_left _ _)
  have hs2 : s < order.length := Nat.lt_of_lt_of_le hs (Nat.min_le_right _ _)
  exact ⟨s, t, hs1, by rw [List.getElem?_eq_getElem hs2, hs'], ht⟩

theorem order_of_two {order : List Nat} {i j : Nat} (hl : order.length = 2)
    (h : Precedes order i j) : order = [i, j] := by
  obtain ⟨s, t, hst, hs, ht⟩ := h
  have ht' := (List.getElem?_eq_some.1 ht).1
  have hs0 : s = 0 := by omega
  have ht1 : t = 1 := by omega
  subst hs0 ht1
  match order, hl with
  | [x, y], _ =>
    simp only [List.getElem?_cons_zero, List.getElem?_cons_succ, Option.some.injEq] at hs ht
    rw [hs, ht]

/-- The graph of a consumer registered before its producer has no cycle and no
unordered writers when the consumer writes nothing the producer reads. -/
theorem two_passes_acyclic (a b : PassNode) (graph : List PassNode)
    (hg : graph = [b, a] ∨ graph = [a, b])
    (x : FrameGraphResource) (hx : x ∈ a.writes) (hx' : x ∈ b.reads)
    (hback : ∀ y ∈ b.writes, y ∉ a.reads) :
    ¬ HasCycle graph ∧ hasUnorderedWriters graph = false ∧
    ((graph = [b, a] → produces graph 1 0 = true) ∧
      (graph = [a, b] → produces graph 0 1 = true)) := by
  have hab : ∃ x ∈ a.writes, x ∈ b.reads := ⟨x, hx, hx'⟩
  have hba : ¬ ∃ x ∈ b.writes, x ∈ a.reads := fun ⟨y, hy, hy'⟩ => hback y hy hy'
  rcases hg with rfl | rfl
  · have h10 : produces [b, a] 1 0 = true := by simp [produces, hab]
    have h0 : ∀ c, produces [b, a] 0 c = false := by
      intro c
      cases hp : produces [b, a] 0 c
      · rfl
      · have := produces_lt hp
        have hc : c = 1 := by simp at this; omega
        subst hc
        simp [produces] at hp
        exact absurd hp hba
    refine ⟨?_, ?_, fun _ => h10, fun h => ?_⟩
    · rintro ⟨i, hi⟩
      obtain ⟨c, hc1, hc2⟩ := Relation.TransGen.head'_iff.1 hi
      have hi1 : i = 1 := by
        have := produces_lt hc1
        by_contra hne
        have hi0 : i = 0 := by simp at this; omega
        subst hi0
        rw [h0 c] at hc1
        cases hc1
      subst hi1
      have hc0 : c = 0 := by
        have := produces_lt hc1
        simp at this
        omega
      subst hc0
      rcases Relation.ReflTransGen.cases_head hc2 with h | ⟨d, hd, _⟩
      · cases h
      · rw [h0 d] at hd
        cases hd
    · simp [hasUnorderedWriters, unorderedWriters, List.range_succ, h10]
    · have := congrArg List.head? h
      simp only [List.head?_cons, Option.some.injEq] at this
      subst this
      exact h10
  · have h01 : produces [a, b] 0 1 = true := by simp [produces, hab]
    have h1 : ∀ c, produces [a, b] 1 c = false := by
      intro c
      cases hp : produces [a, b] 1 c
      · rfl
      · have := produces_lt hp
        have hc : c = 0 := by simp at this; omega
        subst hc
        simp [produces] at hp
        exact absurd hp hba
    refine ⟨?_, ?_, fun h => ?_, fun _ => h01⟩
    · rintro ⟨i, hi⟩
      obtain ⟨c, hc1, hc2⟩ := Relation.TransGen.head'_iff.1 hi
      have hi0 : i = 0 := by
        have := produces_lt hc1
        by_contra hne
        have hi1 : i = 1 := by simp at this; omega
        subst hi1
        rw [h1 c] at hc1
        cases hc1
      subst hi0
      have hc1' : c = 1 := by
        have := produces_lt hc1
        simp at this
        omega
      subst hc1'
      rcases Relation.ReflTransGen.cases_head hc2 with h | ⟨d, hd, _⟩
      · cases h
      · rw [h1 d] at hd
        cases hd
    · simp [hasUnorderedWriters, unorderedWriters, List.range_succ, h01]
    · have := congrArg List.head? h
      simp only [List.head?_cons, Option.some.injEq] at this
      subst this
      exact h01

/-- C13: a graph with a read/write cycle across two or more passes (a chain of
passes each of which writes a resource the next one reads, leading back to its
first pass) makes `resolve` fail with a `GraphError`, and no order, complete
or partial, is returned. -/
theorem cycle_is_graph_error (graph : List PassNode) (hc : HasCycle graph) :
    resolve graph = .error .graphError ∧ ∀ order, resolve graph ≠ .ok order := by
  have h := resolve_cycle hc
  refine ⟨h, fun order ho => ?_⟩
  rw [h] at ho
  cases ho

theorem cycle_is_graph_error_witness :
    produces exampleCycle 0 1 = true ∧ produces exampleCycle 1 0 = true ∧
    resolve exampleCycle = .error .graphError ∧
    ∀ order, resolve exampleCycle ≠ .ok order :=
  have h01 : produces exampleCycle 0 1 = true := by rfl
  have h10 : produces exampleCycle 1 0 = true := by rfl
  ⟨h01, h10,
    cycle_is_graph_error exampleCycle
      ⟨0, Relation.TransGen.tail (Relation.TransGen.single h01) h10⟩⟩

/-- C12, counterexample: with a reader of resource 0 registered first, an
unrelated pass second and the writer of resource 0 third, the order is
`[1, 2, 0]`: the unrelated pass runs before the reader although the two have
no dependency between them and the reader was registered first. No order can
do better: none lists each pass once, puts the writer before the reader and
keeps the registration order of every two passes without a dependency. And
the graph of two writers of one resource has no cycle, yet it is refused. -/
theorem independent_passes_reordered :
    resolve exampleDetour = .ok [1, 2, 0] ∧
    produces exampleDetour 0 1 = false ∧ produces exampleDetour 1 0 = false ∧
    (¬ ∃ order : List Nat, order.Nodup ∧
      (∀ i j, produces exampleDetour i j = true → Precedes order i j) ∧
      ∀ i j, i < j → j < exampleDetour.length → produces exampleDetour i j = false →
        produces exampleDetour j i = false → Precedes order i j) ∧
    ¬ HasCycle exampleTwoWriters ∧
    resolve exampleTwoWriters = .error .graphError := by
  refine ⟨by rfl, by rfl, by rfl, ?_, ?_, by rfl⟩
  · rintro ⟨order, hnd, hp, hk⟩
    have h20 : Precedes order 2 0 := hp 2 0 (by rfl)
    have h01 : Precedes order 0 1 := hk 0 1 (by decide) (by decide) (by rfl) (by rfl)
    have h12 : Precedes order 1 2 := hk 1 2 (by decide) (by decide) (by rfl) (by rfl)
    exact precedes_irrefl hnd 0 (precedes_trans hnd h01 (precedes_trans hnd h12 h20))
  · rintro ⟨i, hi⟩
    obtain ⟨c, hc1, _⟩ := Relation.TransGen.head'_iff.1 hi
    have hlt := produces_lt hc1
    have hi2 : i < 2 := hlt.1
    have hc2 : c < 2 := hlt.2.1
    have hall : ∀ a < 2, ∀ b < 2, produces exampleTwoWriters a b = false := by decide
    rw [hall i hi2 c hc2] at hc1
    cases hc1

/-- C12, amended: for every graph without a cycle and without two unordered
writers of one resource, `resolve` returns an order that lists each pass
exactly once and puts every pass that writes a resource before every pass that
reads it. Ties go to the earliest registered pass: a pass is placed ahead of an
earlier registered one only while that one still waits for a producer, so a
pass that reads nothing another pass writes runs before every pass registered
after it. A writer `a` and a reader `b` of one resource are ordered writer
first whichever of the two was registered first. -/
theorem resolve_orders_producers_first (graph : List PassNode) (hc : ¬ HasCycle graph)
    (hw : hasUnorderedWriters graph = false) :
    (∃ order, resolve graph = .ok order ∧ order.Nodup ∧ order.length = graph.length ∧
      (∀ i, i ∈ order ↔ i < graph.length) ∧
      (∀ i j, produces graph i j = true → Precedes order i j) ∧
      TieBreak graph order ∧
      ∀ i j, i < j → j < graph.length → (∀ k, produces graph k i = false) →
        Precedes order i j) ∧
    ∀ (a b : PassNode) (x : FrameGraphResource), x ∈ a.writes → x ∈ b.reads →
      (∀ y ∈ b.writes, y ∉ a.reads) →
      resolve [b, a] = .ok [1, 0] ∧ resolve [a, b] = .ok [0, 1] := by
  have total : ∀ g : List PassNode, ¬ HasCycle g → hasUnorderedWriters g = false →
      ∃ order, resolve g = .ok order := by
    intro g hg hu
    obtain ⟨order, ho⟩ := resolveFrom_total g g.length [] (valid_nil g) (by simp) hg
    exact ⟨order, by simp only [resolve, hu, Bool.false_eq_true, ↓reduceIte, ho]⟩
  constructor
  · obtain ⟨order, ho⟩ := total graph hc hw
    obtain ⟨_, hv, hl, hall, hp⟩ := resolve_valid ho
    exact ⟨order, ho, hv.1, hl, fun i => ⟨hv.2.1 i, hall i⟩, hp, hv.2.2.2,
      fun i j hij hj hi => tieBreak_of_no_producer hv hall i j hij hj hi⟩
  · intro a b x hx hx' hback
    constructor
    · obtain ⟨hg, hu, h10, _⟩ := two_passes_acyclic a b [b, a] (Or.inl rfl) x hx hx' hback
      obtain ⟨order, ho⟩ := total _ hg hu
      obtain ⟨_, _, hl, _, hp⟩ := resolve_valid ho
      rw [ho, order_of_two hl (hp 1 0 (h10 rfl))]
    · obtain ⟨hg, hu, _, h01⟩ := two_passes_acyclic a b [a, b] (Or.inr rfl) x hx hx' hback
      obtain ⟨order, ho⟩ := total _ hg hu
      obtain ⟨_, _, hl, _, hp⟩ := resolve_valid ho
      rw [ho, order_of_two hl (hp 0 1 (h01 rfl))]

theorem resolve_orders_producers_first_witness :
    ¬ HasCycle exampleDetour ∧ hasUnorderedWriters exampleDetour = false ∧
    ((∃ order, resolve exampleDetour = .ok order ∧ order.Nodup ∧
        order.length = exampleDetour.length ∧
        (∀ i, i ∈ order ↔ i < exampleDetour.length) ∧
        (∀ i j, produces exampleDetour i j = true → Precedes order i j) ∧
        TieBreak exampleDetour order ∧
        ∀ i j, i < j → j < exampleDetour.length →
          (∀ k, produces exampleDetour k i = false) → Precedes order i j) ∧
      ∀ (a b : PassNode) (x : FrameGraphResource), x ∈ a.writes → x ∈ b.reads →
        (∀ y ∈ b.writes, y ∉ a.reads) →
        resolve [b, a] = .ok [1, 0] ∧ resolve [a, b] = .ok [0, 1]) :=
  have hc : ¬ HasCycle exampleDetour := fun h => by
    have he := resolve_cycle h
    rw [show resolve exampleDetour = .ok [1, 2, 0] from rfl] at he
    cases he
  have hw : hasUnorderedWriters exampleDetour = false := by rfl
  ⟨hc, hw, resolve_orders_producers_first exampleDetour hc hw⟩

end Resolver

end Mana
